import Mathlib

/-!
# DiceFirmware: the Bluetooth stack, the NTC lookup and the temperature driver

A shallow embedding of `src/bluetooth/bluetooth_stack.cpp` (the connection/advertising
state machine and the flow-controlled notification channel), of `lookupTemperature` in
`src/drivers_hw/ntc.cpp` and of `src/drivers_nrf/temperature.cpp`.

* The file-level statics of `Bluetooth::Stack` are the fields of `StackState`; those of
  `DriversNRF::Temperature` the fields of `TemperatureState`.
* Every call that leaves a module (SoftDevice `sd_*` calls, the advertising
  module, `PowerManager`, the sensor providers, subscriber callbacks) is
  appended, in program order, to the state's `trace`.
* The return code of an SDK call is an input of the embedded function.
* A subscriber callback is foreign code. In `ble_evt_handler` it leaves the registries
  alone; in `ble_evt_handlerWith` it may unhook itself while the dispatch loop runs, and
  the loop reads `Count()` and the entry at its index from the live registry.
* `NRF_LOG_*` lines have no effect on the state and are left out, except the error line
  of `Temperature::hook`, which is that function's only report of a failed registration.
* Machine integers are `Nat` or `Int`; a `void*` token is a `Nat` with `nullptr = 0`.
* Floating-point expressions stay outside: the embedded functions start from their
  integer results.
-/

namespace DiceFirmware

/-! ## SDK constants used by the module (values of the nRF5 SDK headers) -/

def NRF_SUCCESS : Nat := 0
def BLE_CONN_HANDLE_INVALID : Nat := 0xFFFF
def BLE_GAP_PHY_AUTO : Nat := 0
def BLE_HCI_REMOTE_USER_TERMINATED_CONNECTION : Nat := 0x13
def BLE_GAP_SEC_STATUS_PAIRING_NOT_SUPP : Nat := 0x85
def BLE_GATT_HVX_NOTIFICATION : Nat := 0x01
def BLE_GAP_ADV_TIMEOUT_GENERAL_UNLIMITED : Nat := 0
def BLE_ADV_MODE_IDLE : Nat := 0
def BLE_ADV_MODE_FAST : Nat := 3
def BLE_ADV_MODE_SLOW : Nat := 4

/-! ## Constants of `bluetooth_stack.cpp` -/

def APP_ADV_INTERVAL : Nat := 300
def APP_ADV_DURATION : Nat := BLE_GAP_ADV_TIMEOUT_GENERAL_UNLIMITED
def MAX_CLIENTS : Nat := 2
def RSSI_THRESHOLD_DBM : Nat := 1
def nullptr : Nat := 0

/-! ## Callbacks and registries -/

/-- A function pointer. The two callbacks defined by the stack module itself are
named; `client id` is a callback that belongs to some other module;
`temperatureInitLambda` is the lambda that `Temperature::init` registers. -/
inductive Handler where
  | onRollStateChange
  | onBatteryLevelChange
  | client (id : Nat)
  | temperatureInitLambda
deriving DecidableEq, Repr

/-- One registry entry: the caller's context token and the callback. -/
structure Delegate where
  token : Nat
  handler : Handler
deriving DecidableEq, Repr

/-- Modelled from the spec: `core/delegate_array.h` (the `DelegateArray<T, N>` template) is
not among the sources. Spec §2/§4.1: a fixed-capacity, ordered subscriber list mapping an
opaque context token to a callback. `maxCount` is the template's capacity argument. -/
structure DelegateArray where
  maxCount : Nat
  items : List Delegate
deriving DecidableEq, Repr

namespace DelegateArray

/-- Modelled from the spec: the number of entries currently registered. -/
def Count (a : DelegateArray) : Nat := a.items.length

/-- Modelled from the spec: `register(token, handler) -> bool` fails (returns false) when
capacity is exhausted; succeeds and appends otherwise, order defines dispatch order. -/
def Register (a : DelegateArray) (token : Nat) (handler : Handler) : Bool × DelegateArray :=
  if a.items.length < a.maxCount then
    (true, { a with items := a.items ++ [{ token := token, handler := handler }] })
  else
    (false, a)

/-- Modelled from the spec: `unregisterByHandler(handler)` removes the first (only)
matching entry. -/
def UnregisterWithHandler (a : DelegateArray) (handler : Handler) : DelegateArray :=
  { a with items := a.items.eraseP (fun d => decide (d.handler = handler)) }

/-- Modelled from the spec: `unregisterByToken(token)` removes the entry whose token
matches. -/
def UnregisterWithToken (a : DelegateArray) (token : Nat) : DelegateArray :=
  { a with items := a.items.eraseP (fun d => decide (d.token = token)) }

/-- Whether some entry carries the given callback. -/
def subscribed (a : DelegateArray) (handler : Handler) : Bool :=
  a.items.any (fun d => decide (d.handler = handler))

/-- How many entries carry the given callback. -/
def registrations (a : DelegateArray) (handler : Handler) : Nat :=
  a.items.countP (fun d => decide (d.handler = handler))

end DelegateArray

/-! ## Module state -/

/-- The `CustomManufacturerData` struct (packed, five `uint8_t`-sized fields). -/
structure CustomManufacturerData where
  ledCount : Nat
  designAndColor : Nat
  rollState : Nat
  currentFace : Nat
  batteryLevel : Nat
deriving DecidableEq, Repr

/-- The `CustomServiceData` struct (packed, two `uint32_t` fields). -/
structure CustomServiceData where
  deviceId : Nat
  buildTimestamp : Nat
deriving DecidableEq, Repr

/-- The fields of the SDK's `ble_adv_modes_config_t` that the module writes. -/
structure ble_adv_modes_config_t where
  ble_adv_on_disconnect_disabled : Bool
  ble_adv_fast_enabled : Bool
  ble_adv_fast_interval : Nat
  ble_adv_fast_timeout : Nat
deriving DecidableEq, Repr

/-- A call that leaves the module, with its arguments. -/
inductive Call where
  | PowerManager_feed
  | PowerManager_reset
  | connectionHandler (handler : Handler) (token : Nat) (connected : Bool)
  | rssiHandler (handler : Handler) (token : Nat) (rssi : Int) (chIndex : Nat)
  | Accelerometer_hookRollState (handler : Handler) (param : Nat)
  | Accelerometer_unHookRollState (handler : Handler)
  | BatteryController_hookLevel (handler : Handler) (param : Nat)
  | BatteryController_unHookLevel (handler : Handler)
  | sd_ble_gap_phy_update (conn_handle tx_phys rx_phys : Nat)
  | sd_ble_gap_disconnect (conn_handle hci_status : Nat)
  | sd_ble_gap_sec_params_reply (conn_handle sec_status : Nat)
  | sd_ble_gatts_sys_attr_set (conn_handle len flags : Nat)
  | sd_ble_gatts_hvx (conn_handle handle : Nat) (data : List Nat) (len type : Nat)
  | sd_ble_gap_rssi_start (conn_handle threshold_dbm skip_count : Nat)
  | sd_ble_gap_rssi_stop (conn_handle : Nat)
  | ble_advertising_advdata_update
  | ble_advdata_encode (scanResponse : Bool)
  | ble_advertising_start (advertising_mode : Nat)
  | ble_advertising_modes_config_set (config : ble_adv_modes_config_t)
  | app_error_handler (err_code : Nat)
deriving DecidableEq, Repr

/-- The statics of `Bluetooth::Stack`, the registries of the two sensor providers the
module subscribes to, and the log of outgoing calls. -/
structure StackState where
  connectionHandle : Nat
  notificationPending : Bool
  connected : Bool
  currentlyAdvertising : Bool
  resetOnDisconnectPending : Bool
  clients : DelegateArray
  rssiClients : DelegateArray
  customManufacturerData : CustomManufacturerData
  customServiceData : CustomServiceData
  /-- The mode configuration held by `advertisingModule`. -/
  advModesConfig : ble_adv_modes_config_t
  /-- The roll-state registry of `Modules::Accelerometer`. -/
  rollStateClients : DelegateArray
  /-- The level registry of `Modules::BatteryController`. -/
  batteryLevelClients : DelegateArray
  trace : List Call
deriving DecidableEq, Repr

/-- The state right after static initialisation. The capacities of the two provider
registries are declared outside the sources and are parameters. -/
def initialState (rollStateMax batteryLevelMax : Nat) : StackState :=
  { connectionHandle := BLE_CONN_HANDLE_INVALID
    notificationPending := false
    connected := false
    currentlyAdvertising := false
    resetOnDisconnectPending := false
    clients := { maxCount := MAX_CLIENTS, items := [] }
    rssiClients := { maxCount := MAX_CLIENTS, items := [] }
    customManufacturerData :=
      { ledCount := 0, designAndColor := 0, rollState := 0, currentFace := 0, batteryLevel := 0 }
    customServiceData := { deviceId := 0, buildTimestamp := 0 }
    advModesConfig :=
      { ble_adv_on_disconnect_disabled := false, ble_adv_fast_enabled := false,
        ble_adv_fast_interval := 0, ble_adv_fast_timeout := 0 }
    rollStateClients := { maxCount := rollStateMax, items := [] }
    batteryLevelClients := { maxCount := batteryLevelMax, items := [] }
    trace := [] }

namespace StackState

/-- Append one outgoing call to the log. -/
def log (s : StackState) (c : Call) : StackState :=
  { s with trace := s.trace ++ [c] }

/-- Append a run of outgoing calls to the log. -/
def logAll (s : StackState) (cs : List Call) : StackState :=
  { s with trace := s.trace ++ cs }

end StackState

/-- How a callback of the module ends: it returns, or `APP_ERROR_CHECK` hands a
non-success code to the fatal error handler, or the device is reset. The state is the
one at that point. -/
inductive Outcome where
  | returned (s : StackState)
  | fatal (err_code : Nat) (s : StackState)
  | reset (s : StackState)
deriving DecidableEq, Repr

namespace Outcome

/-- Sequencing: the continuation runs only when control came back. -/
def andThen (o : Outcome) (k : StackState → Outcome) : Outcome :=
  match o with
  | returned s => k s
  | fatal e s => fatal e s
  | reset s => reset s

/-- The state carried by an outcome. -/
def state : Outcome → StackState
  | returned s => s
  | fatal _ s => s
  | reset s => s

end Outcome

/-- The SDK macro `APP_ERROR_CHECK(err_code)`: anything but `NRF_SUCCESS` goes to the
application error handler. -/
def APP_ERROR_CHECK (err_code : Nat) (s : StackState) : Outcome :=
  if err_code = NRF_SUCCESS then Outcome.returned s
  else Outcome.fatal err_code (s.log (Call.app_error_handler err_code))

/-! ## Collaborators outside the sources -/

/-- Modelled from the spec: `Accelerometer::hookRollState` (modules/accelerometer is not
among the sources). Spec §6: the roll-state provider exposes subscribe/unsubscribe to
roll-state changes; a subscription is a registry entry (§3, §4.1). -/
def Accelerometer_hookRollState (method : Handler) (param : Nat) (s : StackState) : StackState :=
  { s.log (Call.Accelerometer_hookRollState method param) with
    rollStateClients := (s.rollStateClients.Register param method).2 }

/-- Modelled from the spec: `Accelerometer::unHookRollState`, unsubscribe by callback. -/
def Accelerometer_unHookRollState (method : Handler) (s : StackState) : StackState :=
  { s.log (Call.Accelerometer_unHookRollState method) with
    rollStateClients := s.rollStateClients.UnregisterWithHandler method }

/-- Modelled from the spec: `BatteryController::hookLevel` (modules/battery_controller is
not among the sources). Spec §6: the battery-level provider exposes subscribe/unsubscribe
to level changes. -/
def BatteryController_hookLevel (method : Handler) (param : Nat) (s : StackState) : StackState :=
  { s.log (Call.BatteryController_hookLevel method param) with
    batteryLevelClients := (s.batteryLevelClients.Register param method).2 }

/-- Modelled from the spec: `BatteryController::unHookLevel`, unsubscribe by callback. -/
def BatteryController_unHookLevel (method : Handler) (s : StackState) : StackState :=
  { s.log (Call.BatteryController_unHookLevel method) with
    batteryLevelClients := s.batteryLevelClients.UnregisterWithHandler method }

/-- Modelled from the spec: `PowerManager::reset` (drivers_nrf/power_manager is not among
the sources). Spec §4.4: a full device reset as the terminal action of the transition. -/
def PowerManager_reset (s : StackState) : Outcome :=
  Outcome.reset (s.log Call.PowerManager_reset)

/-! ## Radio-stack events -/

/-- The BLE events the handler tells apart, each with the fields the handler reads. -/
inductive ble_evt_t where
  | BLE_GAP_EVT_DISCONNECTED (conn_handle reason : Nat)
  | BLE_GAP_EVT_CONNECTED (conn_handle : Nat)
  | BLE_GAP_EVT_PHY_UPDATE_REQUEST (conn_handle : Nat)
  | BLE_GAP_EVT_RSSI_CHANGED (conn_handle : Nat) (rssi : Int) (ch_index : Nat)
  | BLE_GATTC_EVT_TIMEOUT (conn_handle : Nat)
  | BLE_GATTS_EVT_TIMEOUT (conn_handle : Nat)
  | BLE_GAP_EVT_SEC_PARAMS_REQUEST (conn_handle : Nat)
  | BLE_GATTS_EVT_SYS_ATTR_MISSING (conn_handle : Nat)
  | BLE_GATTS_EVT_HVN_TX_COMPLETE (conn_handle count : Nat)
  | BLE_GATTS_EVT_HVC (conn_handle handle : Nat)
  | other (evt_id : Nat)
deriving DecidableEq, Repr

/-- The advertising-module events. -/
inductive ble_adv_evt_t where
  | BLE_ADV_EVT_IDLE
  | BLE_ADV_EVT_FAST
  | other (evt_id : Nat)
deriving DecidableEq, Repr

/-- The result type of `send`. -/
inductive SendResult where
  | SendResult_Ok
  | SendResult_Busy
  | SendResult_NotConnected
  | SendResult_Error
deriving DecidableEq, Repr

/-! ## The functions of `Bluetooth::Stack` -/

namespace Stack

/-- The loop `for (i < clients.Count()) clients[i].handler(clients[i].token, connected)`
for subscriber callbacks that leave the registry alone: each invocation is logged in
order. The loop for callbacks that unhook themselves, which indexes the live registry and
reads `Count()` at every turn, is `notifyClientsWith`; the two agree while no registered
callback unhooks itself (`notifyClientsWith_inert`). -/
def notifyClients (connected : Bool) (s : StackState) : StackState :=
  s.logAll (s.clients.items.map (fun d => Call.connectionHandler d.handler d.token connected))

/-- The loop over `rssiClients` of the RSSI event, for subscriber callbacks that leave the
registry alone. The loop for callbacks that unhook themselves is `notifyRssiClientsWith`;
the two agree while no registered callback unhooks itself
(`notifyRssiClientsWith_inert`). -/
def notifyRssiClients (rssi : Int) (chIndex : Nat) (s : StackState) : StackState :=
  s.logAll (s.rssiClients.items.map (fun d => Call.rssiHandler d.handler d.token rssi chIndex))

/-- `ble_evt_handler`, for subscriber callbacks that leave the registries alone
(`ble_evt_handlerWith` is the handler for callbacks that unhook themselves, and agrees
with this one while no registered callback does). `sd_result` is the code returned by the
one SoftDevice call the event's case makes, if it makes one. -/
def ble_evt_handler (sd_result : Nat) (evt : ble_evt_t) (s : StackState) : Outcome :=
  let afterSwitch : Outcome :=
    match evt with
    | ble_evt_t.BLE_GAP_EVT_DISCONNECTED _ _ =>
      let s := { s with connected := false }
      let s := { s with currentlyAdvertising := true }
      let s := notifyClients false s
      if s.resetOnDisconnectPending then PowerManager_reset s else Outcome.returned s
    | ble_evt_t.BLE_GAP_EVT_CONNECTED conn_handle =>
      let s := { s with connectionHandle := conn_handle }
      let s := { s with currentlyAdvertising := false }
      let s := { s with connected := true }
      let s := notifyClients true s
      let s := Accelerometer_unHookRollState Handler.onRollStateChange s
      let s := BatteryController_unHookLevel Handler.onBatteryLevelChange s
      Outcome.returned s
    | ble_evt_t.BLE_GAP_EVT_PHY_UPDATE_REQUEST conn_handle =>
      APP_ERROR_CHECK sd_result
        (s.log (Call.sd_ble_gap_phy_update conn_handle BLE_GAP_PHY_AUTO BLE_GAP_PHY_AUTO))
    | ble_evt_t.BLE_GAP_EVT_RSSI_CHANGED _ rssi ch_index =>
      Outcome.returned (notifyRssiClients rssi ch_index s)
    | ble_evt_t.BLE_GATTC_EVT_TIMEOUT conn_handle =>
      APP_ERROR_CHECK sd_result
        (s.log (Call.sd_ble_gap_disconnect conn_handle BLE_HCI_REMOTE_USER_TERMINATED_CONNECTION))
    | ble_evt_t.BLE_GATTS_EVT_TIMEOUT conn_handle =>
      APP_ERROR_CHECK sd_result
        (s.log (Call.sd_ble_gap_disconnect conn_handle BLE_HCI_REMOTE_USER_TERMINATED_CONNECTION))
    | ble_evt_t.BLE_GAP_EVT_SEC_PARAMS_REQUEST _ =>
      APP_ERROR_CHECK sd_result
        (s.log (Call.sd_ble_gap_sec_params_reply s.connectionHandle
          BLE_GAP_SEC_STATUS_PAIRING_NOT_SUPP))
    | ble_evt_t.BLE_GATTS_EVT_SYS_ATTR_MISSING _ =>
      APP_ERROR_CHECK sd_result (s.log (Call.sd_ble_gatts_sys_attr_set s.connectionHandle 0 0))
    | ble_evt_t.BLE_GATTS_EVT_HVN_TX_COMPLETE _ _ =>
      Outcome.returned { s with notificationPending := false }
    | ble_evt_t.BLE_GATTS_EVT_HVC _ _ =>
      Outcome.returned { s with notificationPending := false }
    | ble_evt_t.other _ =>
      Outcome.returned s
  afterSwitch.andThen (fun s => Outcome.returned (s.log Call.PowerManager_feed))

/-- `on_adv_evt`. `sd_result` is the code returned by `ble_advertising_advdata_update`. -/
def on_adv_evt (sd_result : Nat) (ble_adv_evt : ble_adv_evt_t) (s : StackState) : Outcome :=
  match ble_adv_evt with
  | ble_adv_evt_t.BLE_ADV_EVT_FAST =>
    (APP_ERROR_CHECK sd_result (s.log Call.ble_advertising_advdata_update)).andThen (fun s =>
      let s := Accelerometer_hookRollState Handler.onRollStateChange nullptr s
      let s := BatteryController_hookLevel Handler.onBatteryLevelChange nullptr s
      Outcome.returned { s with currentlyAdvertising := true })
  | ble_adv_evt_t.BLE_ADV_EVT_IDLE =>
    Outcome.returned { s with currentlyAdvertising := false }
  | ble_adv_evt_t.other _ =>
    Outcome.returned s

/-- `advertising_config_get`: zero the configuration, then enable fast mode. -/
def advertising_config_get : ble_adv_modes_config_t :=
  { ble_adv_on_disconnect_disabled := false
    ble_adv_fast_enabled := true
    ble_adv_fast_interval := APP_ADV_INTERVAL
    ble_adv_fast_timeout := APP_ADV_DURATION }

/-- The SDK call `ble_advertising_modes_config_set`: the module keeps the configuration. -/
def ble_advertising_modes_config_set (config : ble_adv_modes_config_t) (s : StackState) :
    StackState :=
  { s.log (Call.ble_advertising_modes_config_set config) with advModesConfig := config }

/-- `isAdvertising`. -/
def isAdvertising (s : StackState) : Bool × StackState :=
  (s.currentlyAdvertising, s)

/-- `disableAdvertisingOnDisconnect`. -/
def disableAdvertisingOnDisconnect (s : StackState) : StackState :=
  let config := advertising_config_get
  let config := { config with ble_adv_on_disconnect_disabled := true }
  ble_advertising_modes_config_set config s

/-- `enableAdvertisingOnDisconnect`. -/
def enableAdvertisingOnDisconnect (s : StackState) : StackState :=
  let config := advertising_config_get
  let config := { config with ble_adv_on_disconnect_disabled := false }
  ble_advertising_modes_config_set config s

/-- `resetOnDisconnect`. -/
def resetOnDisconnect (s : StackState) : StackState :=
  { s with resetOnDisconnectPending := true }

/-- `canSend`. -/
def canSend (s : StackState) : Bool × StackState :=
  (!s.notificationPending, s)

/-- `send`. `hvx_result` is the code returned by `sd_ble_gatts_hvx` when the call is
made; `data` are the bytes behind the pointer and `len` the length argument. -/
def send (hvx_result : Nat) (handle : Nat) (data : List Nat) (len : Nat) (s : StackState) :
    SendResult × StackState :=
  let s := s.log Call.PowerManager_feed
  if s.connected then
    if !s.notificationPending then
      let s := { s with notificationPending := true }
      let s := s.log (Call.sd_ble_gatts_hvx s.connectionHandle handle data len
        BLE_GATT_HVX_NOTIFICATION)
      if hvx_result = NRF_SUCCESS then
        (SendResult.SendResult_Ok, s)
      else
        (SendResult.SendResult_Error, { s with notificationPending := false })
    else
      (SendResult.SendResult_Busy, s)
  else
    (SendResult.SendResult_NotConnected, s)

/-- `isConnected`. -/
def isConnected (s : StackState) : Bool × StackState :=
  (s.connected, s)

/-- `startAdvertising`. `currentFace` and `currentRollState` are the values returned by
`Accelerometer::currentFace()` (an `int`, stored into a `uint8_t`) and
`Accelerometer::currentRollState()`; `SDK_VER` is the build macro that selects how the
payload is re-encoded; `r1`, `r2`, `r3` are the codes returned by the payload update (or
first encode), the second encode (older SDK only) and `ble_advertising_start`. -/
def startAdvertising (SDK_VER : Nat) (currentFace : Int) (currentRollState : Nat)
    (r1 r2 r3 : Nat) (s : StackState) : Outcome :=
  let s := { s with customManufacturerData :=
    { s.customManufacturerData with currentFace := (currentFace % 256).toNat } }
  let s := { s with customManufacturerData :=
    { s.customManufacturerData with rollState := currentRollState } }
  let afterEncode : Outcome :=
    if 16 ≤ SDK_VER then
      APP_ERROR_CHECK r1 (s.log Call.ble_advertising_advdata_update)
    else
      (APP_ERROR_CHECK r1 (s.log (Call.ble_advdata_encode false))).andThen (fun s =>
        APP_ERROR_CHECK r2 (s.log (Call.ble_advdata_encode true)))
  afterEncode.andThen (fun s =>
    APP_ERROR_CHECK r3 (s.log (Call.ble_advertising_start BLE_ADV_MODE_FAST)))

/-- `hook`: the `bool` returned by `Register` is dropped, the function is `void`. -/
def hook (method : Handler) (param : Nat) (s : StackState) : StackState :=
  { s with clients := (s.clients.Register param method).2 }

/-- `unHook`. -/
def unHook (method : Handler) (s : StackState) : StackState :=
  { s with clients := s.clients.UnregisterWithHandler method }

/-- `unHookWithParam`. -/
def unHookWithParam (param : Nat) (s : StackState) : StackState :=
  { s with clients := s.clients.UnregisterWithToken param }

/-- `hookRssi`: the code returned by `sd_ble_gap_rssi_start` and the `bool` returned by
`Register` are dropped. -/
def hookRssi (method : Handler) (param : Nat) (s : StackState) : StackState :=
  let s :=
    if s.rssiClients.Count = 0 then
      s.log (Call.sd_ble_gap_rssi_start s.connectionHandle RSSI_THRESHOLD_DBM 1)
    else s
  { s with rssiClients := (s.rssiClients.Register param method).2 }

/-- `unHookRssi`: the code returned by `sd_ble_gap_rssi_stop` is dropped. -/
def unHookRssi (client : Handler) (s : StackState) : StackState :=
  let s := { s with rssiClients := s.rssiClients.UnregisterWithHandler client }
  if s.rssiClients.Count = 0 then
    s.log (Call.sd_ble_gap_rssi_stop s.connectionHandle)
  else s

/-- `updateCustomAdvertisingDataBattery`. `quantized` is the value of the expression
`(uint8_t)(batteryLevel * 255.0f)`, computed in floating point outside the embedding;
`SDK_VER`, `r1` and `r2` are as in `startAdvertising`. -/
def updateCustomAdvertisingDataBattery (SDK_VER : Nat) (quantized : Nat) (r1 r2 : Nat)
    (s : StackState) : Outcome :=
  let s := { s with customManufacturerData :=
    { s.customManufacturerData with batteryLevel := quantized % 256 } }
  if 16 ≤ SDK_VER then
    APP_ERROR_CHECK r1 (s.log Call.ble_advertising_advdata_update)
  else
    (APP_ERROR_CHECK r1 (s.log (Call.ble_advdata_encode false))).andThen (fun s =>
      APP_ERROR_CHECK r2 (s.log (Call.ble_advdata_encode true)))

/-- `updateCustomAdvertisingDataState`. `newFace` is an `int` stored into a `uint8_t`;
`SDK_VER`, `r1` and `r2` are as in `startAdvertising`. -/
def updateCustomAdvertisingDataState (SDK_VER : Nat) (newState : Nat) (newFace : Int)
    (r1 r2 : Nat) (s : StackState) : Outcome :=
  let s := { s with customManufacturerData :=
    { s.customManufacturerData with currentFace := (newFace % 256).toNat } }
  let s := { s with customManufacturerData :=
    { s.customManufacturerData with rollState := newState } }
  if 16 ≤ SDK_VER then
    APP_ERROR_CHECK r1 (s.log Call.ble_advertising_advdata_update)
  else
    (APP_ERROR_CHECK r1 (s.log (Call.ble_advdata_encode false))).andThen (fun s =>
      APP_ERROR_CHECK r2 (s.log (Call.ble_advdata_encode true)))

/-- `onBatteryLevelChange`: the callback hooked on the battery controller. -/
def onBatteryLevelChange (SDK_VER : Nat) (quantized : Nat) (r1 r2 : Nat) (s : StackState) :
    Outcome :=
  updateCustomAdvertisingDataBattery SDK_VER quantized r1 r2 s

/-- `onRollStateChange`: the callback hooked on the accelerometer. -/
def onRollStateChange (SDK_VER : Nat) (newState : Nat) (newFace : Int) (r1 r2 : Nat)
    (s : StackState) : Outcome :=
  updateCustomAdvertisingDataState SDK_VER newState newFace r1 r2 s

end Stack

/-! ## Runs: sequences of calls into the module -/

/-- One entry into the module from outside: a `send` call, a radio-stack event or an
advertising event, together with the code the SoftDevice returns to the call made
while it is handled. -/
inductive Action where
  | send (handle : Nat) (data : List Nat) (len : Nat) (hvx_result : Nat)
  | ble_evt (evt : ble_evt_t) (sd_result : Nat)
  | adv_evt (evt : ble_adv_evt_t) (sd_result : Nat)
deriving DecidableEq, Repr

namespace Action

/-- The two events that report a notification as delivered. -/
def isCompletion : Action → Bool
  | ble_evt (ble_evt_t.BLE_GATTS_EVT_HVN_TX_COMPLETE _ _) _ => true
  | ble_evt (ble_evt_t.BLE_GATTS_EVT_HVC _ _) _ => true
  | _ => false

/-- Run one action. -/
def perform (a : Action) (s : StackState) : Outcome :=
  match a with
  | send handle data len hvx_result => Outcome.returned (Stack.send hvx_result handle data len s).2
  | ble_evt evt sd_result => Stack.ble_evt_handler sd_result evt s
  | adv_evt evt sd_result => Stack.on_adv_evt sd_result evt s

/-- Whether the action is a `send` that returns `SendResult_Ok` in state `s`. -/
def sendsOk (a : Action) (s : StackState) : Bool :=
  match a with
  | send handle data len hvx_result =>
    decide ((Stack.send hvx_result handle data len s).1 = SendResult.SendResult_Ok)
  | _ => false

end Action

/-- A run together with its bookkeeping: `inFlight` counts the notifications the radio
stack has accepted (a `send` that returned Ok) and has not yet reported complete. -/
structure Sim where
  state : StackState
  inFlight : Nat
deriving DecidableEq, Repr

/-- The bookkeeping of one action taken in state `s`. -/
def Sim.account (a : Action) (s : StackState) (n : Nat) : Nat :=
  if a.sendsOk s then n + 1 else if a.isCompletion then 0 else n

/-- Run the actions in order. The run ends early at an action that does not return
(fatal error or device reset): the firmware executes nothing after it. -/
def simulate : List Action → Sim → Sim
  | [], m => m
  | a :: rest, m =>
    match a.perform m.state with
    | Outcome.returned s => simulate rest { state := s, inFlight := Sim.account a m.state m.inFlight }
    | Outcome.fatal _ _ => m
    | Outcome.reset _ => m

/-- The state a run of actions ends in. -/
def run (acts : List Action) (s : StackState) : StackState :=
  (simulate acts { state := s, inFlight := 0 }).state

/-- A call to one of the two RSSI registration functions. -/
inductive RssiCall where
  | hookRssi (method : Handler) (param : Nat)
  | unHookRssi (client : Handler)
deriving DecidableEq, Repr

/-- Run one RSSI registration call. -/
def RssiCall.perform (c : RssiCall) (s : StackState) : StackState :=
  match c with
  | RssiCall.hookRssi method param => Stack.hookRssi method param s
  | RssiCall.unHookRssi client => Stack.unHookRssi client s

/-- Run a sequence of RSSI registration calls in order. -/
def runRssi : List RssiCall → StackState → StackState
  | [], s => s
  | c :: rest, s => runRssi rest (c.perform s)

/-- The `sd_ble_gap_rssi_start` calls in a log. -/
def rssiStarts (trace : List Call) : Nat :=
  trace.countP (fun c => match c with
    | Call.sd_ble_gap_rssi_start _ _ _ => true
    | _ => false)

/-- The `sd_ble_gap_rssi_stop` calls in a log. -/
def rssiStops (trace : List Call) : Nat :=
  trace.countP (fun c => match c with
    | Call.sd_ble_gap_rssi_stop _ => true
    | _ => false)

/-- The `PowerManager::reset` calls in a log. -/
def resets (trace : List Call) : Nat :=
  trace.countP (fun c => decide (c = Call.PowerManager_reset))

/-! ## Sample states -/

/-- A peer has connected with handle 7; nothing is pending. -/
def linkUp : StackState :=
  run [Action.ble_evt (ble_evt_t.BLE_GAP_EVT_CONNECTED 7) 0] (initialState 8 2)

/-- A peer has connected and one notification has been accepted by the radio stack. -/
def linkUpPending : StackState :=
  run [Action.ble_evt (ble_evt_t.BLE_GAP_EVT_CONNECTED 7) 0, Action.send 14 [1, 2] 2 0]
    (initialState 8 2)

/-- A peer connected, one notification was accepted, then the link dropped. -/
def droppedLinkPending : StackState :=
  run [Action.ble_evt (ble_evt_t.BLE_GAP_EVT_CONNECTED 7) 0, Action.send 14 [1, 2] 2 0,
       Action.ble_evt (ble_evt_t.BLE_GAP_EVT_DISCONNECTED 7 0x13) 0]
    (initialState 8 2)

/-- Auto-advertising on disconnect was disabled; then a peer connected and the link
dropped. -/
def autoAdvertiseDisabledDrop : StackState :=
  run [Action.ble_evt (ble_evt_t.BLE_GAP_EVT_CONNECTED 7) 0,
       Action.ble_evt (ble_evt_t.BLE_GAP_EVT_DISCONNECTED 7 0x13) 0]
    (Stack.disableAdvertisingOnDisconnect (initialState 8 2))

/-- Fast advertising has been entered from the initial state. -/
def advertisingNow : StackState :=
  run [Action.adv_evt ble_adv_evt_t.BLE_ADV_EVT_FAST 0] (initialState 8 2)

/-- Fast advertising was entered, a peer connected, and the link dropped. -/
def advertisingAfterDrop : StackState :=
  run [Action.adv_evt ble_adv_evt_t.BLE_ADV_EVT_FAST 0,
       Action.ble_evt (ble_evt_t.BLE_GAP_EVT_CONNECTED 7) 0,
       Action.ble_evt (ble_evt_t.BLE_GAP_EVT_DISCONNECTED 7 0x13) 0]
    (initialState 8 2)

/-- The sequence fast-advertising-entered, connect, disconnect, fast-advertising-entered,
with both payload updates accepted. -/
def advertiseConnectDropAdvertise (conn_handle reason sd1 sd2 : Nat) : List Action :=
  [Action.adv_evt ble_adv_evt_t.BLE_ADV_EVT_FAST NRF_SUCCESS,
   Action.ble_evt (ble_evt_t.BLE_GAP_EVT_CONNECTED conn_handle) sd1,
   Action.ble_evt (ble_evt_t.BLE_GAP_EVT_DISCONNECTED conn_handle reason) sd2,
   Action.adv_evt ble_adv_evt_t.BLE_ADV_EVT_FAST NRF_SUCCESS]

/-- Both registries hold their two entries. -/
def fullRegistries : StackState :=
  Stack.hookRssi (Handler.client 12) 120 (Stack.hookRssi (Handler.client 11) 110
    (Stack.hook (Handler.client 2) 20 (Stack.hook (Handler.client 1) 10 linkUp)))

/-- From the empty RSSI registry: one listener hooked, then unhooked. -/
def hookedThenUnhooked : StackState :=
  runRssi [RssiCall.hookRssi (Handler.client 1) 5, RssiCall.unHookRssi (Handler.client 1)]
    (initialState 8 2)

/-- A peer connected with handle 7 and the link dropped. -/
def linkDropped : StackState :=
  run [Action.ble_evt (ble_evt_t.BLE_GAP_EVT_CONNECTED 7) 0,
       Action.ble_evt (ble_evt_t.BLE_GAP_EVT_DISCONNECTED 7 0x13) 0]
    (initialState 8 2)

/-- The link of `droppedLinkPending` after a new peer connected with handle 8. -/
def reconnectedAfterDrop : StackState :=
  run [Action.ble_evt (ble_evt_t.BLE_GAP_EVT_CONNECTED 8) 0] droppedLinkPending

/-- The advertised snapshot holds battery level 40 from an earlier reading. -/
def staleBattery : StackState :=
  { initialState 8 2 with
    customManufacturerData :=
      { ledCount := 21, designAndColor := 3, rollState := 1, currentFace := 2,
        batteryLevel := 40 } }

/-- The radio-stack call `ble_evt_handler` makes for an event and then passes through
`APP_ERROR_CHECK`, if the event's case makes one. -/
def ble_evt_t.checkedCall (evt : ble_evt_t) (s : StackState) : Option Call :=
  match evt with
  | ble_evt_t.BLE_GAP_EVT_PHY_UPDATE_REQUEST conn_handle =>
    some (Call.sd_ble_gap_phy_update conn_handle BLE_GAP_PHY_AUTO BLE_GAP_PHY_AUTO)
  | ble_evt_t.BLE_GATTC_EVT_TIMEOUT conn_handle =>
    some (Call.sd_ble_gap_disconnect conn_handle BLE_HCI_REMOTE_USER_TERMINATED_CONNECTION)
  | ble_evt_t.BLE_GATTS_EVT_TIMEOUT conn_handle =>
    some (Call.sd_ble_gap_disconnect conn_handle BLE_HCI_REMOTE_USER_TERMINATED_CONNECTION)
  | ble_evt_t.BLE_GAP_EVT_SEC_PARAMS_REQUEST _ =>
    some (Call.sd_ble_gap_sec_params_reply s.connectionHandle
      BLE_GAP_SEC_STATUS_PAIRING_NOT_SUPP)
  | ble_evt_t.BLE_GATTS_EVT_SYS_ATTR_MISSING _ =>
    some (Call.sd_ble_gatts_sys_attr_set s.connectionHandle 0 0)
  | _ => none

/-- Whether the event is the disconnect event. -/
def ble_evt_t.isDisconnected : ble_evt_t → Bool
  | ble_evt_t.BLE_GAP_EVT_DISCONNECTED _ _ => true
  | _ => false

/-! ## The NTC driver (`src/drivers_hw/ntc.cpp`) -/

namespace NTC

def NTC_LOOKUP_SIZE : Nat := 13

/-- The `VoltageAndTemperature` struct (two `int16_t` fields, read as `int`). -/
structure VoltageAndTemperature where
  voltageTimes1000 : Int
  temperatureTimes100 : Int
deriving DecidableEq, Repr

/-- The table `lookup`: the voltage to temperature curve. -/
def lookup : List VoltageAndTemperature :=
  [ { voltageTimes1000 := 2770, temperatureTimes100 := -2000 },
    { voltageTimes1000 := 2590, temperatureTimes100 := -1000 },
    { voltageTimes1000 := 2350, temperatureTimes100 := 0 },
    { voltageTimes1000 := 2040, temperatureTimes100 := 1000 },
    { voltageTimes1000 := 1670, temperatureTimes100 := 2000 },
    { voltageTimes1000 := 1320, temperatureTimes100 := 3000 },
    { voltageTimes1000 := 1000, temperatureTimes100 := 4000 },
    { voltageTimes1000 := 750, temperatureTimes100 := 5000 },
    { voltageTimes1000 := 550, temperatureTimes100 := 6000 },
    { voltageTimes1000 := 400, temperatureTimes100 := 7000 },
    { voltageTimes1000 := 280, temperatureTimes100 := 8000 },
    { voltageTimes1000 := 200, temperatureTimes100 := 9000 },
    { voltageTimes1000 := 150, temperatureTimes100 := 10000 } ]

/-- The loop `while (nextIndex < NTC_LOOKUP_SIZE && lookup[nextIndex].voltageTimes1000 >=
voltageTimes1000) nextIndex++`, started at `nextIndex` with `fuel` iterations allowed.
`none` when the fuel runs out or an index falls outside the table. -/
def findNextIndex (voltageTimes1000 : Int) : Nat → Nat → Option Nat
  | 0, _ => none
  | fuel + 1, nextIndex =>
    if nextIndex < NTC_LOOKUP_SIZE then
      match lookup[nextIndex]? with
      | none => none
      | some row =>
        if row.voltageTimes1000 ≥ voltageTimes1000 then
          findNextIndex voltageTimes1000 fuel (nextIndex + 1)
        else some nextIndex
    else some nextIndex

/-- Division of two `int` values as C++ computes it (truncation toward zero); `none` for
a zero divisor. -/
def intDiv (a b : Int) : Option Int :=
  if b = 0 then none else some (a.tdiv b)

/-- `lookupTemperature`, from the integer `voltageTimes1000` on: the conversion
`(int)(voltage * 1000.0f)` is floating point and stays outside. `none` when a table index
is out of range, a divisor is zero or the loop does not finish within its fuel. The
products are formed only between two adjacent rows, where they stay far below the range
of a 32-bit `int`, so no wrap-around is modelled. -/
def lookupTemperature (voltageTimes1000 : Int) : Option Int :=
  match findNextIndex voltageTimes1000 (NTC_LOOKUP_SIZE + 1) 0 with
  | none => none
  | some nextIndex =>
    match lookup[0]? with
    | none => none
    | some first =>
      if nextIndex = 0 then
        some first.temperatureTimes100
      else if nextIndex = NTC_LOOKUP_SIZE then
        match lookup[NTC_LOOKUP_SIZE - 1]? with
        | none => none
        | some last => some last.temperatureTimes100
      else
        match lookup[nextIndex]?, lookup[nextIndex - 1]? with
        | some next, some prev =>
          match intDiv ((prev.voltageTimes1000 - voltageTimes1000) * 1000)
              (prev.voltageTimes1000 - next.voltageTimes1000) with
          | none => none
          | some percentTimes1000 =>
            intDiv (prev.temperatureTimes100 * (1000 - percentTimes1000)
              + next.temperatureTimes100 * percentTimes1000) 1000
        | _, _ => none

/-- The interpolation over the table written out segment by segment, with floor
division; a proof device for the order and bound properties. -/
def interpolated (v : Int) : Int :=
  if 2770 < v then -2000
  else if 2590 < v then -2000 + (2770 - v) * 1000 / 180
  else if 2350 < v then -1000 + (2590 - v) * 1000 / 240
  else if 2040 < v then 0 + (2350 - v) * 1000 / 310
  else if 1670 < v then 1000 + (2040 - v) * 1000 / 370
  else if 1320 < v then 2000 + (1670 - v) * 1000 / 350
  else if 1000 < v then 3000 + (1320 - v) * 1000 / 320
  else if 750 < v then 4000 + (1000 - v) * 1000 / 250
  else if 550 < v then 5000 + (750 - v) * 1000 / 200
  else if 400 < v then 6000 + (550 - v) * 1000 / 150
  else if 280 < v then 7000 + (400 - v) * 1000 / 120
  else if 200 < v then 8000 + (280 - v) * 1000 / 80
  else if 150 < v then 9000 + (200 - v) * 1000 / 50
  else 10000

end NTC

/-! ## The temperature driver (`src/drivers_nrf/temperature.cpp`) -/

/-- A call that leaves the temperature module. `initCallback` is the call of the
`TemperatureInitCallback` given to `init`; `clientHandler` the call of a hooked client's
callback; `NRF_LOG_ERROR` the error line of `hook`. -/
inductive TemperatureCall where
  | nrfx_temp_init
  | nrfx_temp_measure
  | initCallback (callback : Nat) (success : Bool)
  | clientHandler (handler : Handler) (token : Nat) (celsiusTimes100 : Int)
  | NRF_LOG_ERROR
deriving DecidableEq, Repr

/-- The statics of `DriversNRF::Temperature` and the log of outgoing calls. -/
structure TemperatureState where
  clients : DelegateArray
  trace : List TemperatureCall
deriving DecidableEq, Repr

namespace Temperature

def MAX_CLIENTS : Nat := 2

/-- The state right after static initialisation. -/
def initialState : TemperatureState :=
  { clients := { maxCount := MAX_CLIENTS, items := [] }, trace := [] }

/-- Append one outgoing call to the log. -/
def log (s : TemperatureState) (c : TemperatureCall) : TemperatureState :=
  { s with trace := s.trace ++ [c] }

/-- The body of the lambda registered by `init`: it unregisters its own token, then
calls the init callback with `true`. -/
def initLambda (the_callback : Nat) (_the_temp : Int) (s : TemperatureState) :
    TemperatureState :=
  let s := { s with clients := s.clients.UnregisterWithToken the_callback }
  log s (TemperatureCall.initCallback the_callback true)

/-- `init`. `callback` is the function pointer, also used as the entry's token;
`measure_result` is the code returned by `nrfx_temp_measure`. -/
def init (callback : Nat) (measure_result : Nat) (s : TemperatureState) : TemperatureState :=
  let s := log s TemperatureCall.nrfx_temp_init
  let s := log s TemperatureCall.nrfx_temp_measure
  if measure_result = NRF_SUCCESS then
    { s with clients := (s.clients.Register callback Handler.temperatureInitLambda).2 }
  else
    log s (TemperatureCall.initCallback callback false)

/-- The call `clients[i].handler(clients[i].token, celsiusTimes100)`: the lambda of
`init` runs its body, any other callback is a call out of the module. -/
def callHandler (d : Delegate) (celsiusTimes100 : Int) (s : TemperatureState) :
    TemperatureState :=
  match d.handler with
  | Handler.temperatureInitLambda => initLambda d.token celsiusTimes100 s
  | handler => log s (TemperatureCall.clientHandler handler d.token celsiusTimes100)

/-- The loop `for (int i = 0; i < clients.Count(); ++i) clients[i].handler(...)` from
index `i` on, with `fuel` iterations allowed; `Count()` is read again at every turn. -/
def dispatchLoop (celsiusTimes100 : Int) : Nat → Nat → TemperatureState → TemperatureState
  | 0, _, s => s
  | fuel + 1, i, s =>
    if i < s.clients.Count then
      match s.clients.items[i]? with
      | some d => dispatchLoop celsiusTimes100 fuel (i + 1) (callHandler d celsiusTimes100 s)
      | none => s
    else s

/-- `temperatureReadyHandler`, from the value `celsiusTimes100` returned by
`nrfx_temp_calculate` on. No callback of the embedding adds an entry, so the loop makes
at most `Count()` turns. -/
def temperatureReadyHandler (celsiusTimes100 : Int) (s : TemperatureState) :
    TemperatureState :=
  dispatchLoop celsiusTimes100 s.clients.Count 0 s

/-- `hook`. -/
def hook (method : Handler) (parameter : Nat) (s : TemperatureState) : TemperatureState :=
  let r := s.clients.Register parameter method
  let s := { s with clients := r.2 }
  if !r.1 then log s TemperatureCall.NRF_LOG_ERROR else s

/-- `unHook`. -/
def unHook (method : Handler) (s : TemperatureState) : TemperatureState :=
  { s with clients := s.clients.UnregisterWithHandler method }

/-- `unHookWithParam`. -/
def unHookWithParam (param : Nat) (s : TemperatureState) : TemperatureState :=
  { s with clients := s.clients.UnregisterWithToken param }

end Temperature

/-- `init` succeeded, then a client was hooked. -/
def initThenHook : TemperatureState :=
  Temperature.hook (Handler.client 1) 10 (Temperature.init 100 0 Temperature.initialState)

/-- A client was hooked, then `init` succeeded. -/
def hookThenInit : TemperatureState :=
  Temperature.init 100 0 (Temperature.hook (Handler.client 1) 10 Temperature.initialState)

/-- Two clients were hooked, then `init` started the measurement successfully. -/
def initOnFullRegistry : TemperatureState :=
  Temperature.init 100 0
    (Temperature.hook (Handler.client 2) 20
      (Temperature.hook (Handler.client 1) 10 Temperature.initialState))

/-! ## Dispatch to callbacks that call back into the module -/

namespace Stack

/-- The call `clients[i].handler(clients[i].token, connected)` when the callback may call
back into the module. `unhooksItself` tells which callbacks call `Stack::unHook` with
their own pointer before they return; every other callback leaves the registry alone. -/
def callConnectionHandler (unhooksItself : Handler → Bool) (d : Delegate) (connected : Bool)
    (s : StackState) : StackState :=
  let s := s.log (Call.connectionHandler d.handler d.token connected)
  if unhooksItself d.handler then unHook d.handler s else s

/-- The loop `for (int i = 0; i < clients.Count(); ++i)
clients[i].handler(clients[i].token, connected)` from index `i` on, with `fuel` turns
allowed: `Count()` is read again at every turn, and `clients[i]` is read from the registry
as the callbacks invoked before have left it. -/
def notifyClientsFrom (unhooksItself : Handler → Bool) (connected : Bool) :
    Nat → Nat → StackState → StackState
  | 0, _, s => s
  | fuel + 1, i, s =>
    if i < s.clients.Count then
      match s.clients.items[i]? with
      | some d =>
        notifyClientsFrom unhooksItself connected fuel (i + 1)
          (callConnectionHandler unhooksItself d connected s)
      | none => s
    else s

/-- The whole loop over `clients`. No callback of the embedding adds an entry, so the
loop makes at most `Count()` turns. -/
def notifyClientsWith (unhooksItself : Handler → Bool) (connected : Bool) (s : StackState) :
    StackState :=
  notifyClientsFrom unhooksItself connected s.clients.Count 0 s

/-- The call `rssiClients[i].handler(rssiClients[i].token, rssi, chIndex)` when the
callback may call back into the module: a callback for which `unhooksItself` holds calls
`Stack::unHookRssi` with its own pointer before it returns. -/
def callRssiHandler (unhooksItself : Handler → Bool) (d : Delegate) (rssi : Int)
    (chIndex : Nat) (s : StackState) : StackState :=
  let s := s.log (Call.rssiHandler d.handler d.token rssi chIndex)
  if unhooksItself d.handler then unHookRssi d.handler s else s

/-- The loop `for (int i = 0; i < rssiClients.Count(); ++i)
rssiClients[i].handler(rssiClients[i].token, rssi, chIndex)` from index `i` on, with
`fuel` turns allowed; `Count()` is read again at every turn. -/
def notifyRssiClientsFrom (unhooksItself : Handler → Bool) (rssi : Int) (chIndex : Nat) :
    Nat → Nat → StackState → StackState
  | 0, _, s => s
  | fuel + 1, i, s =>
    if i < s.rssiClients.Count then
      match s.rssiClients.items[i]? with
      | some d =>
        notifyRssiClientsFrom unhooksItself rssi chIndex fuel (i + 1)
          (callRssiHandler unhooksItself d rssi chIndex s)
      | none => s
    else s

/-- The whole loop over `rssiClients`. -/
def notifyRssiClientsWith (unhooksItself : Handler → Bool) (rssi : Int) (chIndex : Nat)
    (s : StackState) : StackState :=
  notifyRssiClientsFrom unhooksItself rssi chIndex s.rssiClients.Count 0 s

/-- `ble_evt_handler` with subscriber callbacks that may unhook themselves: the three
dispatch loops index the live registry and read `Count()` at every turn. `sd_result` is
as in `ble_evt_handler`. -/
def ble_evt_handlerWith (unhooksItself : Handler → Bool) (sd_result : Nat) (evt : ble_evt_t)
    (s : StackState) : Outcome :=
  let afterSwitch : Outcome :=
    match evt with
    | ble_evt_t.BLE_GAP_EVT_DISCONNECTED _ _ =>
      let s := { s with connected := false }
      let s := { s with currentlyAdvertising := true }
      let s := notifyClientsWith unhooksItself false s
      if s.resetOnDisconnectPending then PowerManager_reset s else Outcome.returned s
    | ble_evt_t.BLE_GAP_EVT_CONNECTED conn_handle =>
      let s := { s with connectionHandle := conn_handle }
      let s := { s with currentlyAdvertising := false }
      let s := { s with connected := true }
      let s := notifyClientsWith unhooksItself true s
      let s := Accelerometer_unHookRollState Handler.onRollStateChange s
      let s := BatteryController_unHookLevel Handler.onBatteryLevelChange s
      Outcome.returned s
    | ble_evt_t.BLE_GAP_EVT_PHY_UPDATE_REQUEST conn_handle =>
      APP_ERROR_CHECK sd_result
        (s.log (Call.sd_ble_gap_phy_update conn_handle BLE_GAP_PHY_AUTO BLE_GAP_PHY_AUTO))
    | ble_evt_t.BLE_GAP_EVT_RSSI_CHANGED _ rssi ch_index =>
      Outcome.returned (notifyRssiClientsWith unhooksItself rssi ch_index s)
    | ble_evt_t.BLE_GATTC_EVT_TIMEOUT conn_handle =>
      APP_ERROR_CHECK sd_result
        (s.log (Call.sd_ble_gap_disconnect conn_handle BLE_HCI_REMOTE_USER_TERMINATED_CONNECTION))
    | ble_evt_t.BLE_GATTS_EVT_TIMEOUT conn_handle =>
      APP_ERROR_CHECK sd_result
        (s.log (Call.sd_ble_gap_disconnect conn_handle BLE_HCI_REMOTE_USER_TERMINATED_CONNECTION))
    | ble_evt_t.BLE_GAP_EVT_SEC_PARAMS_REQUEST _ =>
      APP_ERROR_CHECK sd_result
        (s.log (Call.sd_ble_gap_sec_params_reply s.connectionHandle
          BLE_GAP_SEC_STATUS_PAIRING_NOT_SUPP))
    | ble_evt_t.BLE_GATTS_EVT_SYS_ATTR_MISSING _ =>
      APP_ERROR_CHECK sd_result (s.log (Call.sd_ble_gatts_sys_attr_set s.connectionHandle 0 0))
    | ble_evt_t.BLE_GATTS_EVT_HVN_TX_COMPLETE _ _ =>
      Outcome.returned { s with notificationPending := false }
    | ble_evt_t.BLE_GATTS_EVT_HVC _ _ =>
      Outcome.returned { s with notificationPending := false }
    | ble_evt_t.other _ =>
      Outcome.returned s
  afterSwitch.andThen (fun s => Outcome.returned (s.log Call.PowerManager_feed))

/-- `disconnect`. `links` are the connection handles for which
`ble_conn_state_for_each_connected` calls `disconnectLink`; the code returned by
`sd_ble_gap_disconnect` only selects the log line. -/
def disconnect (links : List Nat) (s : StackState) : StackState :=
  s.logAll (links.map (fun conn_handle =>
    Call.sd_ble_gap_disconnect conn_handle BLE_HCI_REMOTE_USER_TERMINATED_CONNECTION))

/-- `requestRssi`: the body is empty. -/
def requestRssi (s : StackState) : StackState := s

/-- `slowAdvertising`. `err_code` is the code returned by `ble_advertising_start`. -/
def slowAdvertising (err_code : Nat) (s : StackState) : Outcome :=
  APP_ERROR_CHECK err_code (s.log (Call.ble_advertising_start BLE_ADV_MODE_SLOW))

/-- `stopAdvertising`. `err_code` is the code returned by `ble_advertising_start`. -/
def stopAdvertising (err_code : Nat) (s : StackState) : Outcome :=
  APP_ERROR_CHECK err_code (s.log (Call.ble_advertising_start BLE_ADV_MODE_IDLE))

end Stack

/-! ## Runs of calls into the module, callbacks and all functions included -/

/-- One entry into the module after start-up: a radio-stack or advertising event, a
sensor callback, or a call of one of the module's functions, with the inputs the
embedding of that function takes. -/
inductive ApiCall where
  | ble_evt (evt : ble_evt_t) (sd_result : Nat)
  | adv_evt (evt : ble_adv_evt_t) (sd_result : Nat)
  | onRollStateChange (SDK_VER newState : Nat) (newFace : Int) (r1 r2 : Nat)
  | onBatteryLevelChange (SDK_VER quantized r1 r2 : Nat)
  | disconnect (links : List Nat)
  | isAdvertising
  | startAdvertising (SDK_VER : Nat) (currentFace : Int) (currentRollState r1 r2 r3 : Nat)
  | disableAdvertisingOnDisconnect
  | enableAdvertisingOnDisconnect
  | resetOnDisconnect
  | requestRssi
  | canSend
  | send (handle : Nat) (data : List Nat) (len : Nat) (hvx_result : Nat)
  | slowAdvertising (err_code : Nat)
  | stopAdvertising (err_code : Nat)
  | isConnected
  | hook (method : Handler) (param : Nat)
  | unHook (method : Handler)
  | unHookWithParam (param : Nat)
  | hookRssi (method : Handler) (param : Nat)
  | unHookRssi (client : Handler)
deriving DecidableEq, Repr

namespace ApiCall

/-- Run one call; events go through `ble_evt_handlerWith`. -/
def perform (unhooksItself : Handler → Bool) (c : ApiCall) (s : StackState) : Outcome :=
  match c with
  | ble_evt evt sd_result => Stack.ble_evt_handlerWith unhooksItself sd_result evt s
  | adv_evt evt sd_result => Stack.on_adv_evt sd_result evt s
  | onRollStateChange SDK_VER newState newFace r1 r2 =>
    Stack.onRollStateChange SDK_VER newState newFace r1 r2 s
  | onBatteryLevelChange SDK_VER quantized r1 r2 =>
    Stack.onBatteryLevelChange SDK_VER quantized r1 r2 s
  | disconnect links => Outcome.returned (Stack.disconnect links s)
  | isAdvertising => Outcome.returned (Stack.isAdvertising s).2
  | startAdvertising SDK_VER currentFace currentRollState r1 r2 r3 =>
    Stack.startAdvertising SDK_VER currentFace currentRollState r1 r2 r3 s
  | disableAdvertisingOnDisconnect => Outcome.returned (Stack.disableAdvertisingOnDisconnect s)
  | enableAdvertisingOnDisconnect => Outcome.returned (Stack.enableAdvertisingOnDisconnect s)
  | resetOnDisconnect => Outcome.returned (Stack.resetOnDisconnect s)
  | requestRssi => Outcome.returned (Stack.requestRssi s)
  | canSend => Outcome.returned (Stack.canSend s).2
  | send handle data len hvx_result =>
    Outcome.returned (Stack.send hvx_result handle data len s).2
  | slowAdvertising err_code => Stack.slowAdvertising err_code s
  | stopAdvertising err_code => Stack.stopAdvertising err_code s
  | isConnected => Outcome.returned (Stack.isConnected s).2
  | hook method param => Outcome.returned (Stack.hook method param s)
  | unHook method => Outcome.returned (Stack.unHook method s)
  | unHookWithParam param => Outcome.returned (Stack.unHookWithParam param s)
  | hookRssi method param => Outcome.returned (Stack.hookRssi method param s)
  | unHookRssi client => Outcome.returned (Stack.unHookRssi client s)

end ApiCall

/-- Run the calls in order; the firmware executes nothing after a call that does not
return (fatal error or device reset). -/
def runCalls (unhooksItself : Handler → Bool) : List ApiCall → StackState → Outcome
  | [], s => Outcome.returned s
  | c :: rest, s => (c.perform unhooksItself s).andThen (runCalls unhooksItself rest)

namespace Action

/-- Whether the action is the fast-advertising-entered event. -/
def isFastAdvertising : Action → Bool
  | adv_evt ble_adv_evt_t.BLE_ADV_EVT_FAST _ => true
  | _ => false

/-- Whether the action is the connect event. -/
def isConnect : Action → Bool
  | ble_evt (ble_evt_t.BLE_GAP_EVT_CONNECTED _) _ => true
  | _ => false

end Action

/-- Whether every fast-advertising-entered event of the run arrives while no peer is
connected and neither listener is subscribed. -/
def fastAdvertisingOnlyWhenIdle : List Action → StackState → Bool
  | [], _ => true
  | a :: rest, s =>
    (!a.isFastAdvertising ||
      (!s.connected && !s.rollStateClients.subscribed Handler.onRollStateChange &&
        !s.batteryLevelClients.subscribed Handler.onBatteryLevelChange)) &&
    match a.perform s with
    | Outcome.returned s' => fastAdvertisingOnlyWhenIdle rest s'
    | Outcome.fatal _ _ => true
    | Outcome.reset _ => true

/-! ## Further sample states and runs -/

/-- No subscriber callback changes a registry. -/
def noneUnhooksItself : Handler → Bool := fun _ => false

/-- The callback `client 1` unhooks itself when it is invoked; no other callback does. -/
def firstUnhooksItself : Handler → Bool := fun handler => decide (handler = Handler.client 1)

/-- A peer is connected with handle 7, the connection listeners `client 1` (token 10) and
`client 2` (token 20) are hooked in that order, and `resetOnDisconnect()` has been
called. -/
def armedWithTwoListeners : StackState :=
  Stack.resetOnDisconnect
    (Stack.hook (Handler.client 2) 20 (Stack.hook (Handler.client 1) 10 linkUp))

/-- The calls that lead from the initial state to `armedWithTwoListeners`, followed by a
send and a roll-state change. -/
def armThenCarryOn : List ApiCall :=
  [ApiCall.ble_evt (ble_evt_t.BLE_GAP_EVT_CONNECTED 7) 0,
   ApiCall.hook (Handler.client 1) 10,
   ApiCall.hook (Handler.client 2) 20,
   ApiCall.resetOnDisconnect,
   ApiCall.send 14 [1, 2] 2 0,
   ApiCall.onRollStateChange 17 1 3 0 0]

/-- The same calls as `armThenCarryOn` without the call of `resetOnDisconnect()`. -/
def carryOnUnarmed : List ApiCall :=
  [ApiCall.ble_evt (ble_evt_t.BLE_GAP_EVT_CONNECTED 7) 0,
   ApiCall.hook (Handler.client 1) 10,
   ApiCall.hook (Handler.client 2) 20,
   ApiCall.send 14 [1, 2] 2 0,
   ApiCall.onRollStateChange 17 1 3 0 0]

/-- A connect event, then the fast-advertising-entered event, from the initial state. -/
def connectedThenAdvertising : StackState :=
  run [Action.ble_evt (ble_evt_t.BLE_GAP_EVT_CONNECTED 7) 0,
       Action.adv_evt ble_adv_evt_t.BLE_ADV_EVT_FAST 0]
    (initialState 8 2)

/-- The fast-advertising-entered event twice, then a connect event, from the initial
state. -/
def advertisingTwiceThenConnected : StackState :=
  run [Action.adv_evt ble_adv_evt_t.BLE_ADV_EVT_FAST 0,
       Action.adv_evt ble_adv_evt_t.BLE_ADV_EVT_FAST 0,
       Action.ble_evt (ble_evt_t.BLE_GAP_EVT_CONNECTED 7) 0]
    (initialState 8 2)

/-- Fast advertising was entered and a peer connected. -/
def connectedAfterAdvertising : StackState :=
  run [Action.adv_evt ble_adv_evt_t.BLE_ADV_EVT_FAST 0,
       Action.ble_evt (ble_evt_t.BLE_GAP_EVT_CONNECTED 7) 0]
    (initialState 8 2)

/-- A disconnect event, the advertising events other than fast-advertising-entered, a
send, a delivery report and an RSSI sample. -/
def eventsAfterConnect : List Action :=
  [Action.ble_evt (ble_evt_t.BLE_GAP_EVT_DISCONNECTED 7 0x13) 0,
   Action.adv_evt ble_adv_evt_t.BLE_ADV_EVT_IDLE 0,
   Action.adv_evt (ble_adv_evt_t.other 5) 0,
   Action.send 14 [1, 2] 2 0,
   Action.ble_evt (ble_evt_t.BLE_GATTS_EVT_HVN_TX_COMPLETE 7 1) 0,
   Action.ble_evt (ble_evt_t.BLE_GAP_EVT_RSSI_CHANGED 7 (-60) 37) 0]

/-- The sequence fast-advertising-entered, connect, disconnect, fast-advertising-entered,
connect. -/
def advertiseConnectTwice : List Action :=
  advertiseConnectDropAdvertise 7 0x13 0 0 ++
    [Action.ble_evt (ble_evt_t.BLE_GAP_EVT_CONNECTED 8) 0]

/-- An idle event, another advertising event, a send, a second fast-advertising-entered
event and an RSSI sample: no connect event is among them. -/
def eventsWhileAdvertising : List Action :=
  [Action.adv_evt ble_adv_evt_t.BLE_ADV_EVT_IDLE 0,
   Action.adv_evt (ble_adv_evt_t.other 5) 0,
   Action.send 14 [1, 2] 2 0,
   Action.adv_evt ble_adv_evt_t.BLE_ADV_EVT_FAST 0,
   Action.ble_evt (ble_evt_t.BLE_GAP_EVT_RSSI_CHANGED 7 (-60) 37) 0]

end DiceFirmware

/-! ## Theorems -/

namespace DiceFirmware

open Stack

/-! ### Auxiliary lemmas -/

/-- A send made while the pending flag is set only feeds the watchdog; its result depends on the connected flag alone. -/
theorem send_of_pending (hvx_result handle : Nat) (data : List Nat) (len : Nat)
    (s : StackState) (hp : s.notificationPending = true) :
    (send hvx_result handle data len s).2 = s.log Call.PowerManager_feed ∧
    (send hvx_result handle data len s).1 =
      (if s.connected then SendResult.SendResult_Busy else SendResult.SendResult_NotConnected) := by
  cases hc : s.connected <;> simp [send, StackState.log, hc, hp]

/-- A send returns Ok only from a state with the pending flag clear, and leaves it set. -/
theorem accepted_send_sets_pending (hvx_result handle : Nat) (data : List Nat) (len : Nat)
    (s : StackState)
    (h : (send hvx_result handle data len s).1 = SendResult.SendResult_Ok) :
    s.notificationPending = false ∧
    (send hvx_result handle data len s).2.notificationPending = true := by
  cases hc : s.connected <;> cases hp : s.notificationPending <;>
    by_cases hr : hvx_result = NRF_SUCCESS <;>
    simp [send, StackState.log, hc, hp, hr] at h ⊢

/-- The calls a send makes: the watchdog feed alone, or the feed and one notification, the latter only on a connected link with the pending flag clear. -/
theorem send_trace_cases (hvx_result handle : Nat) (data : List Nat) (len : Nat)
    (s : StackState) :
    (send hvx_result handle data len s).2.trace = s.trace ++ [Call.PowerManager_feed] ∨
    (s.notificationPending = false ∧ s.connected = true ∧
      (send hvx_result handle data len s).2.trace = s.trace ++
        [Call.PowerManager_feed,
         Call.sd_ble_gatts_hvx s.connectionHandle handle data len BLE_GATT_HVX_NOTIFICATION]) := by
  cases hc : s.connected <;> cases hp : s.notificationPending <;>
    by_cases hr : hvx_result = NRF_SUCCESS <;>
    simp [send, StackState.log, hc, hp, hr]

/-- The error check does not write the pending flag. -/
theorem APP_ERROR_CHECK_state_pending (err_code : Nat) (s : StackState) :
    (APP_ERROR_CHECK err_code s).state.notificationPending = s.notificationPending := by
  unfold APP_ERROR_CHECK
  split <;> rfl

/-- The closing watchdog feed does not write the pending flag. -/
theorem andThen_feed_pending (o : Outcome) :
    (o.andThen (fun s => Outcome.returned (s.log Call.PowerManager_feed))).state.notificationPending
      = o.state.notificationPending := by
  cases o <;> rfl

/-- Only the two completion events write the pending flag. -/
theorem ble_evt_handler_pending (sd_result : Nat) (evt : ble_evt_t) (s : StackState)
    (hc : (Action.ble_evt evt sd_result).isCompletion = false) :
    (ble_evt_handler sd_result evt s).state.notificationPending = s.notificationPending := by
  unfold ble_evt_handler
  rw [andThen_feed_pending]
  cases evt <;> simp [Action.isCompletion] at hc <;>
    simp only [APP_ERROR_CHECK_state_pending] <;> try rfl
  · simp only [PowerManager_reset]
    split <;> rfl

/-- Advertising events do not write the pending flag. -/
theorem on_adv_evt_pending (sd_result : Nat) (evt : ble_adv_evt_t) (s : StackState) :
    (on_adv_evt sd_result evt s).state.notificationPending = s.notificationPending := by
  cases evt
  · rfl
  · unfold on_adv_evt APP_ERROR_CHECK
    by_cases h : sd_result = NRF_SUCCESS <;>
      simp [h, Outcome.andThen, Outcome.state, Accelerometer_hookRollState,
        BatteryController_hookLevel, StackState.log]
  · rfl

/-- No action other than a completion event clears a set pending flag. -/
theorem perform_state_pending (a : Action) (s : StackState)
    (hc : a.isCompletion = false) (hp : s.notificationPending = true) :
    (a.perform s).state.notificationPending = true := by
  cases a with
  | send handle data len hvx_result =>
    have h := (send_of_pending hvx_result handle data len s hp).1
    show (send hvx_result handle data len s).2.notificationPending = true
    rw [h]
    exact hp
  | ble_evt evt sd_result =>
    show (ble_evt_handler sd_result evt s).state.notificationPending = true
    rw [ble_evt_handler_pending sd_result evt s hc]
    exact hp
  | adv_evt evt sd_result =>
    show (on_adv_evt sd_result evt s).state.notificationPending = true
    rw [on_adv_evt_pending]
    exact hp

/-- The same, for an action that returns. -/
theorem perform_keeps_pending (a : Action) (s s' : StackState)
    (hc : a.isCompletion = false) (hp : s.notificationPending = true)
    (h : a.perform s = Outcome.returned s') : s'.notificationPending = true := by
  have := perform_state_pending a s hc hp
  rw [h] at this
  exact this

/-- An accepted send starts with the flag clear and ends with it set. -/
theorem sendsOk_pending (a : Action) (s s' : StackState)
    (hok : a.sendsOk s = true) (h : a.perform s = Outcome.returned s') :
    s.notificationPending = false ∧ s'.notificationPending = true := by
  cases a with
  | send handle data len hvx_result =>
    simp only [Action.sendsOk, decide_eq_true_eq] at hok
    simp only [Action.perform, Outcome.returned.injEq] at h
    rw [← h]
    exact accepted_send_sets_pending hvx_result handle data len s hok
  | ble_evt evt sd_result => simp [Action.sendsOk] at hok
  | adv_evt evt sd_result => simp [Action.sendsOk] at hok

/-- The bookkeeping invariant of a run: at most one notification in flight, and the pending flag is set when one is. -/
theorem simulate_wellFormed (acts : List Action) :
    ∀ m : Sim, (m.inFlight ≤ 1 ∧ (m.inFlight = 1 → m.state.notificationPending = true)) →
      ((simulate acts m).inFlight ≤ 1 ∧
        ((simulate acts m).inFlight = 1 → (simulate acts m).state.notificationPending = true)) := by
  induction acts with
  | nil => intro m hm; exact hm
  | cons a rest ih =>
    intro m hm
    unfold simulate
    cases h : a.perform m.state with
    | returned s' =>
      simp only
      apply ih
      unfold Sim.account
      simp only
      by_cases hok : a.sendsOk m.state = true
      · have hp := sendsOk_pending a m.state s' hok h
        have h0 : m.inFlight = 0 := by
          have h1 := hm.1
          have h2 := hm.2
          by_contra hne
          have : m.inFlight = 1 := by omega
          have := h2 this
          rw [hp.1] at this
          exact Bool.noConfusion this
        simp [hok, h0, hp.2]
      · by_cases hc : a.isCompletion = true
        · simp [hok, hc]
        · simp only [hok, hc, if_false, Bool.false_eq_true]
          refine ⟨hm.1, fun h1 => ?_⟩
          exact perform_keeps_pending a m.state s' (by simpa using hc) (hm.2 h1) h
    | fatal e s' => simpa using hm
    | reset s' => simpa using hm

/-- A set pending flag survives any run without a completion event. -/
theorem simulate_keeps_pending (mid : List Action) :
    ∀ m : Sim, m.state.notificationPending = true →
      (∀ a ∈ mid, a.isCompletion = false) →
      (simulate mid m).state.notificationPending = true := by
  induction mid with
  | nil => intro m hp _; exact hp
  | cons a rest ih =>
    intro m hp hall
    unfold simulate
    cases h : a.perform m.state with
    | returned s' =>
      simp only
      apply ih
      · exact perform_keeps_pending a m.state s' (hall a (List.mem_cons_self a rest)) hp h
      · intro b hb
        exact hall b (List.mem_cons_of_mem a hb)
    | fatal e s' => simpa using hp
    | reset s' => simpa using hp

/-- Removing the first match from a list with at most one match leaves none. -/
theorem eraseP_any_false {α : Type} (p : α → Bool) :
    ∀ l : List α, l.countP p ≤ 1 → (l.eraseP p).any p = false := by
  intro l
  induction l with
  | nil => intro _; rfl
  | cons x xs ih =>
    intro h
    by_cases hx : p x = true
    · rw [List.eraseP_cons_of_pos hx]
      rw [List.countP_cons_of_pos _ _ hx] at h
      have h0 : xs.countP p = 0 := by omega
      rw [List.countP_eq_zero] at h0
      rw [List.any_eq_false]
      intro y hy
      exact h0 y hy
    · rw [List.eraseP_cons_of_neg hx]
      rw [List.countP_cons_of_neg _ _ hx] at h
      simp only [List.any_cons, Bool.or_eq_false_iff]
      exact ⟨by simpa using hx, ih h⟩

/-! ### C1 -/

/-- C1 (amended): along every run of send calls and events from the initial state at
most one notification is in flight; `send` forwards to the radio stack only when a peer
is connected and the pending flag is false; a send made while the flag is set changes
nothing but the watchdog feed and returns Busy when a peer is connected, NotConnected
when none is; any two sends that return Ok have a completion event between them. -/
theorem at_most_one_in_flight :
    (∀ (rollStateMax batteryLevelMax : Nat) (acts : List Action),
      (simulate acts
        { state := initialState rollStateMax batteryLevelMax, inFlight := 0 }).inFlight ≤ 1) ∧
    (∀ (s : StackState) (hvx_result handle : Nat) (data : List Nat) (len : Nat),
      (send hvx_result handle data len s).2.trace = s.trace ++ [Call.PowerManager_feed] ∨
      (s.notificationPending = false ∧ s.connected = true ∧
        (send hvx_result handle data len s).2.trace = s.trace ++
          [Call.PowerManager_feed,
           Call.sd_ble_gatts_hvx s.connectionHandle handle data len
             BLE_GATT_HVX_NOTIFICATION])) ∧
    (∀ (s : StackState) (hvx_result handle : Nat) (data : List Nat) (len : Nat),
      s.notificationPending = true →
      (send hvx_result handle data len s).2 = s.log Call.PowerManager_feed ∧
      (send hvx_result handle data len s).1 =
        (if s.connected then SendResult.SendResult_Busy
         else SendResult.SendResult_NotConnected)) ∧
    (∀ (s : StackState) (r1 h1 : Nat) (d1 : List Nat) (l1 : Nat) (mid : List Action)
        (r2 h2 : Nat) (d2 : List Nat) (l2 : Nat),
      (send r1 h1 d1 l1 s).1 = SendResult.SendResult_Ok →
      (send r2 h2 d2 l2 (run mid (send r1 h1 d1 l1 s).2)).1 = SendResult.SendResult_Ok →
      ∃ a ∈ mid, a.isCompletion = true) := by
  refine ⟨?_, ?_, ?_, ?_⟩
  · intro rollStateMax batteryLevelMax acts
    exact (simulate_wellFormed acts _ ⟨Nat.zero_le 1, fun h => by simp at h⟩).1
  · intro s hvx_result handle data len
    exact send_trace_cases hvx_result handle data len s
  · intro s hvx_result handle data len hp
    exact send_of_pending hvx_result handle data len s hp
  · intro s r1 h1 d1 l1 mid r2 h2 d2 l2 hok1 hok2
    by_contra hno
    have hall : ∀ a ∈ mid, a.isCompletion = false := by
      intro a ha
      cases hc : a.isCompletion
      · rfl
      · exact absurd ⟨a, ha, hc⟩ hno
    have hp1 := (accepted_send_sets_pending r1 h1 d1 l1 s hok1).2
    have hp2 := simulate_keeps_pending mid
      { state := (send r1 h1 d1 l1 s).2, inFlight := 0 } hp1 hall
    have hp3 := (accepted_send_sets_pending r2 h2 d2 l2 _ hok2).1
    unfold run at hp3
    rw [hp2] at hp3
    exact Bool.noConfusion hp3

/-- Witness of C1: two accepted sends on one link with a transmit-complete event in
between, and a rejected send while the first is pending. -/
theorem at_most_one_in_flight_witness :
    (linkUpPending.notificationPending = true ∧
      (send 0 14 [3] 1 linkUpPending).1 = SendResult.SendResult_Busy) ∧
    ((send 0 14 [1, 2] 2 linkUp).1 = SendResult.SendResult_Ok ∧
      (send 0 14 [3] 1
        (run [Action.ble_evt (ble_evt_t.BLE_GATTS_EVT_HVN_TX_COMPLETE 7 1) 0]
          (send 0 14 [1, 2] 2 linkUp).2)).1 = SendResult.SendResult_Ok ∧
      ∃ a ∈ [Action.ble_evt (ble_evt_t.BLE_GATTS_EVT_HVN_TX_COMPLETE 7 1) 0],
        a.isCompletion = true) :=
  ⟨⟨by decide, (at_most_one_in_flight.2.2.1 linkUpPending 0 14 [3] 1 (by decide)).2⟩,
   ⟨by decide, by decide,
    at_most_one_in_flight.2.2.2 linkUp 0 14 [1, 2] 2
      [Action.ble_evt (ble_evt_t.BLE_GATTS_EVT_HVN_TX_COMPLETE 7 1) 0] 0 14 [3] 1
      (by decide) (by decide)⟩⟩

/-- C1 as stated fails: after connect, an accepted send and a disconnect, the pending
flag is still set, and a send made then returns NotConnected, not Busy. -/
theorem send_while_pending_on_dropped_link :
    droppedLinkPending.notificationPending = true ∧
    (send 0 14 [3] 1 droppedLinkPending).1 = SendResult.SendResult_NotConnected ∧
    (send 0 14 [3] 1 droppedLinkPending).1 ≠ SendResult.SendResult_Busy := by
  decide

/-! ### C2 -/

/-- C2: for every prior state, `ble_evt_handler` returns from BLE_GAP_EVT_CONNECTED, and
afterwards `isConnected()` is true, `isAdvertising()` is false and the stored connection
handle is the handle carried by the event. -/
theorem connect_event_mirrored (sd_result conn_handle : Nat) (s : StackState) :
    ∃ s', ble_evt_handler sd_result (ble_evt_t.BLE_GAP_EVT_CONNECTED conn_handle) s
        = Outcome.returned s' ∧
      (isConnected s').1 = true ∧
      (isAdvertising s').1 = false ∧
      s'.connectionHandle = conn_handle :=
  ⟨_, rfl, rfl, rfl, rfl⟩

/-! ### C3 -/

/-- C3 (evaluation of the code): the disconnect case sets the advertising flag whatever
the advertising module was configured to do; after `disableAdvertisingOnDisconnect()`, a
connect event and a disconnect event, `isConnected()` is false and `isAdvertising()` is
true, while it was false just before the disconnect event. -/
theorem disconnect_sets_advertising_despite_config :
    (∀ (sd_result conn_handle reason : Nat) (s : StackState),
      (ble_evt_handler sd_result
        (ble_evt_t.BLE_GAP_EVT_DISCONNECTED conn_handle reason) s).state.connected = false ∧
      (ble_evt_handler sd_result
        (ble_evt_t.BLE_GAP_EVT_DISCONNECTED conn_handle reason) s).state.currentlyAdvertising
          = true) ∧
    (disableAdvertisingOnDisconnect (initialState 8 2)).advModesConfig.ble_adv_on_disconnect_disabled
      = true ∧
    (isAdvertising (run [Action.ble_evt (ble_evt_t.BLE_GAP_EVT_CONNECTED 7) 0]
      (disableAdvertisingOnDisconnect (initialState 8 2)))).1 = false ∧
    autoAdvertiseDisabledDrop.advModesConfig.ble_adv_on_disconnect_disabled = true ∧
    (isConnected autoAdvertiseDisabledDrop).1 = false ∧
    (isAdvertising autoAdvertiseDisabledDrop).1 = true := by
  refine ⟨?_, by decide, by decide, by decide, by decide, by decide⟩
  intro sd_result conn_handle reason s
  unfold ble_evt_handler
  cases hr : s.resetOnDisconnectPending <;>
    simp [hr, PowerManager_reset, notifyClients, StackState.log, StackState.logAll,
      Outcome.andThen, Outcome.state]

/-! ### C4 -/

/-- C4: in every state with no peer connected, pending or not, `send` returns
NotConnected; the only call it makes is the watchdog feed (nothing goes to the radio
stack), and the pending flag, connection handle, connected flag and advertising flag are
unchanged. -/
theorem send_not_connected (hvx_result handle : Nat) (data : List Nat) (len : Nat)
    (s : StackState) (h : s.connected = false) :
    (send hvx_result handle data len s).1 = SendResult.SendResult_NotConnected ∧
    (send hvx_result handle data len s).2 = s.log Call.PowerManager_feed ∧
    (send hvx_result handle data len s).2.trace = s.trace ++ [Call.PowerManager_feed] ∧
    (send hvx_result handle data len s).2.notificationPending = s.notificationPending ∧
    (send hvx_result handle data len s).2.connectionHandle = s.connectionHandle ∧
    (send hvx_result handle data len s).2.connected = s.connected ∧
    (send hvx_result handle data len s).2.currentlyAdvertising = s.currentlyAdvertising := by
  simp [send, StackState.log, h]

/-- Witness of C4 at the initial state. -/
theorem send_not_connected_witness :
    (initialState 8 2).connected = false ∧
    (send 0 14 [1, 2] 2 (initialState 8 2)).1 = SendResult.SendResult_NotConnected :=
  ⟨rfl, (send_not_connected 0 14 [1, 2] 2 (initialState 8 2) rfl).1⟩

/-! ### C5 -/

/-- C5: in every state with a peer connected and a notification pending, `send` returns
Busy; the only call it makes is the watchdog feed (nothing goes to the radio stack), the
pending flag stays set and every other variable of the module is unchanged. -/
theorem send_busy (hvx_result handle : Nat) (data : List Nat) (len : Nat)
    (s : StackState) (hc : s.connected = true) (hp : s.notificationPending = true) :
    (send hvx_result handle data len s).1 = SendResult.SendResult_Busy ∧
    (send hvx_result handle data len s).2 = s.log Call.PowerManager_feed ∧
    (send hvx_result handle data len s).2.trace = s.trace ++ [Call.PowerManager_feed] ∧
    (send hvx_result handle data len s).2.notificationPending = true := by
  simp [send, StackState.log, hc, hp]

/-- Witness of C5: a second send on a connected link with one notification pending. -/
theorem send_busy_witness :
    linkUpPending.connected = true ∧ linkUpPending.notificationPending = true ∧
    (send 0 14 [3] 1 linkUpPending).1 = SendResult.SendResult_Busy :=
  ⟨by decide, by decide, (send_busy 0 14 [3] 1 linkUpPending (by decide) (by decide)).1⟩

/-! ### C6 -/

/-- C6: connected, nothing pending, and the radio stack accepts: `send` returns Ok, the
pending flag is true afterwards (`canSend()` false), exactly one notification with the
given attribute handle, data and length went out on the current connection handle, and
nothing else changed. -/
theorem send_ok (hvx_result handle : Nat) (data : List Nat) (len : Nat)
    (s : StackState) (hc : s.connected = true) (hp : s.notificationPending = false)
    (hr : hvx_result = NRF_SUCCESS) :
    (send hvx_result handle data len s).1 = SendResult.SendResult_Ok ∧
    (send hvx_result handle data len s).2.notificationPending = true ∧
    (canSend (send hvx_result handle data len s).2).1 = false ∧
    (send hvx_result handle data len s).2.trace = s.trace ++
      [Call.PowerManager_feed,
       Call.sd_ble_gatts_hvx s.connectionHandle handle data len BLE_GATT_HVX_NOTIFICATION] ∧
    (send hvx_result handle data len s).2 =
      { s with notificationPending := true, trace := s.trace ++
        [Call.PowerManager_feed,
         Call.sd_ble_gatts_hvx s.connectionHandle handle data len BLE_GATT_HVX_NOTIFICATION] } := by
  simp [send, canSend, StackState.log, hc, hp, hr]

/-- Witness of C6: the first send on a fresh link, accepted by the radio stack. -/
theorem send_ok_witness :
    linkUp.connected = true ∧ linkUp.notificationPending = false ∧
    (send 0 14 [1, 2] 2 linkUp).1 = SendResult.SendResult_Ok :=
  ⟨by decide, by decide, (send_ok 0 14 [1, 2] 2 linkUp (by decide) (by decide) rfl).1⟩

/-! ### C7 -/

/-- C7: connected, nothing pending, and the radio stack rejects with any non-success
code: `send` returns Error, the pending flag is false afterwards (`canSend()` true), and
every variable of the module has the value it had before the call (only the log of
outgoing calls grew). -/
theorem send_rejected (hvx_result handle : Nat) (data : List Nat) (len : Nat)
    (s : StackState) (hc : s.connected = true) (hp : s.notificationPending = false)
    (hr : hvx_result ≠ NRF_SUCCESS) :
    (send hvx_result handle data len s).1 = SendResult.SendResult_Error ∧
    (send hvx_result handle data len s).2.notificationPending = false ∧
    (canSend (send hvx_result handle data len s).2).1 = true ∧
    (send hvx_result handle data len s).2 =
      { s with trace := s.trace ++
        [Call.PowerManager_feed,
         Call.sd_ble_gatts_hvx s.connectionHandle handle data len BLE_GATT_HVX_NOTIFICATION] } := by
  cases s
  simp_all [send, canSend, StackState.log]

/-- Witness of C7: the first send on a fresh link, rejected with code 0x3401. -/
theorem send_rejected_witness :
    linkUp.connected = true ∧ linkUp.notificationPending = false ∧
    (send 0x3401 14 [1, 2] 2 linkUp).1 = SendResult.SendResult_Error ∧
    (canSend (send 0x3401 14 [1, 2] 2 linkUp).2).1 = true :=
  ⟨by decide, by decide,
    (send_rejected 0x3401 14 [1, 2] 2 linkUp (by decide) (by decide) (by decide)).1,
    (send_rejected 0x3401 14 [1, 2] 2 linkUp (by decide) (by decide) (by decide)).2.2.1⟩

/-! ### C8 -/

/-- C8: for every state, `ble_evt_handler` returns from BLE_GATTS_EVT_HVN_TX_COMPLETE and
from BLE_GATTS_EVT_HVC with the pending flag false (`canSend()` true) and with the
connected flag, advertising flag and connection handle unchanged. -/
theorem completion_events_clear (sd_result conn_handle count handle : Nat) (s : StackState) :
    (∃ s', ble_evt_handler sd_result
          (ble_evt_t.BLE_GATTS_EVT_HVN_TX_COMPLETE conn_handle count) s = Outcome.returned s' ∧
        s'.notificationPending = false ∧ (canSend s').1 = true ∧
        s'.connected = s.connected ∧
        s'.currentlyAdvertising = s.currentlyAdvertising ∧
        s'.connectionHandle = s.connectionHandle) ∧
    (∃ s', ble_evt_handler sd_result
          (ble_evt_t.BLE_GATTS_EVT_HVC conn_handle handle) s = Outcome.returned s' ∧
        s'.notificationPending = false ∧ (canSend s').1 = true ∧
        s'.connected = s.connected ∧
        s'.currentlyAdvertising = s.currentlyAdvertising ∧
        s'.connectionHandle = s.connectionHandle) :=
  ⟨⟨_, rfl, rfl, rfl, rfl, rfl, rfl⟩, ⟨_, rfl, rfl, rfl, rfl, rfl, rfl⟩⟩

/-! ### C9 -/

/-- C9: `canSend()` is true exactly when no notification is pending and changes no state;
on a connected link it is true if and only if the send that follows does not return
Busy. -/
theorem canSend_iff_not_pending (s : StackState) :
    ((canSend s).1 = true ↔ s.notificationPending = false) ∧
    (canSend s).2 = s ∧
    (s.connected = true → ∀ (hvx_result handle : Nat) (data : List Nat) (len : Nat),
      ((canSend s).1 = true ↔
        (send hvx_result handle data len (canSend s).2).1 ≠ SendResult.SendResult_Busy)) := by
  refine ⟨by simp [canSend], rfl, ?_⟩
  intro hc hvx_result handle data len
  cases hp : s.notificationPending <;> by_cases hr : hvx_result = NRF_SUCCESS <;>
    simp [canSend, send, StackState.log, hc, hp, hr]

/-- Witness of C9 on a connected link with a notification pending. -/
theorem canSend_iff_not_pending_witness :
    linkUpPending.connected = true ∧
    ((canSend linkUpPending).1 = true ↔
      (send 0 14 [3] 1 (canSend linkUpPending).2).1 ≠ SendResult.SendResult_Busy) :=
  ⟨by decide, (canSend_iff_not_pending linkUpPending).2.2 (by decide) 0 14 [3] 1⟩

/-! ### Auxiliary lemmas: registries -/

/-- Unregistering by a predicate that no entry satisfies leaves the list as it is. -/
theorem eraseP_no_match {α : Type} (p : α → Bool) (l : List α)
    (h : l.any p = false) : l.eraseP p = l := by
  apply List.eraseP_of_forall_not
  intro a ha hp
  rw [List.any_eq_false] at h
  exact h a ha hp

/-- Unregistering a callback that no entry carries leaves the registry as it is. -/
theorem unregisterWithHandler_no_match (a : DelegateArray) (handler : Handler)
    (h : a.subscribed handler = false) : a.UnregisterWithHandler handler = a := by
  cases a with
  | mk maxCount items =>
    simp only [DelegateArray.UnregisterWithHandler, DelegateArray.subscribed] at h ⊢
    rw [eraseP_no_match _ _ h]

/-- Unregistering a token that no entry carries leaves the registry as it is. -/
theorem unregisterWithToken_no_match (a : DelegateArray) (token : Nat)
    (h : a.items.any (fun d => decide (d.token = token)) = false) :
    a.UnregisterWithToken token = a := by
  cases a with
  | mk maxCount items =>
    simp only [DelegateArray.UnregisterWithToken] at h ⊢
    rw [eraseP_no_match _ _ h]

/-! ### Auxiliary lemmas: the subscriptions to the sensor providers -/

/-- Only the connect event and the fast-advertising-entered event touch the registries
of the two sensor providers: every other action leaves both as they are, whatever it
returns. -/
theorem perform_keeps_providers (a : Action) (s : StackState)
    (hf : a.isFastAdvertising = false) (hc : a.isConnect = false) :
    (a.perform s).state.rollStateClients = s.rollStateClients ∧
    (a.perform s).state.batteryLevelClients = s.batteryLevelClients := by
  cases a with
  | send handle data len hvx_result =>
    cases hcon : s.connected <;> cases hp : s.notificationPending <;>
      by_cases hr : hvx_result = NRF_SUCCESS <;>
      simp [Action.perform, Outcome.state, send, StackState.log, hcon, hp, hr]
  | ble_evt evt sd_result =>
    cases evt <;> first
      | (simp [Action.isConnect] at hc; done)
      | (by_cases hr : sd_result = NRF_SUCCESS <;>
          cases hfl : s.resetOnDisconnectPending <;>
          simp [Action.perform, ble_evt_handler, APP_ERROR_CHECK, Outcome.andThen,
            Outcome.state, PowerManager_reset, notifyClients, notifyRssiClients,
            StackState.log, StackState.logAll, hr, hfl])
  | adv_evt evt sd_result =>
    cases evt <;> first
      | (simp [Action.isFastAdvertising] at hf; done)
      | simp [Action.perform, on_adv_evt, Outcome.state]

/-- The fast-advertising-entered event whose payload update is refused ends in the fatal
error handler before any subscription is made. -/
theorem failed_fast_advertising_keeps_providers (sd_result : Nat) (s : StackState)
    (h : sd_result ≠ NRF_SUCCESS) :
    on_adv_evt sd_result ble_adv_evt_t.BLE_ADV_EVT_FAST s
      = Outcome.fatal sd_result
          ((s.log Call.ble_advertising_advdata_update).log (Call.app_error_handler sd_result)) := by
  simp [on_adv_evt, APP_ERROR_CHECK, Outcome.andThen, h]

/-- An action other than the fast-advertising-entered event never subscribes the
roll-state listener. -/
theorem perform_keeps_roll_unsubscribed (a : Action) (s : StackState)
    (hf : a.isFastAdvertising = false)
    (h : s.rollStateClients.subscribed Handler.onRollStateChange = false) :
    (a.perform s).state.rollStateClients.subscribed Handler.onRollStateChange = false := by
  by_cases hc : a.isConnect = true
  · cases a with
    | send handle data len hvx_result => simp [Action.isConnect] at hc
    | adv_evt evt sd_result => simp [Action.isConnect] at hc
    | ble_evt evt sd_result =>
      cases evt <;> first
        | (simp [Action.isConnect] at hc; done)
        | (simp only [Action.perform, ble_evt_handler, Outcome.andThen, Outcome.state,
            StackState.log, notifyClients, StackState.logAll, Accelerometer_unHookRollState,
            BatteryController_unHookLevel]
           rw [unregisterWithHandler_no_match _ _ h]
           exact h)
  · have hc' : a.isConnect = false := by simpa using hc
    rw [(perform_keeps_providers a s hf hc').1]
    exact h

/-- An action other than the fast-advertising-entered event never subscribes the
battery-level listener. -/
theorem perform_keeps_battery_unsubscribed (a : Action) (s : StackState)
    (hf : a.isFastAdvertising = false)
    (h : s.batteryLevelClients.subscribed Handler.onBatteryLevelChange = false) :
    (a.perform s).state.batteryLevelClients.subscribed Handler.onBatteryLevelChange
      = false := by
  by_cases hc : a.isConnect = true
  · cases a with
    | send handle data len hvx_result => simp [Action.isConnect] at hc
    | adv_evt evt sd_result => simp [Action.isConnect] at hc
    | ble_evt evt sd_result =>
      cases evt <;> first
        | (simp [Action.isConnect] at hc; done)
        | (simp only [Action.perform, ble_evt_handler, Outcome.andThen, Outcome.state,
            StackState.log, notifyClients, StackState.logAll, Accelerometer_unHookRollState,
            BatteryController_unHookLevel]
           rw [unregisterWithHandler_no_match _ _ h]
           exact h)
  · have hc' : a.isConnect = false := by simpa using hc
    rw [(perform_keeps_providers a s hf hc').2]
    exact h

/-- A run without a fast-advertising-entered event subscribes neither listener. -/
theorem simulate_keeps_unsubscribed (acts : List Action) :
    (∀ a ∈ acts, a.isFastAdvertising = false) →
    ∀ m : Sim,
      (m.state.rollStateClients.subscribed Handler.onRollStateChange = false →
        (simulate acts m).state.rollStateClients.subscribed Handler.onRollStateChange
          = false) ∧
      (m.state.batteryLevelClients.subscribed Handler.onBatteryLevelChange = false →
        (simulate acts m).state.batteryLevelClients.subscribed Handler.onBatteryLevelChange
          = false) := by
  induction acts with
  | nil =>
    intro _ m
    exact ⟨fun h => h, fun h => h⟩
  | cons a rest ih =>
    intro hacts m
    have ha : a.isFastAdvertising = false := hacts a (List.mem_cons_self _ _)
    have hrest : ∀ b ∈ rest, b.isFastAdvertising = false :=
      fun b hb => hacts b (List.mem_cons_of_mem _ hb)
    have hroll := perform_keeps_roll_unsubscribed a m.state ha
    have hbat := perform_keeps_battery_unsubscribed a m.state ha
    unfold simulate
    cases hp : a.perform m.state with
    | returned s' =>
      rw [hp] at hroll hbat
      simp only [Outcome.state] at hroll hbat
      simp only
      exact ⟨fun h => (ih hrest _).1 (hroll h), fun h => (ih hrest _).2 (hbat h)⟩
    | fatal e s' => exact ⟨fun h => h, fun h => h⟩
    | reset s' => exact ⟨fun h => h, fun h => h⟩

/-- Registering a callback that no entry carries leaves at most one entry with it. -/
theorem register_registrations_le (a : DelegateArray) (token : Nat) (handler : Handler)
    (h : a.subscribed handler = false) :
    (a.Register token handler).2.registrations handler ≤ 1 := by
  have h0 : a.items.countP (fun d => decide (d.handler = handler)) = 0 := by
    rw [List.countP_eq_zero]
    exact List.any_eq_false.mp h
  unfold DelegateArray.Register
  split
  · simp [DelegateArray.registrations, List.countP_append, h0]
  · simp [DelegateArray.registrations, h0]

/-- Unregistering a callback adds no entry with it. -/
theorem unregister_registrations_le (a : DelegateArray) (handler : Handler) :
    (a.UnregisterWithHandler handler).registrations handler ≤ a.registrations handler := by
  simp only [DelegateArray.UnregisterWithHandler, DelegateArray.registrations]
  exact List.Sublist.countP_le _ (List.eraseP_sublist _)

/-- One returning action keeps the subscriptions in step with the link, provided a
fast-advertising-entered event arrives only while no peer is connected and neither
listener is subscribed: each listener stays registered at most once, and neither is
subscribed while a peer is connected. -/
theorem perform_keeps_hygiene (a : Action) (s s' : StackState)
    (hidle : a.isFastAdvertising = true →
      s.connected = false ∧
      s.rollStateClients.subscribed Handler.onRollStateChange = false ∧
      s.batteryLevelClients.subscribed Handler.onBatteryLevelChange = false)
    (h1 : s.rollStateClients.registrations Handler.onRollStateChange ≤ 1)
    (h2 : s.batteryLevelClients.registrations Handler.onBatteryLevelChange ≤ 1)
    (h3 : s.connected = true →
      s.rollStateClients.subscribed Handler.onRollStateChange = false ∧
      s.batteryLevelClients.subscribed Handler.onBatteryLevelChange = false)
    (hp : a.perform s = Outcome.returned s') :
    s'.rollStateClients.registrations Handler.onRollStateChange ≤ 1 ∧
    s'.batteryLevelClients.registrations Handler.onBatteryLevelChange ≤ 1 ∧
    (s'.connected = true →
      s'.rollStateClients.subscribed Handler.onRollStateChange = false ∧
      s'.batteryLevelClients.subscribed Handler.onBatteryLevelChange = false) := by
  cases a with
  | send handle data len hvx_result =>
    have hs : s' = (send hvx_result handle data len s).2 := by
      simp only [Action.perform, Outcome.returned.injEq] at hp
      exact hp.symm
    have hk := perform_keeps_providers (Action.send handle data len hvx_result) s rfl rfl
    simp only [Action.perform, Outcome.state] at hk
    have hcon : (send hvx_result handle data len s).2.connected = s.connected := by
      cases hc : s.connected <;> cases hpd : s.notificationPending <;>
        by_cases hr : hvx_result = NRF_SUCCESS <;>
        simp [send, StackState.log, hc, hpd, hr]
    rw [hs, hk.1, hk.2, hcon]
    exact ⟨h1, h2, h3⟩
  | adv_evt evt sd_result =>
    cases evt with
    | BLE_ADV_EVT_FAST =>
      obtain ⟨hc, hr, hb⟩ := hidle rfl
      by_cases hsd : sd_result = NRF_SUCCESS
      · simp only [Action.perform, on_adv_evt, APP_ERROR_CHECK, hsd, if_true, Outcome.andThen,
          Outcome.returned.injEq] at hp
        rw [← hp]
        refine ⟨?_, ?_, ?_⟩
        · exact register_registrations_le _ _ _ hr
        · exact register_registrations_le _ _ _ hb
        · intro hcon
          simp [Accelerometer_hookRollState, BatteryController_hookLevel, StackState.log,
            hc] at hcon
      · simp [Action.perform, on_adv_evt, APP_ERROR_CHECK, hsd, Outcome.andThen] at hp
    | BLE_ADV_EVT_IDLE =>
      simp only [Action.perform, on_adv_evt, Outcome.returned.injEq] at hp
      rw [← hp]
      exact ⟨h1, h2, h3⟩
    | other evt_id =>
      simp only [Action.perform, on_adv_evt, Outcome.returned.injEq] at hp
      rw [← hp]
      exact ⟨h1, h2, h3⟩
  | ble_evt evt sd_result =>
    cases evt with
    | BLE_GAP_EVT_CONNECTED conn_handle =>
      simp only [Action.perform, ble_evt_handler, Outcome.andThen, Outcome.returned.injEq] at hp
      rw [← hp]
      refine ⟨?_, ?_, fun _ => ⟨?_, ?_⟩⟩
      · exact Nat.le_trans (unregister_registrations_le _ _) h1
      · exact Nat.le_trans (unregister_registrations_le _ _) h2
      · exact eraseP_any_false _ _ h1
      · exact eraseP_any_false _ _ h2
    | BLE_GAP_EVT_DISCONNECTED conn_handle reason =>
      cases hf : s.resetOnDisconnectPending
      · simp only [Action.perform, ble_evt_handler, notifyClients, StackState.logAll, hf,
          Bool.false_eq_true, if_false, Outcome.andThen, StackState.log,
          Outcome.returned.injEq] at hp
        rw [← hp]
        refine ⟨h1, h2, ?_⟩
        intro hcon
        simp at hcon
      · simp [Action.perform, ble_evt_handler, notifyClients, StackState.logAll, hf,
          PowerManager_reset, Outcome.andThen] at hp
    | BLE_GAP_EVT_PHY_UPDATE_REQUEST conn_handle =>
      by_cases hsd : sd_result = NRF_SUCCESS
      · simp only [Action.perform, ble_evt_handler, APP_ERROR_CHECK, hsd, if_true,
          Outcome.andThen, StackState.log, Outcome.returned.injEq] at hp
        rw [← hp]
        exact ⟨h1, h2, h3⟩
      · simp [Action.perform, ble_evt_handler, APP_ERROR_CHECK, hsd, Outcome.andThen] at hp
    | BLE_GATTC_EVT_TIMEOUT conn_handle =>
      by_cases hsd : sd_result = NRF_SUCCESS
      · simp only [Action.perform, ble_evt_handler, APP_ERROR_CHECK, hsd, if_true,
          Outcome.andThen, StackState.log, Outcome.returned.injEq] at hp
        rw [← hp]
        exact ⟨h1, h2, h3⟩
      · simp [Action.perform, ble_evt_handler, APP_ERROR_CHECK, hsd, Outcome.andThen] at hp
    | BLE_GATTS_EVT_TIMEOUT conn_handle =>
      by_cases hsd : sd_result = NRF_SUCCESS
      · simp only [Action.perform, ble_evt_handler, APP_ERROR_CHECK, hsd, if_true,
          Outcome.andThen, StackState.log, Outcome.returned.injEq] at hp
        rw [← hp]
        exact ⟨h1, h2, h3⟩
      · simp [Action.perform, ble_evt_handler, APP_ERROR_CHECK, hsd, Outcome.andThen] at hp
    | BLE_GAP_EVT_SEC_PARAMS_REQUEST conn_handle =>
      by_cases hsd : sd_result = NRF_SUCCESS
      · simp only [Action.perform, ble_evt_handler, APP_ERROR_CHECK, hsd, if_true,
          Outcome.andThen, StackState.log, Outcome.returned.injEq] at hp
        rw [← hp]
        exact ⟨h1, h2, h3⟩
      · simp [Action.perform, ble_evt_handler, APP_ERROR_CHECK, hsd, Outcome.andThen] at hp
    | BLE_GATTS_EVT_SYS_ATTR_MISSING conn_handle =>
      by_cases hsd : sd_result = NRF_SUCCESS
      · simp only [Action.perform, ble_evt_handler, APP_ERROR_CHECK, hsd, if_true,
          Outcome.andThen, StackState.log, Outcome.returned.injEq] at hp
        rw [← hp]
        exact ⟨h1, h2, h3⟩
      · simp [Action.perform, ble_evt_handler, APP_ERROR_CHECK, hsd, Outcome.andThen] at hp
    | BLE_GAP_EVT_RSSI_CHANGED conn_handle rssi ch_index =>
      simp only [Action.perform, ble_evt_handler, notifyRssiClients, StackState.logAll,
        Outcome.andThen, StackState.log, Outcome.returned.injEq] at hp
      rw [← hp]
      exact ⟨h1, h2, h3⟩
    | BLE_GATTS_EVT_HVN_TX_COMPLETE conn_handle count =>
      simp only [Action.perform, ble_evt_handler, Outcome.andThen, StackState.log,
        Outcome.returned.injEq] at hp
      rw [← hp]
      exact ⟨h1, h2, h3⟩
    | BLE_GATTS_EVT_HVC conn_handle handle =>
      simp only [Action.perform, ble_evt_handler, Outcome.andThen, StackState.log,
        Outcome.returned.injEq] at hp
      rw [← hp]
      exact ⟨h1, h2, h3⟩
    | other evt_id =>
      simp only [Action.perform, ble_evt_handler, Outcome.andThen, StackState.log,
        Outcome.returned.injEq] at hp
      rw [← hp]
      exact ⟨h1, h2, h3⟩

/-- A run in which a fast-advertising-entered event arrives only while no peer is
connected and neither listener is subscribed keeps the subscriptions in step with the
link. -/
theorem simulate_keeps_hygiene (acts : List Action) :
    ∀ m : Sim,
      fastAdvertisingOnlyWhenIdle acts m.state = true →
      m.state.rollStateClients.registrations Handler.onRollStateChange ≤ 1 →
      m.state.batteryLevelClients.registrations Handler.onBatteryLevelChange ≤ 1 →
      (m.state.connected = true →
        m.state.rollStateClients.subscribed Handler.onRollStateChange = false ∧
        m.state.batteryLevelClients.subscribed Handler.onBatteryLevelChange = false) →
      ((simulate acts m).state.connected = true →
        (simulate acts m).state.rollStateClients.subscribed Handler.onRollStateChange
          = false ∧
        (simulate acts m).state.batteryLevelClients.subscribed Handler.onBatteryLevelChange
          = false) := by
  induction acts with
  | nil =>
    intro m _ _ _ h3
    exact h3
  | cons a rest ih =>
    intro m hidle h1 h2 h3
    unfold fastAdvertisingOnlyWhenIdle at hidle
    unfold simulate
    cases hp : a.perform m.state with
    | returned s' =>
      rw [hp] at hidle
      simp only [Bool.and_eq_true, Bool.or_eq_true, Bool.not_eq_true'] at hidle
      have hstep := perform_keeps_hygiene a m.state s'
        (fun hfast => by
          rcases hidle.1 with hno | hyes
          · rw [hfast] at hno
            exact absurd hno (by decide)
          · exact ⟨hyes.1.1, hyes.1.2, hyes.2⟩)
        h1 h2 h3 hp
      simp only
      exact ih _ hidle.2 hstep.1 hstep.2.1 hstep.2.2
    | fatal e s' => exact h3
    | reset s' => exact h3

/-- Registering keeps every entry that is there. -/
theorem register_keeps_subscribed (a : DelegateArray) (token : Nat) (handler handler' : Handler)
    (h : a.subscribed handler' = true) :
    (a.Register token handler).2.subscribed handler' = true := by
  unfold DelegateArray.Register
  split
  · simp only [DelegateArray.subscribed, List.any_append, Bool.or_eq_true] at h ⊢
    exact Or.inl h
  · exact h

/-- An action other than the connect event never unsubscribes a listener. -/
theorem perform_keeps_subscribed (a : Action) (s : StackState) (hc : a.isConnect = false) :
    (s.rollStateClients.subscribed Handler.onRollStateChange = true →
      (a.perform s).state.rollStateClients.subscribed Handler.onRollStateChange = true) ∧
    (s.batteryLevelClients.subscribed Handler.onBatteryLevelChange = true →
      (a.perform s).state.batteryLevelClients.subscribed Handler.onBatteryLevelChange
        = true) := by
  by_cases hf : a.isFastAdvertising = true
  · cases a with
    | send handle data len hvx_result => simp [Action.isFastAdvertising] at hf
    | ble_evt evt sd_result => simp [Action.isFastAdvertising] at hf
    | adv_evt evt sd_result =>
      cases evt with
      | BLE_ADV_EVT_IDLE => simp [Action.isFastAdvertising] at hf
      | other evt_id => simp [Action.isFastAdvertising] at hf
      | BLE_ADV_EVT_FAST =>
        by_cases hsd : sd_result = NRF_SUCCESS
        · simp only [Action.perform, on_adv_evt, APP_ERROR_CHECK, hsd, if_true,
            Outcome.andThen, Outcome.state, Accelerometer_hookRollState,
            BatteryController_hookLevel, StackState.log]
          exact ⟨fun h => register_keeps_subscribed _ _ _ _ h,
            fun h => register_keeps_subscribed _ _ _ _ h⟩
        · rw [show (Action.adv_evt ble_adv_evt_t.BLE_ADV_EVT_FAST sd_result).perform s
              = on_adv_evt sd_result ble_adv_evt_t.BLE_ADV_EVT_FAST s from rfl,
            failed_fast_advertising_keeps_providers sd_result s hsd]
          exact ⟨fun h => h, fun h => h⟩
  · have hf' : a.isFastAdvertising = false := by simpa using hf
    have hk := perform_keeps_providers a s hf' hc
    rw [hk.1, hk.2]
    exact ⟨fun h => h, fun h => h⟩

/-- A run without a connect event unsubscribes neither listener. -/
theorem simulate_keeps_subscribed (acts : List Action) :
    (∀ a ∈ acts, a.isConnect = false) →
    ∀ m : Sim,
      (m.state.rollStateClients.subscribed Handler.onRollStateChange = true →
        (simulate acts m).state.rollStateClients.subscribed Handler.onRollStateChange
          = true) ∧
      (m.state.batteryLevelClients.subscribed Handler.onBatteryLevelChange = true →
        (simulate acts m).state.batteryLevelClients.subscribed Handler.onBatteryLevelChange
          = true) := by
  induction acts with
  | nil =>
    intro _ m
    exact ⟨fun h => h, fun h => h⟩
  | cons a rest ih =>
    intro hacts m
    have ha : a.isConnect = false := hacts a (List.mem_cons_self _ _)
    have hrest : ∀ b ∈ rest, b.isConnect = false :=
      fun b hb => hacts b (List.mem_cons_of_mem _ hb)
    have hstep := perform_keeps_subscribed a m.state ha
    unfold simulate
    cases hp : a.perform m.state with
    | returned s' =>
      rw [hp] at hstep
      simp only [Outcome.state] at hstep
      simp only
      exact ⟨fun h => (ih hrest _).1 (hstep.1 h), fun h => (ih hrest _).2 (hstep.2 h)⟩
    | fatal e s' => exact ⟨fun h => h, fun h => h⟩
    | reset s' => exact ⟨fun h => h, fun h => h⟩

/-! ### C10 -/

/-- C10 (amended): the two listeners are subscribed by the fast-advertising-entered event
and unsubscribed by the connect event, and by nothing else. A fast-advertising event whose
payload update succeeds subscribes both listeners (given room in the providers'
registries) and sets `isAdvertising()`; a connect event removes one registration of each,
so none is left when each was registered at most once, and sets `isConnected()`; a
disconnect event changes neither registry. Every send and every event other than these
two leaves both registries as they are, whatever it returns; a fast-advertising event
whose payload update is refused ends in the fatal error handler before it subscribes; a
run without a fast-advertising event leaves an unsubscribed listener unsubscribed, and a
run without a connect event leaves a subscribed listener subscribed; the fast-advertising
event does to each registry what one `Register` does and the connect event what one
`UnregisterWithHandler` does. In a run from the initial state in which every
fast-advertising event arrives while no peer is connected and neither listener is
subscribed, neither listener is subscribed whenever `isConnected()` is true. The sequence
fast-advertising, connect, disconnect, fast-advertising from the initial state makes the
calls subscribe, unsubscribe, subscribe for each listener in that order and leaves one
subscription of each. -/
theorem subscription_hygiene :
    (∀ s : StackState,
      s.rollStateClients.Count < s.rollStateClients.maxCount →
      s.batteryLevelClients.Count < s.batteryLevelClients.maxCount →
      ∃ s', on_adv_evt NRF_SUCCESS ble_adv_evt_t.BLE_ADV_EVT_FAST s = Outcome.returned s' ∧
        (isAdvertising s').1 = true ∧
        s'.rollStateClients.subscribed Handler.onRollStateChange = true ∧
        s'.batteryLevelClients.subscribed Handler.onBatteryLevelChange = true) ∧
    (∀ (s : StackState) (sd_result conn_handle : Nat),
      s.rollStateClients.registrations Handler.onRollStateChange ≤ 1 →
      s.batteryLevelClients.registrations Handler.onBatteryLevelChange ≤ 1 →
      ∃ s', ble_evt_handler sd_result (ble_evt_t.BLE_GAP_EVT_CONNECTED conn_handle) s
          = Outcome.returned s' ∧
        (isConnected s').1 = true ∧
        s'.rollStateClients.subscribed Handler.onRollStateChange = false ∧
        s'.batteryLevelClients.subscribed Handler.onBatteryLevelChange = false) ∧
    (∀ (s : StackState) (sd_result conn_handle reason : Nat),
      (ble_evt_handler sd_result
        (ble_evt_t.BLE_GAP_EVT_DISCONNECTED conn_handle reason) s).state.rollStateClients
          = s.rollStateClients ∧
      (ble_evt_handler sd_result
        (ble_evt_t.BLE_GAP_EVT_DISCONNECTED conn_handle reason) s).state.batteryLevelClients
          = s.batteryLevelClients) ∧
    (∀ (rollStateMax batteryLevelMax conn_handle reason sd1 sd2 : Nat),
      0 < rollStateMax → 0 < batteryLevelMax →
      (run (advertiseConnectDropAdvertise conn_handle reason sd1 sd2)
          (initialState rollStateMax batteryLevelMax)).trace =
        [Call.ble_advertising_advdata_update,
         Call.Accelerometer_hookRollState Handler.onRollStateChange nullptr,
         Call.BatteryController_hookLevel Handler.onBatteryLevelChange nullptr,
         Call.Accelerometer_unHookRollState Handler.onRollStateChange,
         Call.BatteryController_unHookLevel Handler.onBatteryLevelChange,
         Call.PowerManager_feed,
         Call.PowerManager_feed,
         Call.ble_advertising_advdata_update,
         Call.Accelerometer_hookRollState Handler.onRollStateChange nullptr,
         Call.BatteryController_hookLevel Handler.onBatteryLevelChange nullptr] ∧
      (run (advertiseConnectDropAdvertise conn_handle reason sd1 sd2)
          (initialState rollStateMax batteryLevelMax)).rollStateClients.items =
        [{ token := nullptr, handler := Handler.onRollStateChange }] ∧
      (run (advertiseConnectDropAdvertise conn_handle reason sd1 sd2)
          (initialState rollStateMax batteryLevelMax)).batteryLevelClients.items =
        [{ token := nullptr, handler := Handler.onBatteryLevelChange }]) ∧
    (∀ (a : Action) (s : StackState),
      a.isFastAdvertising = false → a.isConnect = false →
      (a.perform s).state.rollStateClients = s.rollStateClients ∧
      (a.perform s).state.batteryLevelClients = s.batteryLevelClients) ∧
    (∀ (sd_result : Nat) (s : StackState), sd_result ≠ NRF_SUCCESS →
      (∃ s', on_adv_evt sd_result ble_adv_evt_t.BLE_ADV_EVT_FAST s
        = Outcome.fatal sd_result s') ∧
      (on_adv_evt sd_result ble_adv_evt_t.BLE_ADV_EVT_FAST s).state.rollStateClients
        = s.rollStateClients ∧
      (on_adv_evt sd_result ble_adv_evt_t.BLE_ADV_EVT_FAST s).state.batteryLevelClients
        = s.batteryLevelClients) ∧
    (∀ (acts : List Action) (s : StackState),
      (∀ a ∈ acts, a.isFastAdvertising = false) →
      (s.rollStateClients.subscribed Handler.onRollStateChange = false →
        (run acts s).rollStateClients.subscribed Handler.onRollStateChange = false) ∧
      (s.batteryLevelClients.subscribed Handler.onBatteryLevelChange = false →
        (run acts s).batteryLevelClients.subscribed Handler.onBatteryLevelChange
          = false)) ∧
    (∀ (acts : List Action) (rollStateMax batteryLevelMax : Nat),
      fastAdvertisingOnlyWhenIdle acts (initialState rollStateMax batteryLevelMax) = true →
      (isConnected (run acts (initialState rollStateMax batteryLevelMax))).1 = true →
      (run acts (initialState rollStateMax batteryLevelMax)).rollStateClients.subscribed
        Handler.onRollStateChange = false ∧
      (run acts (initialState rollStateMax batteryLevelMax)).batteryLevelClients.subscribed
        Handler.onBatteryLevelChange = false) ∧
    (∀ s : StackState,
      (on_adv_evt NRF_SUCCESS ble_adv_evt_t.BLE_ADV_EVT_FAST s).state.rollStateClients
        = (s.rollStateClients.Register nullptr Handler.onRollStateChange).2 ∧
      (on_adv_evt NRF_SUCCESS ble_adv_evt_t.BLE_ADV_EVT_FAST s).state.batteryLevelClients
        = (s.batteryLevelClients.Register nullptr Handler.onBatteryLevelChange).2) ∧
    (∀ (s : StackState) (sd_result conn_handle : Nat),
      (ble_evt_handler sd_result
        (ble_evt_t.BLE_GAP_EVT_CONNECTED conn_handle) s).state.rollStateClients
          = s.rollStateClients.UnregisterWithHandler Handler.onRollStateChange ∧
      (ble_evt_handler sd_result
        (ble_evt_t.BLE_GAP_EVT_CONNECTED conn_handle) s).state.batteryLevelClients
          = s.batteryLevelClients.UnregisterWithHandler Handler.onBatteryLevelChange) ∧
    (∀ (acts : List Action) (s : StackState),
      (∀ a ∈ acts, a.isConnect = false) →
      (s.rollStateClients.subscribed Handler.onRollStateChange = true →
        (run acts s).rollStateClients.subscribed Handler.onRollStateChange = true) ∧
      (s.batteryLevelClients.subscribed Handler.onBatteryLevelChange = true →
        (run acts s).batteryLevelClients.subscribed Handler.onBatteryLevelChange
          = true)) := by
  refine ⟨?_, ?_, ?_, ?_, ?_, ?_, ?_, ?_, ?_, ?_, ?_⟩
  · intro s h1 h2
    simp only [DelegateArray.Count] at h1 h2
    refine ⟨{ BatteryController_hookLevel Handler.onBatteryLevelChange nullptr
        (Accelerometer_hookRollState Handler.onRollStateChange nullptr
          (s.log Call.ble_advertising_advdata_update)) with currentlyAdvertising := true },
      ?_, ?_, ?_, ?_⟩
    · simp [on_adv_evt, APP_ERROR_CHECK, Outcome.andThen]
    · rfl
    · simp [Accelerometer_hookRollState, BatteryController_hookLevel, StackState.log,
        DelegateArray.Register, DelegateArray.subscribed, h1]
    · simp [Accelerometer_hookRollState, BatteryController_hookLevel, StackState.log,
        DelegateArray.Register, DelegateArray.subscribed, h2]
  · intro s sd_result conn_handle h1 h2
    refine ⟨_, rfl, rfl, ?_, ?_⟩
    · exact eraseP_any_false _ _ h1
    · exact eraseP_any_false _ _ h2
  · intro s sd_result conn_handle reason
    unfold ble_evt_handler
    cases hr : s.resetOnDisconnectPending <;>
      simp [hr, PowerManager_reset, notifyClients, StackState.log, StackState.logAll,
        Outcome.andThen, Outcome.state]
  · intro rollStateMax batteryLevelMax conn_handle reason sd1 sd2 h1 h2
    simp [run, simulate, advertiseConnectDropAdvertise, Action.perform, on_adv_evt,
      ble_evt_handler, APP_ERROR_CHECK, Outcome.andThen, NRF_SUCCESS, initialState,
      Accelerometer_hookRollState, BatteryController_hookLevel,
      Accelerometer_unHookRollState, BatteryController_unHookLevel, notifyClients,
      StackState.log, StackState.logAll, DelegateArray.Register,
      DelegateArray.UnregisterWithHandler, h1, h2]
  · intro a s hf hc
    exact perform_keeps_providers a s hf hc
  · intro sd_result s h
    rw [failed_fast_advertising_keeps_providers sd_result s h]
    exact ⟨⟨_, rfl⟩, rfl, rfl⟩
  · intro acts s hacts
    exact simulate_keeps_unsubscribed acts hacts { state := s, inFlight := 0 }
  · intro acts rollStateMax batteryLevelMax hidle hcon
    exact simulate_keeps_hygiene acts
      { state := initialState rollStateMax batteryLevelMax, inFlight := 0 } hidle
      (by simp [initialState, DelegateArray.registrations])
      (by simp [initialState, DelegateArray.registrations])
      (by simp [initialState]) hcon
  · intro s
    simp [on_adv_evt, APP_ERROR_CHECK, Outcome.andThen, Outcome.state,
      Accelerometer_hookRollState, BatteryController_hookLevel, StackState.log]
  · intro s sd_result conn_handle
    simp [ble_evt_handler, Outcome.andThen, Outcome.state, notifyClients, StackState.log,
      StackState.logAll, Accelerometer_unHookRollState, BatteryController_unHookLevel]
  · intro acts s hacts
    exact simulate_keeps_subscribed acts hacts { state := s, inFlight := 0 }

/-- Witness of C10 (amended) with registries of capacity 8 and 2. -/
theorem subscription_hygiene_witness :
    ((initialState 8 2).rollStateClients.Count < (initialState 8 2).rollStateClients.maxCount ∧
      (initialState 8 2).batteryLevelClients.Count
        < (initialState 8 2).batteryLevelClients.maxCount ∧
      ∃ s', on_adv_evt NRF_SUCCESS ble_adv_evt_t.BLE_ADV_EVT_FAST (initialState 8 2)
          = Outcome.returned s' ∧
        (isAdvertising s').1 = true ∧
        s'.rollStateClients.subscribed Handler.onRollStateChange = true ∧
        s'.batteryLevelClients.subscribed Handler.onBatteryLevelChange = true) ∧
    (advertisingNow.rollStateClients.registrations Handler.onRollStateChange ≤ 1 ∧
      advertisingNow.batteryLevelClients.registrations Handler.onBatteryLevelChange ≤ 1 ∧
      ∃ s', ble_evt_handler 0 (ble_evt_t.BLE_GAP_EVT_CONNECTED 7) advertisingNow
          = Outcome.returned s' ∧
        (isConnected s').1 = true ∧
        s'.rollStateClients.subscribed Handler.onRollStateChange = false ∧
        s'.batteryLevelClients.subscribed Handler.onBatteryLevelChange = false) ∧
    (0 < 8 ∧ 0 < 2 ∧
      (run (advertiseConnectDropAdvertise 7 0x13 0 0) (initialState 8 2)).rollStateClients.items =
        [{ token := nullptr, handler := Handler.onRollStateChange }]) ∧
    ((Action.adv_evt ble_adv_evt_t.BLE_ADV_EVT_IDLE 0).isFastAdvertising = false ∧
      (Action.adv_evt ble_adv_evt_t.BLE_ADV_EVT_IDLE 0).isConnect = false ∧
      ((Action.adv_evt ble_adv_evt_t.BLE_ADV_EVT_IDLE 0).perform advertisingNow).state.rollStateClients
        = advertisingNow.rollStateClients) ∧
    ((3 : Nat) ≠ NRF_SUCCESS ∧
      (on_adv_evt 3 ble_adv_evt_t.BLE_ADV_EVT_FAST linkDropped).state.rollStateClients
        = linkDropped.rollStateClients) ∧
    ((∀ a ∈ eventsAfterConnect, a.isFastAdvertising = false) ∧
      connectedAfterAdvertising.rollStateClients.subscribed Handler.onRollStateChange = false ∧
      (run eventsAfterConnect connectedAfterAdvertising).rollStateClients.subscribed
        Handler.onRollStateChange = false) ∧
    (fastAdvertisingOnlyWhenIdle advertiseConnectTwice (initialState 8 2) = true ∧
      (isConnected (run advertiseConnectTwice (initialState 8 2))).1 = true ∧
      (run advertiseConnectTwice (initialState 8 2)).rollStateClients.subscribed
        Handler.onRollStateChange = false ∧
      (run advertiseConnectTwice (initialState 8 2)).batteryLevelClients.subscribed
        Handler.onBatteryLevelChange = false) ∧
    ((∀ a ∈ eventsWhileAdvertising, a.isConnect = false) ∧
      advertisingNow.rollStateClients.subscribed Handler.onRollStateChange = true ∧
      (run eventsWhileAdvertising advertisingNow).rollStateClients.subscribed
        Handler.onRollStateChange = true) :=
  ⟨⟨by decide, by decide, subscription_hygiene.1 (initialState 8 2) (by decide) (by decide)⟩,
   ⟨by decide, by decide,
    subscription_hygiene.2.1 advertisingNow 0 7 (by decide) (by decide)⟩,
   ⟨by decide, by decide,
    (subscription_hygiene.2.2.2.1 8 2 7 0x13 0 0 (by decide) (by decide)).2.1⟩,
   ⟨by decide, by decide,
    (subscription_hygiene.2.2.2.2.1 (Action.adv_evt ble_adv_evt_t.BLE_ADV_EVT_IDLE 0)
      advertisingNow (by decide) (by decide)).1⟩,
   ⟨by decide,
    (subscription_hygiene.2.2.2.2.2.1 3 linkDropped (by decide)).2.1⟩,
   ⟨by decide, by decide,
    (subscription_hygiene.2.2.2.2.2.2.1 eventsAfterConnect connectedAfterAdvertising
      (by decide)).1 (by decide)⟩,
   ⟨by decide, by decide,
    subscription_hygiene.2.2.2.2.2.2.2.1 advertiseConnectTwice 8 2 (by decide) (by decide)⟩,
   ⟨by decide, by decide,
    (subscription_hygiene.2.2.2.2.2.2.2.2.2.2 eventsWhileAdvertising advertisingNow
      (by decide)).1 (by decide)⟩⟩

/-- C10 as stated fails, in both halves. After fast advertising, a connect event and a
disconnect event, `isAdvertising()` is true while neither listener is subscribed. After a
connect event followed by a fast-advertising event, and after two fast-advertising events
followed by a connect event, `isConnected()` is true while both listeners are
subscribed. -/
theorem subscription_invariant_fails :
    ((isAdvertising advertisingAfterDrop).1 = true ∧
      advertisingAfterDrop.rollStateClients.subscribed Handler.onRollStateChange = false ∧
      advertisingAfterDrop.batteryLevelClients.subscribed Handler.onBatteryLevelChange
        = false) ∧
    ((isConnected connectedThenAdvertising).1 = true ∧
      connectedThenAdvertising.rollStateClients.subscribed Handler.onRollStateChange = true ∧
      connectedThenAdvertising.batteryLevelClients.subscribed Handler.onBatteryLevelChange
        = true) ∧
    ((isConnected advertisingTwiceThenConnected).1 = true ∧
      advertisingTwiceThenConnected.rollStateClients.subscribed Handler.onRollStateChange
        = true ∧
      advertisingTwiceThenConnected.batteryLevelClients.subscribed
        Handler.onBatteryLevelChange = true) := by
  decide

/-! ### C11 -/

/-- C11 (evaluation of the code): `hookRssi` issues a start exactly when the registry is
empty before the call, but `unHookRssi` issues a stop whenever the registry is empty
after the call, also when it removed nothing. From the empty registry, hooking one
listener and unhooking it twice issues one start and two stops; the second stop comes
while the number of subscriptions stays 0. -/
theorem rssi_stop_when_nothing_was_removed :
    (∀ (s : StackState) (method : Handler) (param : Nat),
      (hookRssi method param s).trace =
        if s.rssiClients.Count = 0 then
          s.trace ++ [Call.sd_ble_gap_rssi_start s.connectionHandle RSSI_THRESHOLD_DBM 1]
        else s.trace) ∧
    (∀ (s : StackState) (client : Handler),
      (unHookRssi client s).trace =
        if (s.rssiClients.UnregisterWithHandler client).Count = 0 then
          s.trace ++ [Call.sd_ble_gap_rssi_stop s.connectionHandle]
        else s.trace) ∧
    (hookedThenUnhooked.rssiClients.Count = 0 ∧
      rssiStarts hookedThenUnhooked.trace = 1 ∧
      rssiStops hookedThenUnhooked.trace = 1 ∧
      (unHookRssi (Handler.client 1) hookedThenUnhooked).rssiClients.Count = 0 ∧
      rssiStarts (unHookRssi (Handler.client 1) hookedThenUnhooked).trace = 1 ∧
      rssiStops (unHookRssi (Handler.client 1) hookedThenUnhooked).trace = 2) ∧
    ((initialState 8 2).rssiClients.Count = 0 ∧
      (runRssi [RssiCall.unHookRssi (Handler.client 1)] (initialState 8 2)).trace =
        [Call.sd_ble_gap_rssi_stop BLE_CONN_HANDLE_INVALID]) := by
  refine ⟨?_, ?_, by decide, by decide⟩
  · intro s method param
    by_cases h : s.rssiClients.Count = 0 <;> simp [hookRssi, StackState.log, h]
  · intro s client
    by_cases h : (s.rssiClients.UnregisterWithHandler client).Count = 0 <;>
      simp [unHookRssi, StackState.log, h]

/-! ### C12 -/

/-- C12 (evaluation of the code): `hook` returns nothing and never logs anything; with
both registries at their two entries, `Register` reports failure, yet `hook` and
`hookRssi` leave the whole state, log included, exactly as it was: the caller cannot tell
the dropped registration from a successful one. The existing entries are unchanged. -/
theorem hook_at_capacity_is_silent :
    (∀ (s : StackState) (method : Handler) (param : Nat), (hook method param s).trace = s.trace) ∧
    (fullRegistries.clients.Count = MAX_CLIENTS ∧
      fullRegistries.rssiClients.Count = MAX_CLIENTS) ∧
    (fullRegistries.clients.Register 30 (Handler.client 3)).1 = false ∧
    (fullRegistries.rssiClients.Register 130 (Handler.client 13)).1 = false ∧
    hook (Handler.client 3) 30 fullRegistries = fullRegistries ∧
    hookRssi (Handler.client 13) 130 fullRegistries = fullRegistries := by
  refine ⟨fun s method param => rfl, by decide, by decide, by decide, by decide, by decide⟩

/-! ### C13 -/

/-- C13 (evaluation of the code): `unHook` and `unHookWithParam` with no matching entry
change nothing, and so does `unHookRssi` with no matching entry while the RSSI registry
is not empty; on an empty RSSI registry `unHookRssi` leaves the registries alone but
calls `sd_ble_gap_rssi_stop`. -/
theorem unhook_rssi_on_empty_registry_stops :
    (∀ (s : StackState) (method : Handler),
      s.clients.subscribed method = false → unHook method s = s) ∧
    (∀ (s : StackState) (param : Nat),
      s.clients.items.any (fun d => decide (d.token = param)) = false →
      unHookWithParam param s = s) ∧
    (∀ (s : StackState) (client : Handler),
      s.rssiClients.subscribed client = false → s.rssiClients.Count ≠ 0 →
      unHookRssi client s = s) ∧
    (∀ (s : StackState) (client : Handler),
      s.rssiClients.Count = 0 →
      unHookRssi client s = s.log (Call.sd_ble_gap_rssi_stop s.connectionHandle)) ∧
    ((initialState 8 2).rssiClients.subscribed (Handler.client 1) = false ∧
      (unHookRssi (Handler.client 1) (initialState 8 2)).trace =
        [Call.sd_ble_gap_rssi_stop BLE_CONN_HANDLE_INVALID] ∧
      (unHookRssi (Handler.client 1) (initialState 8 2)).rssiClients =
        (initialState 8 2).rssiClients ∧
      (unHookRssi (Handler.client 1) (initialState 8 2)).clients =
        (initialState 8 2).clients) := by
  refine ⟨?_, ?_, ?_, ?_, by decide⟩
  · intro s method h
    unfold unHook
    rw [unregisterWithHandler_no_match _ _ h]
  · intro s param h
    unfold unHookWithParam
    rw [unregisterWithToken_no_match _ _ h]
  · intro s client h hne
    unfold unHookRssi
    simp only [unregisterWithHandler_no_match _ _ h, hne, if_false]
  · intro s client h
    have hs : s.rssiClients.subscribed client = false := by
      have h0 : s.rssiClients.items = [] := List.length_eq_zero.mp h
      simp [DelegateArray.subscribed, h0]
    unfold unHookRssi
    simp only [unregisterWithHandler_no_match _ _ hs, h, if_true]

/-- Witness of C13 on registries that hold two entries each, and on the empty RSSI
registry of the initial state. -/
theorem unhook_rssi_on_empty_registry_stops_witness :
    (fullRegistries.clients.subscribed (Handler.client 9) = false ∧
      unHook (Handler.client 9) fullRegistries = fullRegistries) ∧
    (fullRegistries.clients.items.any (fun d => decide (d.token = 90)) = false ∧
      unHookWithParam 90 fullRegistries = fullRegistries) ∧
    (fullRegistries.rssiClients.subscribed (Handler.client 9) = false ∧
      fullRegistries.rssiClients.Count ≠ 0 ∧
      unHookRssi (Handler.client 9) fullRegistries = fullRegistries) ∧
    ((initialState 8 2).rssiClients.Count = 0 ∧
      unHookRssi (Handler.client 1) (initialState 8 2) =
        (initialState 8 2).log
          (Call.sd_ble_gap_rssi_stop (initialState 8 2).connectionHandle)) :=
  ⟨⟨by decide, unhook_rssi_on_empty_registry_stops.1 fullRegistries (Handler.client 9)
      (by decide)⟩,
   ⟨by decide, unhook_rssi_on_empty_registry_stops.2.1 fullRegistries 90 (by decide)⟩,
   ⟨by decide, by decide,
    unhook_rssi_on_empty_registry_stops.2.2.1 fullRegistries (Handler.client 9)
      (by decide) (by decide)⟩,
   ⟨by decide,
    unhook_rssi_on_empty_registry_stops.2.2.2.1 (initialState 8 2) (Handler.client 1)
      (by decide)⟩⟩

/-! ### Auxiliary lemmas: the reset-on-disconnect flag -/

/-- No action writes the reset-on-disconnect flag. -/
theorem perform_state_resetFlag (a : Action) (s : StackState) :
    (a.perform s).state.resetOnDisconnectPending = s.resetOnDisconnectPending := by
  cases a with
  | send handle data len hvx_result =>
    cases hc : s.connected <;> cases hp : s.notificationPending <;>
      by_cases hr : hvx_result = NRF_SUCCESS <;>
      simp [Action.perform, Outcome.state, send, StackState.log, hc, hp, hr]
  | ble_evt evt sd_result =>
    cases evt <;> by_cases hr : sd_result = NRF_SUCCESS <;>
      cases hf : s.resetOnDisconnectPending <;>
      simp [Action.perform, ble_evt_handler, APP_ERROR_CHECK, Outcome.andThen, Outcome.state,
        PowerManager_reset, notifyClients, notifyRssiClients, StackState.log,
        StackState.logAll, Accelerometer_unHookRollState, BatteryController_unHookLevel,
        hr, hf]
  | adv_evt evt sd_result =>
    cases evt <;> by_cases hr : sd_result = NRF_SUCCESS <;>
      simp [Action.perform, on_adv_evt, APP_ERROR_CHECK, Outcome.andThen, Outcome.state,
        StackState.log, Accelerometer_hookRollState, BatteryController_hookLevel, hr]

/-- A run of actions leaves the reset-on-disconnect flag as it found it. -/
theorem simulate_resetFlag (acts : List Action) :
    ∀ m : Sim, (simulate acts m).state.resetOnDisconnectPending
      = m.state.resetOnDisconnectPending := by
  induction acts with
  | nil => intro m; rfl
  | cons a rest ih =>
    intro m
    unfold simulate
    have hstep := perform_state_resetFlag a m.state
    cases h : a.perform m.state with
    | returned s' =>
      simp only
      rw [ih]
      rw [h] at hstep
      exact hstep
    | fatal e s' => rfl
    | reset s' => rfl

/-! ### C14 -/

/-- C14: a connect event invokes every registered connection subscriber once, in
registration order, with its own token and `true`; a disconnect event does the same with
`false`; an RSSI sample event invokes every registered RSSI subscriber once, in order,
with its own token and the event's RSSI and channel index, and leaves the connected
flag, advertising flag, connection handle and pending flag unchanged. Subscriber
callbacks are calls out of the module and do not touch the registry. -/
theorem ordered_dispatch (sd_result conn_handle reason : Nat) (rssi : Int) (ch_index : Nat)
    (s : StackState) :
    (∃ s', ble_evt_handler sd_result (ble_evt_t.BLE_GAP_EVT_CONNECTED conn_handle) s
        = Outcome.returned s' ∧
      s'.trace = s.trace ++
        s.clients.items.map (fun d => Call.connectionHandler d.handler d.token true) ++
        [Call.Accelerometer_unHookRollState Handler.onRollStateChange,
         Call.BatteryController_unHookLevel Handler.onBatteryLevelChange,
         Call.PowerManager_feed]) ∧
    ((ble_evt_handler sd_result
        (ble_evt_t.BLE_GAP_EVT_DISCONNECTED conn_handle reason) s).state.trace
      = s.trace ++
        s.clients.items.map (fun d => Call.connectionHandler d.handler d.token false) ++
        [if s.resetOnDisconnectPending then Call.PowerManager_reset
         else Call.PowerManager_feed]) ∧
    (∃ s', ble_evt_handler sd_result
          (ble_evt_t.BLE_GAP_EVT_RSSI_CHANGED conn_handle rssi ch_index) s
        = Outcome.returned s' ∧
      s'.trace = s.trace ++
        s.rssiClients.items.map (fun d => Call.rssiHandler d.handler d.token rssi ch_index) ++
        [Call.PowerManager_feed] ∧
      s'.connected = s.connected ∧
      s'.currentlyAdvertising = s.currentlyAdvertising ∧
      s'.connectionHandle = s.connectionHandle ∧
      s'.notificationPending = s.notificationPending) := by
  refine ⟨⟨_, rfl, ?_⟩, ?_, ⟨_, rfl, ?_, rfl, rfl, rfl, rfl⟩⟩
  · simp [notifyClients, StackState.log, StackState.logAll, Accelerometer_unHookRollState,
      BatteryController_unHookLevel]
  · cases hf : s.resetOnDisconnectPending <;>
      simp [ble_evt_handler, PowerManager_reset, notifyClients, StackState.log,
        StackState.logAll, Outcome.andThen, Outcome.state, hf]
  · simp [notifyRssiClients, StackState.log, StackState.logAll]

/-! ### Auxiliary lemmas: dispatch to callbacks that unhook themselves -/

/-- A connection callback changes nothing but the registry it is in and the log: its
invocation is logged, and the registry keeps a part of its entries. -/
theorem callConnectionHandler_frame (u : Handler → Bool) (d : Delegate) (connected : Bool)
    (s : StackState) :
    ∃ items' : List Delegate,
      callConnectionHandler u d connected s =
        { s with clients := { s.clients with items := items' },
                 trace := s.trace ++ [Call.connectionHandler d.handler d.token connected] } ∧
      (∀ e ∈ items', e ∈ s.clients.items) ∧
      items'.length ≤ s.clients.items.length ∧
      (u d.handler = false → items' = s.clients.items) := by
  unfold callConnectionHandler
  by_cases h : u d.handler = true
  · refine ⟨s.clients.items.eraseP (fun e => decide (e.handler = d.handler)), ?_, ?_, ?_, ?_⟩
    · simp [h, unHook, StackState.log, DelegateArray.UnregisterWithHandler]
    · intro e he
      exact List.mem_of_mem_eraseP he
    · exact List.length_eraseP_le _
    · intro h'
      rw [h] at h'
      exact absurd h' (by decide)
  · refine ⟨s.clients.items, ?_, fun e he => he, Nat.le_refl _, fun _ => rfl⟩
    simp [h, StackState.log]

/-- The connection loop changes nothing but the connection registry and the log: the
log grows by the invocations made, each of an entry that was registered when the loop
began, and the registry keeps a part of its entries. -/
theorem notifyClientsFrom_frame (u : Handler → Bool) (connected : Bool) :
    ∀ (fuel i : Nat) (s : StackState),
      ∃ notified items' : List Delegate,
        notifyClientsFrom u connected fuel i s =
          { s with clients := { s.clients with items := items' },
                   trace := s.trace ++ notified.map
                     (fun d => Call.connectionHandler d.handler d.token connected) } ∧
        (∀ d ∈ notified, d ∈ s.clients.items) ∧
        (∀ d ∈ items', d ∈ s.clients.items) := by
  intro fuel
  induction fuel with
  | zero =>
    intro i s
    exact ⟨[], s.clients.items, by simp [notifyClientsFrom], by simp, fun d hd => hd⟩
  | succ fuel ih =>
    intro i s
    unfold notifyClientsFrom
    by_cases hi : i < s.clients.Count
    · simp only [hi, if_true]
      cases hd : s.clients.items[i]? with
      | none => exact ⟨[], s.clients.items, by simp, by simp, fun d hd => hd⟩
      | some d =>
        simp only
        obtain ⟨its1, e1, hsub1, _, _⟩ := callConnectionHandler_frame u d connected s
        obtain ⟨notified, items', e2, hn, hi'⟩ :=
          ih (i + 1) (callConnectionHandler u d connected s)
        have hits : (callConnectionHandler u d connected s).clients.items = its1 := by
          rw [e1]
        refine ⟨d :: notified, items', ?_, ?_, ?_⟩
        · rw [e2, e1]
          simp
        · intro e he
          rcases List.mem_cons.mp he with rfl | he
          · obtain ⟨hlt, hget⟩ := List.getElem?_eq_some.mp hd
            rw [← hget]
            exact List.getElem_mem hlt
          · exact hsub1 e (hits ▸ hn e he)
        · intro e he
          exact hsub1 e (hits ▸ hi' e he)
    · simp only [hi, if_false]
      exact ⟨[], s.clients.items, by simp, by simp, fun d hd => hd⟩

/-- While no registered callback unhooks itself, the connection loop from index `i` on
invokes the entries from `i` on, each once, in registration order. -/
theorem notifyClientsFrom_inert (u : Handler → Bool) (connected : Bool) :
    ∀ (fuel i : Nat) (s : StackState),
      (∀ d ∈ s.clients.items, u d.handler = false) → s.clients.Count ≤ i + fuel →
      notifyClientsFrom u connected fuel i s =
        s.logAll ((s.clients.items.drop i).map
          (fun d => Call.connectionHandler d.handler d.token connected)) := by
  intro fuel
  induction fuel with
  | zero =>
    intro i s _ hc
    have hdrop : s.clients.items.drop i = [] :=
      List.drop_eq_nil_of_le (by simpa [DelegateArray.Count] using hc)
    simp [notifyClientsFrom, hdrop, StackState.logAll]
  | succ fuel ih =>
    intro i s hu hc
    unfold notifyClientsFrom
    by_cases hi : i < s.clients.Count
    · have hi' : i < s.clients.items.length := hi
      simp only [hi, if_true]
      rw [List.getElem?_eq_getElem hi']
      simp only
      have hd : u (s.clients.items[i]).handler = false :=
        hu _ (List.getElem_mem hi')
      have hcall : callConnectionHandler u s.clients.items[i] connected s =
          s.log (Call.connectionHandler s.clients.items[i].handler s.clients.items[i].token
            connected) := by
        simp [callConnectionHandler, hd]
      have hc' : (s.log (Call.connectionHandler s.clients.items[i].handler
          s.clients.items[i].token connected)).clients.Count ≤ i + 1 + fuel := by
        simp only [StackState.log]
        omega
      rw [hcall, ih (i + 1) (s.log (Call.connectionHandler s.clients.items[i].handler
          s.clients.items[i].token connected)) hu hc']
      rw [List.drop_eq_getElem_cons hi']
      simp only [StackState.log, StackState.logAll, List.map_cons, List.append_assoc,
        List.singleton_append]
    · simp only [hi, if_false]
      have hdrop : s.clients.items.drop i = [] :=
        List.drop_eq_nil_of_le (by simpa [DelegateArray.Count] using hi)
      simp [hdrop, StackState.logAll]

/-- While no registered callback unhooks itself, the loop that reads `Count()` at every
turn invokes exactly the entries registered when it began, in order. -/
theorem notifyClientsWith_inert (u : Handler → Bool) (connected : Bool) (s : StackState)
    (hu : ∀ d ∈ s.clients.items, u d.handler = false) :
    notifyClientsWith u connected s = notifyClients connected s := by
  unfold notifyClientsWith notifyClients
  rw [notifyClientsFrom_inert u connected _ _ s hu (by omega)]
  simp

/-- No connection callback of the embedding adds a registry entry. -/
theorem callConnectionHandler_count_le (u : Handler → Bool) (d : Delegate) (connected : Bool)
    (s : StackState) :
    (callConnectionHandler u d connected s).clients.Count ≤ s.clients.Count := by
  obtain ⟨items', e, _, hlen, _⟩ := callConnectionHandler_frame u d connected s
  rw [e]
  exact hlen

/-- The connection loop is done once its index has reached the entry count: more fuel
changes nothing. -/
theorem notifyClientsFrom_fuel (u : Handler → Bool) (connected : Bool) (extra : Nat) :
    ∀ (fuel i : Nat) (s : StackState), s.clients.Count ≤ i + fuel →
      notifyClientsFrom u connected (fuel + extra) i s
        = notifyClientsFrom u connected fuel i s := by
  intro fuel
  induction fuel with
  | zero =>
    intro i s h
    have hi : ¬ i < s.clients.Count := by omega
    rw [Nat.zero_add]
    cases extra with
    | zero => rfl
    | succ e =>
      have hs : notifyClientsFrom u connected (e + 1) i s = s := by
        unfold notifyClientsFrom
        simp only [hi, if_false]
      rw [hs]
      rfl
  | succ fuel ih =>
    intro i s h
    have e : fuel + 1 + extra = (fuel + extra) + 1 := by omega
    rw [e]
    unfold notifyClientsFrom
    by_cases hi : i < s.clients.Count
    · simp only [hi, if_true]
      cases hd : s.clients.items[i]? with
      | none => rfl
      | some d =>
        simp only
        apply ih
        have := callConnectionHandler_count_le u d connected s
        omega
    · simp only [hi, if_false]

/-- An RSSI callback changes nothing but the RSSI registry and the log, and adds no
registry entry. -/
theorem callRssiHandler_frame (u : Handler → Bool) (d : Delegate) (rssi : Int) (chIndex : Nat)
    (s : StackState) :
    ∃ (items' : List Delegate) (calls : List Call),
      callRssiHandler u d rssi chIndex s =
        { s with rssiClients := { s.rssiClients with items := items' },
                 trace := s.trace ++ calls } ∧
      items'.length ≤ s.rssiClients.items.length := by
  unfold callRssiHandler
  by_cases h : u d.handler = true
  · by_cases h0 : (s.rssiClients.items.eraseP (fun e => decide (e.handler = d.handler))).length = 0
    · refine ⟨s.rssiClients.items.eraseP (fun e => decide (e.handler = d.handler)),
        [Call.rssiHandler d.handler d.token rssi chIndex,
         Call.sd_ble_gap_rssi_stop s.connectionHandle], ?_, List.length_eraseP_le _⟩
      simp [h, unHookRssi, StackState.log, DelegateArray.UnregisterWithHandler,
        DelegateArray.Count, h0]
    · refine ⟨s.rssiClients.items.eraseP (fun e => decide (e.handler = d.handler)),
        [Call.rssiHandler d.handler d.token rssi chIndex], ?_, List.length_eraseP_le _⟩
      simp [h, unHookRssi, StackState.log, DelegateArray.UnregisterWithHandler,
        DelegateArray.Count, h0]
  · refine ⟨s.rssiClients.items, [Call.rssiHandler d.handler d.token rssi chIndex], ?_,
      Nat.le_refl _⟩
    simp [h, StackState.log]

/-- The RSSI loop changes nothing but the RSSI registry and the log. -/
theorem notifyRssiClientsFrom_frame (u : Handler → Bool) (rssi : Int) (chIndex : Nat) :
    ∀ (fuel i : Nat) (s : StackState),
      ∃ (items' : List Delegate) (calls : List Call),
        notifyRssiClientsFrom u rssi chIndex fuel i s =
          { s with rssiClients := { s.rssiClients with items := items' },
                   trace := s.trace ++ calls } := by
  intro fuel
  induction fuel with
  | zero =>
    intro i s
    exact ⟨s.rssiClients.items, [], by simp [notifyRssiClientsFrom]⟩
  | succ fuel ih =>
    intro i s
    unfold notifyRssiClientsFrom
    by_cases hi : i < s.rssiClients.Count
    · simp only [hi, if_true]
      cases hd : s.rssiClients.items[i]? with
      | none => exact ⟨s.rssiClients.items, [], by simp⟩
      | some d =>
        simp only
        obtain ⟨its1, calls1, e1, _⟩ := callRssiHandler_frame u d rssi chIndex s
        obtain ⟨items', calls, e2⟩ := ih (i + 1) (callRssiHandler u d rssi chIndex s)
        refine ⟨items', calls1 ++ calls, ?_⟩
        rw [e2, e1]
        simp
    · simp only [hi, if_false]
      exact ⟨s.rssiClients.items, [], by simp⟩

/-- The RSSI loop is done once its index has reached the entry count: more fuel changes
nothing. -/
theorem notifyRssiClientsFrom_fuel (u : Handler → Bool) (rssi : Int) (chIndex : Nat)
    (extra : Nat) :
    ∀ (fuel i : Nat) (s : StackState), s.rssiClients.Count ≤ i + fuel →
      notifyRssiClientsFrom u rssi chIndex (fuel + extra) i s
        = notifyRssiClientsFrom u rssi chIndex fuel i s := by
  intro fuel
  induction fuel with
  | zero =>
    intro i s h
    have hi : ¬ i < s.rssiClients.Count := by omega
    rw [Nat.zero_add]
    cases extra with
    | zero => rfl
    | succ e =>
      have hs : notifyRssiClientsFrom u rssi chIndex (e + 1) i s = s := by
        unfold notifyRssiClientsFrom
        simp only [hi, if_false]
      rw [hs]
      rfl
  | succ fuel ih =>
    intro i s h
    have e : fuel + 1 + extra = (fuel + extra) + 1 := by omega
    rw [e]
    unfold notifyRssiClientsFrom
    by_cases hi : i < s.rssiClients.Count
    · simp only [hi, if_true]
      cases hd : s.rssiClients.items[i]? with
      | none => rfl
      | some d =>
        simp only
        apply ih
        obtain ⟨its1, calls1, e1, hlen⟩ := callRssiHandler_frame u d rssi chIndex s
        have hcount : (callRssiHandler u d rssi chIndex s).rssiClients.Count
            ≤ s.rssiClients.Count := by
          rw [e1]
          exact hlen
        omega
    · simp only [hi, if_false]

/-- While no registered callback unhooks itself, the RSSI loop from index `i` on invokes
the entries from `i` on, each once, in registration order. -/
theorem notifyRssiClientsFrom_inert (u : Handler → Bool) (rssi : Int) (chIndex : Nat) :
    ∀ (fuel i : Nat) (s : StackState),
      (∀ d ∈ s.rssiClients.items, u d.handler = false) → s.rssiClients.Count ≤ i + fuel →
      notifyRssiClientsFrom u rssi chIndex fuel i s =
        s.logAll ((s.rssiClients.items.drop i).map
          (fun d => Call.rssiHandler d.handler d.token rssi chIndex)) := by
  intro fuel
  induction fuel with
  | zero =>
    intro i s _ hc
    have hdrop : s.rssiClients.items.drop i = [] :=
      List.drop_eq_nil_of_le (by simpa [DelegateArray.Count] using hc)
    simp [notifyRssiClientsFrom, hdrop, StackState.logAll]
  | succ fuel ih =>
    intro i s hu hc
    unfold notifyRssiClientsFrom
    by_cases hi : i < s.rssiClients.Count
    · have hi' : i < s.rssiClients.items.length := hi
      simp only [hi, if_true]
      rw [List.getElem?_eq_getElem hi']
      simp only
      have hd : u (s.rssiClients.items[i]).handler = false :=
        hu _ (List.getElem_mem hi')
      have hcall : callRssiHandler u s.rssiClients.items[i] rssi chIndex s =
          s.log (Call.rssiHandler s.rssiClients.items[i].handler s.rssiClients.items[i].token
            rssi chIndex) := by
        simp [callRssiHandler, hd]
      have hc' : (s.log (Call.rssiHandler s.rssiClients.items[i].handler
          s.rssiClients.items[i].token rssi chIndex)).rssiClients.Count ≤ i + 1 + fuel := by
        simp only [StackState.log]
        omega
      rw [hcall, ih (i + 1) (s.log (Call.rssiHandler s.rssiClients.items[i].handler
          s.rssiClients.items[i].token rssi chIndex)) hu hc']
      rw [List.drop_eq_getElem_cons hi']
      simp only [StackState.log, StackState.logAll, List.map_cons, List.append_assoc,
        List.singleton_append]
    · simp only [hi, if_false]
      have hdrop : s.rssiClients.items.drop i = [] :=
        List.drop_eq_nil_of_le (by simpa [DelegateArray.Count] using hi)
      simp [hdrop, StackState.logAll]

/-- While no registered callback unhooks itself, the RSSI loop that reads `Count()` at
every turn invokes exactly the entries registered when it began, in order. -/
theorem notifyRssiClientsWith_inert (u : Handler → Bool) (rssi : Int) (chIndex : Nat)
    (s : StackState) (hu : ∀ d ∈ s.rssiClients.items, u d.handler = false) :
    notifyRssiClientsWith u rssi chIndex s = notifyRssiClients rssi chIndex s := by
  unfold notifyRssiClientsWith notifyRssiClients
  rw [notifyRssiClientsFrom_inert u rssi chIndex _ _ s hu (by omega)]
  simp

/-- While no registered callback unhooks itself, `ble_evt_handlerWith` is
`ble_evt_handler`: the loops that index the live registry visit exactly the entries
registered at the event, in order. -/
theorem ble_evt_handlerWith_inert (u : Handler → Bool) (sd_result : Nat) (evt : ble_evt_t)
    (s : StackState)
    (hc : ∀ d ∈ s.clients.items, u d.handler = false)
    (hr : ∀ d ∈ s.rssiClients.items, u d.handler = false) :
    ble_evt_handlerWith u sd_result evt s = ble_evt_handler sd_result evt s := by
  cases evt with
  | BLE_GAP_EVT_DISCONNECTED conn_handle reason =>
    have h := notifyClientsWith_inert u false
      { s with connected := false, currentlyAdvertising := true } hc
    simp only [ble_evt_handlerWith, ble_evt_handler]
    rw [h]
  | BLE_GAP_EVT_CONNECTED conn_handle =>
    have h := notifyClientsWith_inert u true
      { s with connectionHandle := conn_handle, currentlyAdvertising := false,
               connected := true } hc
    simp only [ble_evt_handlerWith, ble_evt_handler]
    rw [h]
  | BLE_GAP_EVT_RSSI_CHANGED conn_handle rssi ch_index =>
    simp only [ble_evt_handlerWith, ble_evt_handler]
    rw [notifyRssiClientsWith_inert u rssi ch_index s hr]
  | BLE_GAP_EVT_PHY_UPDATE_REQUEST conn_handle => rfl
  | BLE_GATTC_EVT_TIMEOUT conn_handle => rfl
  | BLE_GATTS_EVT_TIMEOUT conn_handle => rfl
  | BLE_GAP_EVT_SEC_PARAMS_REQUEST conn_handle => rfl
  | BLE_GATTS_EVT_SYS_ATTR_MISSING conn_handle => rfl
  | BLE_GATTS_EVT_HVN_TX_COMPLETE conn_handle count => rfl
  | BLE_GATTS_EVT_HVC conn_handle handle => rfl
  | other evt_id => rfl

/-- The whole connection loop changes nothing but the connection registry and the log:
the log grows by the invocations made, each of an entry registered when the loop
began. -/
theorem notifyClientsWith_frame (u : Handler → Bool) (connected : Bool) (s : StackState) :
    ∃ notified items' : List Delegate,
      notifyClientsWith u connected s =
        { s with clients := { s.clients with items := items' },
                 trace := s.trace ++ notified.map
                   (fun d => Call.connectionHandler d.handler d.token connected) } ∧
      (∀ d ∈ notified, d ∈ s.clients.items) ∧
      (∀ d ∈ items', d ∈ s.clients.items) :=
  notifyClientsFrom_frame u connected s.clients.Count 0 s

/-- The disconnect case, whatever the callbacks do to the registry: the connected flag is
cleared, then entries registered at the event are notified with `false`, then comes the
reset when the flag is armed and the watchdog feed when it is not. -/
theorem disconnected_with (u : Handler → Bool) (sd_result conn_handle reason : Nat)
    (s : StackState) :
    ∃ notified items' : List Delegate,
      (∀ d ∈ notified, d ∈ s.clients.items) ∧
      ble_evt_handlerWith u sd_result
          (ble_evt_t.BLE_GAP_EVT_DISCONNECTED conn_handle reason) s =
        (if s.resetOnDisconnectPending then
          Outcome.reset
            { s with connected := false, currentlyAdvertising := true,
                     clients := { s.clients with items := items' },
                     trace := s.trace ++ notified.map
                       (fun d => Call.connectionHandler d.handler d.token false) ++
                       [Call.PowerManager_reset] }
        else
          Outcome.returned
            { s with connected := false, currentlyAdvertising := true,
                     clients := { s.clients with items := items' },
                     trace := s.trace ++ notified.map
                       (fun d => Call.connectionHandler d.handler d.token false) ++
                       [Call.PowerManager_feed] }) := by
  obtain ⟨notified, items', e, hn, _⟩ := notifyClientsWith_frame u false
    { s with connected := false, currentlyAdvertising := true }
  refine ⟨notified, items', hn, ?_⟩
  simp only [ble_evt_handlerWith]
  rw [e]
  cases hf : s.resetOnDisconnectPending <;>
    simp [PowerManager_reset, Outcome.andThen, StackState.log, hf]

/-- No event writes the reset-on-disconnect flag, whatever the callbacks do to the
registries. -/
theorem ble_evt_handlerWith_resetFlag (u : Handler → Bool) (sd_result : Nat) (evt : ble_evt_t)
    (s : StackState) :
    (ble_evt_handlerWith u sd_result evt s).state.resetOnDisconnectPending
      = s.resetOnDisconnectPending := by
  cases evt with
  | BLE_GAP_EVT_DISCONNECTED conn_handle reason =>
    obtain ⟨notified, items', _, e⟩ := disconnected_with u sd_result conn_handle reason s
    rw [e]
    cases hf : s.resetOnDisconnectPending <;> simp [Outcome.state, hf]
  | BLE_GAP_EVT_CONNECTED conn_handle =>
    obtain ⟨notified, items', e, _, _⟩ := notifyClientsWith_frame u true
      { s with connectionHandle := conn_handle, currentlyAdvertising := false,
               connected := true }
    simp only [ble_evt_handlerWith]
    rw [e]
    simp [Outcome.andThen, Outcome.state, StackState.log, Accelerometer_unHookRollState,
      BatteryController_unHookLevel]
  | BLE_GAP_EVT_RSSI_CHANGED conn_handle rssi ch_index =>
    obtain ⟨items', calls, e⟩ :=
      notifyRssiClientsFrom_frame u rssi ch_index s.rssiClients.Count 0 s
    simp only [ble_evt_handlerWith, notifyRssiClientsWith]
    rw [e]
    simp [Outcome.andThen, Outcome.state, StackState.log]
  | BLE_GAP_EVT_PHY_UPDATE_REQUEST conn_handle =>
    by_cases hr : sd_result = NRF_SUCCESS <;>
      simp [ble_evt_handlerWith, APP_ERROR_CHECK, Outcome.andThen, Outcome.state,
        StackState.log, hr]
  | BLE_GATTC_EVT_TIMEOUT conn_handle =>
    by_cases hr : sd_result = NRF_SUCCESS <;>
      simp [ble_evt_handlerWith, APP_ERROR_CHECK, Outcome.andThen, Outcome.state,
        StackState.log, hr]
  | BLE_GATTS_EVT_TIMEOUT conn_handle =>
    by_cases hr : sd_result = NRF_SUCCESS <;>
      simp [ble_evt_handlerWith, APP_ERROR_CHECK, Outcome.andThen, Outcome.state,
        StackState.log, hr]
  | BLE_GAP_EVT_SEC_PARAMS_REQUEST conn_handle =>
    by_cases hr : sd_result = NRF_SUCCESS <;>
      simp [ble_evt_handlerWith, APP_ERROR_CHECK, Outcome.andThen, Outcome.state,
        StackState.log, hr]
  | BLE_GATTS_EVT_SYS_ATTR_MISSING conn_handle =>
    by_cases hr : sd_result = NRF_SUCCESS <;>
      simp [ble_evt_handlerWith, APP_ERROR_CHECK, Outcome.andThen, Outcome.state,
        StackState.log, hr]
  | BLE_GATTS_EVT_HVN_TX_COMPLETE conn_handle count =>
    simp [ble_evt_handlerWith, Outcome.andThen, Outcome.state, StackState.log]
  | BLE_GATTS_EVT_HVC conn_handle handle =>
    simp [ble_evt_handlerWith, Outcome.andThen, Outcome.state, StackState.log]
  | other evt_id =>
    simp [ble_evt_handlerWith, Outcome.andThen, Outcome.state, StackState.log]

/-- The functions that re-encode the payload do not write the reset-on-disconnect
flag. -/
theorem encode_resetFlag (SDK_VER r1 r2 : Nat) (s : StackState) :
    (if 16 ≤ SDK_VER then
        APP_ERROR_CHECK r1 (s.log Call.ble_advertising_advdata_update)
      else
        (APP_ERROR_CHECK r1 (s.log (Call.ble_advdata_encode false))).andThen (fun s =>
          APP_ERROR_CHECK r2 (s.log (Call.ble_advdata_encode true)))).state.resetOnDisconnectPending
      = s.resetOnDisconnectPending := by
  by_cases hv : 16 ≤ SDK_VER <;> by_cases h1 : r1 = NRF_SUCCESS <;>
    by_cases h2 : r2 = NRF_SUCCESS <;>
    simp [APP_ERROR_CHECK, Outcome.andThen, Outcome.state, StackState.log, hv, h1, h2]

/-- The only call into the module that writes the reset-on-disconnect flag is
`resetOnDisconnect()`, which sets it. -/
theorem apiCall_resetFlag (u : Handler → Bool) (c : ApiCall) (s : StackState) :
    (c.perform u s).state.resetOnDisconnectPending
      = (s.resetOnDisconnectPending || decide (c = ApiCall.resetOnDisconnect)) := by
  cases c with
  | ble_evt evt sd_result =>
    simp [ApiCall.perform, ble_evt_handlerWith_resetFlag]
  | adv_evt evt sd_result =>
    cases evt <;> by_cases hr : sd_result = NRF_SUCCESS <;>
      simp [ApiCall.perform, on_adv_evt, APP_ERROR_CHECK, Outcome.andThen, Outcome.state,
        StackState.log, Accelerometer_hookRollState, BatteryController_hookLevel, hr]
  | onRollStateChange SDK_VER newState newFace r1 r2 =>
    simp only [ApiCall.perform, onRollStateChange, updateCustomAdvertisingDataState]
    rw [encode_resetFlag]
    simp
  | onBatteryLevelChange SDK_VER quantized r1 r2 =>
    simp only [ApiCall.perform, onBatteryLevelChange, updateCustomAdvertisingDataBattery]
    rw [encode_resetFlag]
    simp
  | disconnect links =>
    simp [ApiCall.perform, disconnect, Outcome.state, StackState.logAll]
  | isAdvertising =>
    simp [ApiCall.perform, isAdvertising, Outcome.state]
  | startAdvertising SDK_VER currentFace currentRollState r1 r2 r3 =>
    by_cases hv : 16 ≤ SDK_VER <;> by_cases h1 : r1 = NRF_SUCCESS <;>
      by_cases h2 : r2 = NRF_SUCCESS <;> by_cases h3 : r3 = NRF_SUCCESS <;>
      simp [ApiCall.perform, startAdvertising, APP_ERROR_CHECK, Outcome.andThen,
        Outcome.state, StackState.log, hv, h1, h2, h3]
  | disableAdvertisingOnDisconnect =>
    simp [ApiCall.perform, disableAdvertisingOnDisconnect, ble_advertising_modes_config_set,
      Outcome.state, StackState.log]
  | enableAdvertisingOnDisconnect =>
    simp [ApiCall.perform, enableAdvertisingOnDisconnect, ble_advertising_modes_config_set,
      Outcome.state, StackState.log]
  | resetOnDisconnect =>
    simp [ApiCall.perform, resetOnDisconnect, Outcome.state]
  | requestRssi =>
    simp [ApiCall.perform, requestRssi, Outcome.state]
  | canSend =>
    simp [ApiCall.perform, canSend, Outcome.state]
  | send handle data len hvx_result =>
    cases hc : s.connected <;> cases hp : s.notificationPending <;>
      by_cases hr : hvx_result = NRF_SUCCESS <;>
      simp [ApiCall.perform, Outcome.state, send, StackState.log, hc, hp, hr]
  | slowAdvertising err_code =>
    by_cases hr : err_code = NRF_SUCCESS <;>
      simp [ApiCall.perform, slowAdvertising, APP_ERROR_CHECK, Outcome.state,
        StackState.log, hr]
  | stopAdvertising err_code =>
    by_cases hr : err_code = NRF_SUCCESS <;>
      simp [ApiCall.perform, stopAdvertising, APP_ERROR_CHECK, Outcome.state,
        StackState.log, hr]
  | isConnected =>
    simp [ApiCall.perform, isConnected, Outcome.state]
  | hook method param =>
    simp [ApiCall.perform, hook, Outcome.state]
  | unHook method =>
    simp [ApiCall.perform, unHook, Outcome.state]
  | unHookWithParam param =>
    simp [ApiCall.perform, unHookWithParam, Outcome.state]
  | hookRssi method param =>
    by_cases h0 : s.rssiClients.Count = 0 <;>
      simp [ApiCall.perform, hookRssi, Outcome.state, StackState.log, h0]
  | unHookRssi client =>
    by_cases h0 : (s.rssiClients.UnregisterWithHandler client).Count = 0 <;>
      simp [ApiCall.perform, unHookRssi, Outcome.state, StackState.log, h0]

/-- After a run of calls that all return, the reset-on-disconnect flag is set exactly
when it was set before or `resetOnDisconnect()` is among the calls. -/
theorem runCalls_resetFlag (u : Handler → Bool) :
    ∀ (calls : List ApiCall) (s s1 : StackState),
      runCalls u calls s = Outcome.returned s1 →
      s1.resetOnDisconnectPending
        = (s.resetOnDisconnectPending || decide (ApiCall.resetOnDisconnect ∈ calls)) := by
  intro calls
  induction calls with
  | nil =>
    intro s s1 h
    simp only [runCalls, Outcome.returned.injEq] at h
    simp [h]
  | cons c rest ih =>
    intro s s1 h
    have hstep := apiCall_resetFlag u c s
    simp only [runCalls] at h
    cases hp : c.perform u s with
    | returned s2 =>
      rw [hp] at h hstep
      simp only [Outcome.andThen] at h
      simp only [Outcome.state] at hstep
      rw [ih s2 s1 h, hstep]
      by_cases hc : c = ApiCall.resetOnDisconnect
      · simp [hc]
      · have hc' : ¬ ApiCall.resetOnDisconnect = c := fun e => hc e.symm
        simp [hc, hc']
    | fatal e s2 =>
      rw [hp] at h
      simp [Outcome.andThen] at h
    | reset s2 =>
      rw [hp] at h
      simp [Outcome.andThen] at h

/-- The disconnect case while no registered listener unhooks itself: the connected flag
is cleared, every registered listener is notified with `false`, in registration order,
then comes the reset when the flag is armed and the watchdog feed when it is not. -/
theorem disconnected_inert (u : Handler → Bool) (sd_result conn_handle reason : Nat)
    (s : StackState) (hu : ∀ d ∈ s.clients.items, u d.handler = false) :
    ble_evt_handlerWith u sd_result
        (ble_evt_t.BLE_GAP_EVT_DISCONNECTED conn_handle reason) s =
      (if s.resetOnDisconnectPending then
        Outcome.reset
          { s with connected := false, currentlyAdvertising := true,
                   trace := s.trace ++ s.clients.items.map
                     (fun d => Call.connectionHandler d.handler d.token false) ++
                     [Call.PowerManager_reset] }
      else
        Outcome.returned
          { s with connected := false, currentlyAdvertising := true,
                   trace := s.trace ++ s.clients.items.map
                     (fun d => Call.connectionHandler d.handler d.token false) ++
                     [Call.PowerManager_feed] }) := by
  have hn := notifyClientsWith_inert u false
    { s with connected := false, currentlyAdvertising := true } hu
  simp only [ble_evt_handlerWith]
  rw [hn]
  cases hf : s.resetOnDisconnectPending <;>
    simp [PowerManager_reset, notifyClients, StackState.log, StackState.logAll,
      Outcome.andThen, hf]

/-! ### C16 -/

/-- C16 (amended): `resetOnDisconnect()` arms the flag, and once it is among the calls
made the flag is armed after whatever calls and events returned since; with the flag
armed a disconnect event clears the connected flag, runs the notification loop and then
calls `PowerManager::reset()` exactly once, as the last call, and provided no registered
listener changes the registry during the dispatch every connection listener has been
notified with `false` before it. If `resetOnDisconnect()` is not among the calls made
since the initial state the flag is clear, and with the flag clear a disconnect event
returns without any reset. The last two parts put these together: after any calls that
returned, `resetOnDisconnect()` among them, the disconnect event resets once, after the
connected flag was cleared and, under the same proviso, after every listener was notified;
after any calls from the initial state without it, the disconnect event returns and
resets nothing. -/
theorem reset_on_disconnect_arming :
    (∀ s : StackState, (resetOnDisconnect s).resetOnDisconnectPending = true) ∧
    (∀ (u : Handler → Bool) (calls : List ApiCall) (s s1 : StackState),
      ApiCall.resetOnDisconnect ∈ calls →
      runCalls u calls s = Outcome.returned s1 →
      s1.resetOnDisconnectPending = true) ∧
    (∀ (u : Handler → Bool) (rollStateMax batteryLevelMax : Nat) (calls : List ApiCall)
        (s1 : StackState),
      ApiCall.resetOnDisconnect ∉ calls →
      runCalls u calls (initialState rollStateMax batteryLevelMax) = Outcome.returned s1 →
      s1.resetOnDisconnectPending = false) ∧
    (∀ (u : Handler → Bool) (sd_result conn_handle reason : Nat) (s : StackState),
      s.resetOnDisconnectPending = true →
      ∃ (s' : StackState) (notified : List Delegate),
        ble_evt_handlerWith u sd_result
            (ble_evt_t.BLE_GAP_EVT_DISCONNECTED conn_handle reason) s = Outcome.reset s' ∧
        s'.connected = false ∧
        (∀ d ∈ notified, d ∈ s.clients.items) ∧
        s'.trace = s.trace ++
          notified.map (fun d => Call.connectionHandler d.handler d.token false) ++
          [Call.PowerManager_reset] ∧
        resets s'.trace = resets s.trace + 1) ∧
    (∀ (u : Handler → Bool) (sd_result conn_handle reason : Nat) (s : StackState),
      s.resetOnDisconnectPending = true →
      (∀ d ∈ s.clients.items, u d.handler = false) →
      ∃ s', ble_evt_handlerWith u sd_result
            (ble_evt_t.BLE_GAP_EVT_DISCONNECTED conn_handle reason) s = Outcome.reset s' ∧
        s'.connected = false ∧
        s'.trace = s.trace ++
          s.clients.items.map (fun d => Call.connectionHandler d.handler d.token false) ++
          [Call.PowerManager_reset] ∧
        resets s'.trace = resets s.trace + 1) ∧
    (∀ (u : Handler → Bool) (sd_result conn_handle reason : Nat) (s : StackState),
      s.resetOnDisconnectPending = false →
      ∃ (s' : StackState) (notified : List Delegate),
        ble_evt_handlerWith u sd_result
            (ble_evt_t.BLE_GAP_EVT_DISCONNECTED conn_handle reason) s = Outcome.returned s' ∧
        s'.connected = false ∧
        (∀ d ∈ notified, d ∈ s.clients.items) ∧
        s'.trace = s.trace ++
          notified.map (fun d => Call.connectionHandler d.handler d.token false) ++
          [Call.PowerManager_feed] ∧
        resets s'.trace = resets s.trace) ∧
    (∀ (u : Handler → Bool) (sd_result conn_handle reason : Nat) (s : StackState),
      s.resetOnDisconnectPending = false →
      (∀ d ∈ s.clients.items, u d.handler = false) →
      ∃ s', ble_evt_handlerWith u sd_result
            (ble_evt_t.BLE_GAP_EVT_DISCONNECTED conn_handle reason) s = Outcome.returned s' ∧
        s'.trace = s.trace ++
          s.clients.items.map (fun d => Call.connectionHandler d.handler d.token false) ++
          [Call.PowerManager_feed] ∧
        resets s'.trace = resets s.trace) ∧
    (∀ (u : Handler → Bool) (calls : List ApiCall) (s s1 : StackState)
        (sd_result conn_handle reason : Nat),
      ApiCall.resetOnDisconnect ∈ calls →
      runCalls u calls s = Outcome.returned s1 →
      (∀ d ∈ s1.clients.items, u d.handler = false) →
      ∃ s', ble_evt_handlerWith u sd_result
            (ble_evt_t.BLE_GAP_EVT_DISCONNECTED conn_handle reason) s1 = Outcome.reset s' ∧
        s'.connected = false ∧
        s'.trace = s1.trace ++
          s1.clients.items.map (fun d => Call.connectionHandler d.handler d.token false) ++
          [Call.PowerManager_reset] ∧
        resets s'.trace = resets s1.trace + 1) ∧
    (∀ (u : Handler → Bool) (rollStateMax batteryLevelMax : Nat) (calls : List ApiCall)
        (s1 : StackState) (sd_result conn_handle reason : Nat),
      ApiCall.resetOnDisconnect ∉ calls →
      runCalls u calls (initialState rollStateMax batteryLevelMax) = Outcome.returned s1 →
      ∃ s', ble_evt_handlerWith u sd_result
            (ble_evt_t.BLE_GAP_EVT_DISCONNECTED conn_handle reason) s1
          = Outcome.returned s' ∧
        resets s'.trace = resets s1.trace) := by
  refine ⟨fun s => rfl, ?_, ?_, ?_, ?_, ?_, ?_, ?_, ?_⟩
  · intro u calls s s1 hmem hrun
    rw [runCalls_resetFlag u calls s s1 hrun]
    simp [hmem]
  · intro u rollStateMax batteryLevelMax calls s1 hmem hrun
    rw [runCalls_resetFlag u calls _ s1 hrun]
    simp [hmem, initialState]
  · intro u sd_result conn_handle reason s hf
    obtain ⟨notified, items', hn, e⟩ := disconnected_with u sd_result conn_handle reason s
    rw [hf] at e
    refine ⟨_, notified, e, rfl, hn, rfl, ?_⟩
    simp [resets, List.countP_append]
  · intro u sd_result conn_handle reason s hf hu
    have e := disconnected_inert u sd_result conn_handle reason s hu
    rw [hf] at e
    refine ⟨_, e, rfl, rfl, ?_⟩
    simp [resets, List.countP_append]
  · intro u sd_result conn_handle reason s hf
    obtain ⟨notified, items', hn, e⟩ := disconnected_with u sd_result conn_handle reason s
    rw [hf] at e
    refine ⟨_, notified, e, rfl, hn, rfl, ?_⟩
    simp [resets, List.countP_append]
  · intro u sd_result conn_handle reason s hf hu
    have e := disconnected_inert u sd_result conn_handle reason s hu
    rw [hf] at e
    refine ⟨_, e, rfl, ?_⟩
    simp [resets, List.countP_append]
  · intro u calls s s1 sd_result conn_handle reason hmem hrun hu
    have hf : s1.resetOnDisconnectPending = true := by
      rw [runCalls_resetFlag u calls s s1 hrun]
      simp [hmem]
    have e := disconnected_inert u sd_result conn_handle reason s1 hu
    rw [hf] at e
    refine ⟨_, e, rfl, rfl, ?_⟩
    simp [resets, List.countP_append]
  · intro u rollStateMax batteryLevelMax calls s1 sd_result conn_handle reason hmem hrun
    have hf : s1.resetOnDisconnectPending = false := by
      rw [runCalls_resetFlag u calls _ s1 hrun]
      simp [hmem, initialState]
    obtain ⟨notified, items', hn, e⟩ := disconnected_with u sd_result conn_handle reason s1
    rw [hf] at e
    refine ⟨_, e, ?_⟩
    simp [resets, List.countP_append]

/-- Witness of C16 (amended): `resetOnDisconnect()` is called on a link with two
listeners, a send and a roll-state change follow, and the disconnect event resets after
both listeners were notified when they leave the registry alone, and after the loop has
ended when the first one unhooks itself; the same calls without `resetOnDisconnect()`
leave the flag clear and the disconnect event returns. -/
theorem reset_on_disconnect_arming_witness :
    (ApiCall.resetOnDisconnect ∈ armThenCarryOn ∧
      runCalls noneUnhooksItself armThenCarryOn (initialState 8 2)
        = Outcome.returned (runCalls noneUnhooksItself armThenCarryOn (initialState 8 2)).state ∧
      (∀ d ∈ (runCalls noneUnhooksItself armThenCarryOn (initialState 8 2)).state.clients.items,
        noneUnhooksItself d.handler = false) ∧
      ∃ s', ble_evt_handlerWith noneUnhooksItself 0 (ble_evt_t.BLE_GAP_EVT_DISCONNECTED 7 0x13)
            (runCalls noneUnhooksItself armThenCarryOn (initialState 8 2)).state
          = Outcome.reset s' ∧
        s'.connected = false ∧
        s'.trace = (runCalls noneUnhooksItself armThenCarryOn (initialState 8 2)).state.trace ++
          (runCalls noneUnhooksItself armThenCarryOn (initialState 8 2)).state.clients.items.map
            (fun d => Call.connectionHandler d.handler d.token false) ++
          [Call.PowerManager_reset] ∧
        resets s'.trace
          = resets (runCalls noneUnhooksItself armThenCarryOn (initialState 8 2)).state.trace
            + 1) ∧
    (ApiCall.resetOnDisconnect ∉ carryOnUnarmed ∧
      runCalls firstUnhooksItself carryOnUnarmed (initialState 8 2)
        = Outcome.returned (runCalls firstUnhooksItself carryOnUnarmed (initialState 8 2)).state ∧
      ∃ s', ble_evt_handlerWith firstUnhooksItself 0 (ble_evt_t.BLE_GAP_EVT_DISCONNECTED 7 0x13)
            (runCalls firstUnhooksItself carryOnUnarmed (initialState 8 2)).state
          = Outcome.returned s' ∧
        resets s'.trace
          = resets (runCalls firstUnhooksItself carryOnUnarmed (initialState 8 2)).state.trace) ∧
    (armedWithTwoListeners.resetOnDisconnectPending = true ∧
      ∃ (s' : StackState) (notified : List Delegate),
        ble_evt_handlerWith firstUnhooksItself 0 (ble_evt_t.BLE_GAP_EVT_DISCONNECTED 7 0x13)
            armedWithTwoListeners = Outcome.reset s' ∧
        s'.connected = false ∧
        (∀ d ∈ notified, d ∈ armedWithTwoListeners.clients.items) ∧
        s'.trace = armedWithTwoListeners.trace ++
          notified.map (fun d => Call.connectionHandler d.handler d.token false) ++
          [Call.PowerManager_reset] ∧
        resets s'.trace = resets armedWithTwoListeners.trace + 1) ∧
    (fullRegistries.resetOnDisconnectPending = false ∧
      (∀ d ∈ fullRegistries.clients.items, noneUnhooksItself d.handler = false) ∧
      ∃ s', ble_evt_handlerWith noneUnhooksItself 0 (ble_evt_t.BLE_GAP_EVT_DISCONNECTED 7 0x13)
            fullRegistries = Outcome.returned s' ∧
        s'.trace = fullRegistries.trace ++
          fullRegistries.clients.items.map
            (fun d => Call.connectionHandler d.handler d.token false) ++
          [Call.PowerManager_feed] ∧
        resets s'.trace = resets fullRegistries.trace) :=
  ⟨⟨by decide, by decide, fun _ _ => rfl,
    reset_on_disconnect_arming.2.2.2.2.2.2.2.1 noneUnhooksItself armThenCarryOn
      (initialState 8 2) _ 0 7 0x13 (by decide) (by decide) (fun _ _ => rfl)⟩,
   ⟨by decide, by decide,
    reset_on_disconnect_arming.2.2.2.2.2.2.2.2 firstUnhooksItself 8 2 carryOnUnarmed _
      0 7 0x13 (by decide) (by decide)⟩,
   ⟨by decide,
    reset_on_disconnect_arming.2.2.2.1 firstUnhooksItself 0 7 0x13 armedWithTwoListeners
      (by decide)⟩,
   ⟨by decide, fun _ _ => rfl,
    reset_on_disconnect_arming.2.2.2.2.2.2.1 noneUnhooksItself 0 7 0x13 fullRegistries
      (by decide) (fun _ _ => rfl)⟩⟩

/-- C16 as stated fails: `client 1` and `client 2` are hooked, `resetOnDisconnect()` has
been called, and `client 1` unhooks itself when it is notified. The disconnect event
notifies `client 1`, the loop ends with `client 2` moved to index 0 and the index at 1,
and the reset follows: `client 2` was registered at the event and is never notified. -/
theorem reset_before_second_listener_notified :
    armedWithTwoListeners.resetOnDisconnectPending = true ∧
    armedWithTwoListeners.clients.items =
      [{ token := 10, handler := Handler.client 1 },
       { token := 20, handler := Handler.client 2 }] ∧
    (ble_evt_handlerWith firstUnhooksItself 0 (ble_evt_t.BLE_GAP_EVT_DISCONNECTED 7 0x13)
        armedWithTwoListeners
      = Outcome.reset
          (ble_evt_handlerWith firstUnhooksItself 0 (ble_evt_t.BLE_GAP_EVT_DISCONNECTED 7 0x13)
            armedWithTwoListeners).state) ∧
    (ble_evt_handlerWith firstUnhooksItself 0 (ble_evt_t.BLE_GAP_EVT_DISCONNECTED 7 0x13)
        armedWithTwoListeners).state.trace
      = armedWithTwoListeners.trace ++
        [Call.connectionHandler (Handler.client 1) 10 false, Call.PowerManager_reset] ∧
    Call.connectionHandler (Handler.client 2) 20 false ∉
      (ble_evt_handlerWith firstUnhooksItself 0 (ble_evt_t.BLE_GAP_EVT_DISCONNECTED 7 0x13)
        armedWithTwoListeners).state.trace := by
  decide

/-! ### C17 -/

/-- C17 (evaluation of the code): the disconnect case clears the connected flag but never
writes `connectionHandle`; after a connect event with handle 7 and a disconnect event the
stored handle is still 7, not `BLE_CONN_HANDLE_INVALID`. -/
theorem disconnect_keeps_connection_handle :
    (∀ (sd_result conn_handle reason : Nat) (s : StackState),
      (ble_evt_handler sd_result
        (ble_evt_t.BLE_GAP_EVT_DISCONNECTED conn_handle reason) s).state.connectionHandle
          = s.connectionHandle ∧
      (ble_evt_handler sd_result
        (ble_evt_t.BLE_GAP_EVT_DISCONNECTED conn_handle reason) s).state.connected = false) ∧
    (initialState 8 2).connectionHandle = BLE_CONN_HANDLE_INVALID ∧
    linkUp.connectionHandle = 7 ∧
    (isConnected linkDropped).1 = false ∧
    linkDropped.connectionHandle = 7 ∧
    linkDropped.connectionHandle ≠ BLE_CONN_HANDLE_INVALID := by
  refine ⟨?_, by decide, by decide, by decide, by decide, by decide⟩
  intro sd_result conn_handle reason s
  cases hf : s.resetOnDisconnectPending <;>
    simp [ble_evt_handler, PowerManager_reset, notifyClients, StackState.log,
      StackState.logAll, Outcome.andThen, Outcome.state, hf]

/-! ### C18 -/

/-- C18 (evaluation of the code): `startAdvertising()` stores the live face (as a
`uint8_t`) and the live roll state, and never writes the advertised battery level, which
keeps the value it had before the call whatever the battery provider would report. -/
theorem start_advertising_keeps_battery_level :
    (∀ (SDK_VER : Nat) (currentFace : Int) (currentRollState r1 r2 r3 : Nat) (s : StackState),
      (startAdvertising SDK_VER currentFace currentRollState r1 r2 r3
          s).state.customManufacturerData =
        { s.customManufacturerData with
          currentFace := (currentFace % 256).toNat, rollState := currentRollState }) ∧
    (∀ (SDK_VER : Nat) (currentFace : Int) (currentRollState r1 r2 r3 : Nat) (s : StackState),
      (startAdvertising SDK_VER currentFace currentRollState r1 r2 r3
          s).state.customManufacturerData.batteryLevel =
        s.customManufacturerData.batteryLevel) ∧
    (startAdvertising 17 5 3 0 0 0 staleBattery).state.customManufacturerData =
      { ledCount := 21, designAndColor := 3, rollState := 3, currentFace := 5,
        batteryLevel := 40 } := by
  have key : ∀ (SDK_VER : Nat) (currentFace : Int) (currentRollState r1 r2 r3 : Nat)
      (s : StackState),
      (startAdvertising SDK_VER currentFace currentRollState r1 r2 r3
          s).state.customManufacturerData =
        { s.customManufacturerData with
          currentFace := (currentFace % 256).toNat, rollState := currentRollState } := by
    intro SDK_VER currentFace currentRollState r1 r2 r3 s
    by_cases hv : 16 ≤ SDK_VER <;> by_cases h1 : r1 = NRF_SUCCESS <;>
      by_cases h2 : r2 = NRF_SUCCESS <;> by_cases h3 : r3 = NRF_SUCCESS <;>
      simp [startAdvertising, APP_ERROR_CHECK, Outcome.andThen, Outcome.state,
        StackState.log, hv, h1, h2, h3]
  refine ⟨key, ?_, by decide⟩
  intro SDK_VER currentFace currentRollState r1 r2 r3 s
  rw [key]

/-! ### C19 -/

/-- C19 (amended): `ble_evt_handler` returns for every event whose case makes no checked
radio-stack call (a disconnect event with the reset armed apart, which resets the device)
and for the others when the call returns `NRF_SUCCESS`, and then the error handler has not
been called; when the call made for a PHY update request, a GATT client or server
timeout, a security-parameters request or a system-attributes-missing event returns any
other code, the handler passes that code to the application error handler right after the
call and does not return. -/
theorem handler_returns_unless_checked_call_fails :
    (∀ (evt : ble_evt_t) (sd_result : Nat) (s : StackState),
      (evt.checkedCall s = none ∨ sd_result = NRF_SUCCESS) →
      (evt.isDisconnected = true → s.resetOnDisconnectPending = false) →
      ∃ s', ble_evt_handler sd_result evt s = Outcome.returned s' ∧
        ∀ e, Call.app_error_handler e ∈ s'.trace → Call.app_error_handler e ∈ s.trace) ∧
    (∀ (evt : ble_evt_t) (s : StackState) (c : Call),
      evt.checkedCall s = some c →
      ble_evt_handler NRF_SUCCESS evt s
        = Outcome.returned ((s.log c).log Call.PowerManager_feed)) ∧
    (∀ (evt : ble_evt_t) (sd_result : Nat) (s : StackState) (c : Call),
      evt.checkedCall s = some c → sd_result ≠ NRF_SUCCESS →
      ble_evt_handler sd_result evt s
        = Outcome.fatal sd_result ((s.log c).log (Call.app_error_handler sd_result))) := by
  refine ⟨?_, ?_, ?_⟩
  · intro evt sd_result s hcall hdisc
    cases evt <;>
      simp [ble_evt_t.checkedCall, ble_evt_t.isDisconnected] at hcall hdisc <;>
      simp [ble_evt_handler, APP_ERROR_CHECK, Outcome.andThen, PowerManager_reset,
        notifyClients, notifyRssiClients, StackState.log, StackState.logAll,
        Accelerometer_unHookRollState, BatteryController_unHookLevel, hcall, hdisc]
  · intro evt s c hcall
    cases evt <;> simp [ble_evt_t.checkedCall] at hcall <;> subst hcall <;>
      simp [ble_evt_handler, APP_ERROR_CHECK, Outcome.andThen, StackState.log]
  · intro evt sd_result s c hcall hfail
    cases evt <;> simp [ble_evt_t.checkedCall] at hcall <;> subst hcall <;>
      simp [ble_evt_handler, APP_ERROR_CHECK, Outcome.andThen, StackState.log, hfail]

/-- Witness of C19 (amended): a PHY update request on a connected link, accepted and
rejected by the radio stack, and a connect event handled whatever the code. -/
theorem handler_returns_unless_checked_call_fails_witness :
    (∃ s', ble_evt_handler 17 (ble_evt_t.BLE_GAP_EVT_CONNECTED 7) (initialState 8 2)
        = Outcome.returned s' ∧
      ∀ e, Call.app_error_handler e ∈ s'.trace →
        Call.app_error_handler e ∈ (initialState 8 2).trace) ∧
    ble_evt_handler NRF_SUCCESS (ble_evt_t.BLE_GAP_EVT_PHY_UPDATE_REQUEST 7) linkUp
      = Outcome.returned
        ((linkUp.log (Call.sd_ble_gap_phy_update 7 BLE_GAP_PHY_AUTO BLE_GAP_PHY_AUTO)).log
          Call.PowerManager_feed) ∧
    ble_evt_handler 17 (ble_evt_t.BLE_GAP_EVT_PHY_UPDATE_REQUEST 7) linkUp
      = Outcome.fatal 17
        ((linkUp.log (Call.sd_ble_gap_phy_update 7 BLE_GAP_PHY_AUTO BLE_GAP_PHY_AUTO)).log
          (Call.app_error_handler 17)) :=
  ⟨handler_returns_unless_checked_call_fails.1 (ble_evt_t.BLE_GAP_EVT_CONNECTED 7) 17
      (initialState 8 2) (Or.inl rfl) (fun h => by simp [ble_evt_t.isDisconnected] at h),
   handler_returns_unless_checked_call_fails.2.1 (ble_evt_t.BLE_GAP_EVT_PHY_UPDATE_REQUEST 7)
      linkUp _ rfl,
   handler_returns_unless_checked_call_fails.2.2 (ble_evt_t.BLE_GAP_EVT_PHY_UPDATE_REQUEST 7)
      17 linkUp _ rfl (by decide)⟩

/-- C19 as stated fails: when `sd_ble_gap_phy_update` returns 17 (busy) for a PHY update
request on a connected link, the handler calls the application error handler with that
code and does not return. -/
theorem phy_update_failure_is_fatal :
    ble_evt_handler 17 (ble_evt_t.BLE_GAP_EVT_PHY_UPDATE_REQUEST 7) linkUp
      = Outcome.fatal 17
        ((linkUp.log (Call.sd_ble_gap_phy_update 7 BLE_GAP_PHY_AUTO BLE_GAP_PHY_AUTO)).log
          (Call.app_error_handler 17)) ∧
    Call.app_error_handler 17 ∈ (ble_evt_handler 17
      (ble_evt_t.BLE_GAP_EVT_PHY_UPDATE_REQUEST 7) linkUp).state.trace ∧
    Call.PowerManager_feed ∉ ((ble_evt_handler 17
      (ble_evt_t.BLE_GAP_EVT_PHY_UPDATE_REQUEST 7) linkUp).state.trace.drop
        linkUp.trace.length) := by
  decide

/-! ### C20 -/

/-- C20 (evaluation of the code): the disconnect case never writes the pending flag.
After connect, an accepted send and a disconnect, `send` returns NotConnected and the
pending flag is still true afterwards (`canSend()` false); after a new peer connects,
`send` returns Busy although nothing was sent on the new link. -/
theorem pending_flag_survives_disconnect :
    (∀ (sd_result conn_handle reason : Nat) (s : StackState),
      (ble_evt_handler sd_result
        (ble_evt_t.BLE_GAP_EVT_DISCONNECTED conn_handle reason) s).state.notificationPending
          = s.notificationPending) ∧
    (send 0 14 [3] 1 droppedLinkPending).1 = SendResult.SendResult_NotConnected ∧
    (send 0 14 [3] 1 droppedLinkPending).2.notificationPending = true ∧
    (canSend (send 0 14 [3] 1 droppedLinkPending).2).1 = false ∧
    (isConnected reconnectedAfterDrop).1 = true ∧
    (send 0 14 [3] 1 reconnectedAfterDrop).1 = SendResult.SendResult_Busy := by
  refine ⟨?_, by decide, by decide, by decide, by decide, by decide⟩
  intro sd_result conn_handle reason s
  exact ble_evt_handler_pending sd_result _ s rfl

/-! ### C21 -/

/-- C21: for every state, roll state and face, `updateCustomAdvertisingDataState` sets
`rollState` to the given state and `currentFace` to the face reduced modulo 256 (the face
itself when it lies in 0..255) and leaves `ledCount`, `designAndColor`, `batteryLevel`,
`deviceId` and `buildTimestamp` unchanged; `updateCustomAdvertisingDataBattery` changes
`batteryLevel` only. This holds whatever the payload re-encoding returns. -/
theorem roll_change_touches_roll_fields (SDK_VER newState : Nat) (newFace : Int)
    (quantized r1 r2 : Nat) (s : StackState) :
    ((updateCustomAdvertisingDataState SDK_VER newState newFace r1 r2
        s).state.customManufacturerData =
      { ledCount := s.customManufacturerData.ledCount
        designAndColor := s.customManufacturerData.designAndColor
        rollState := newState
        currentFace := (newFace % 256).toNat
        batteryLevel := s.customManufacturerData.batteryLevel }) ∧
    ((updateCustomAdvertisingDataState SDK_VER newState newFace r1 r2
        s).state.customServiceData = s.customServiceData) ∧
    (0 ≤ newFace → newFace ≤ 255 →
      ((updateCustomAdvertisingDataState SDK_VER newState newFace r1 r2
        s).state.customManufacturerData.currentFace : Int) = newFace) ∧
    ((updateCustomAdvertisingDataBattery SDK_VER quantized r1 r2
        s).state.customManufacturerData =
      { s.customManufacturerData with batteryLevel := quantized % 256 }) ∧
    ((updateCustomAdvertisingDataBattery SDK_VER quantized r1 r2
        s).state.customServiceData = s.customServiceData) := by
  have hstate :
      (updateCustomAdvertisingDataState SDK_VER newState newFace r1 r2
          s).state.customManufacturerData =
        { ledCount := s.customManufacturerData.ledCount
          designAndColor := s.customManufacturerData.designAndColor
          rollState := newState
          currentFace := (newFace % 256).toNat
          batteryLevel := s.customManufacturerData.batteryLevel } := by
    by_cases hv : 16 ≤ SDK_VER <;> by_cases h1 : r1 = NRF_SUCCESS <;>
      by_cases h2 : r2 = NRF_SUCCESS <;>
      simp [updateCustomAdvertisingDataState, APP_ERROR_CHECK, Outcome.andThen,
        Outcome.state, StackState.log, hv, h1, h2]
  refine ⟨hstate, ?_, ?_, ?_, ?_⟩
  · by_cases hv : 16 ≤ SDK_VER <;> by_cases h1 : r1 = NRF_SUCCESS <;>
      by_cases h2 : r2 = NRF_SUCCESS <;>
      simp [updateCustomAdvertisingDataState, APP_ERROR_CHECK, Outcome.andThen,
        Outcome.state, StackState.log, hv, h1, h2]
  · intro h0 h255
    rw [hstate]
    show (((newFace % 256).toNat : Nat) : Int) = newFace
    omega
  · by_cases hv : 16 ≤ SDK_VER <;> by_cases h1 : r1 = NRF_SUCCESS <;>
      by_cases h2 : r2 = NRF_SUCCESS <;>
      simp [updateCustomAdvertisingDataBattery, APP_ERROR_CHECK, Outcome.andThen,
        Outcome.state, StackState.log, hv, h1, h2]
  · by_cases hv : 16 ≤ SDK_VER <;> by_cases h1 : r1 = NRF_SUCCESS <;>
      by_cases h2 : r2 = NRF_SUCCESS <;>
      simp [updateCustomAdvertisingDataBattery, APP_ERROR_CHECK, Outcome.andThen,
        Outcome.state, StackState.log, hv, h1, h2]

/-- Witness of C21: a roll change to state 3, face 5 on a snapshot with battery level 40. -/
theorem roll_change_touches_roll_fields_witness :
    (0 : Int) ≤ 5 ∧ (5 : Int) ≤ 255 ∧
    ((updateCustomAdvertisingDataState 17 3 5 0 0
        staleBattery).state.customManufacturerData.currentFace : Int) = 5 :=
  ⟨by decide, by decide,
    (roll_change_touches_roll_fields 17 3 5 128 0 0 staleBattery).2.2.1
      (by decide) (by decide)⟩

/-! ### Auxiliary lemmas: the NTC table -/

open NTC

/-- The search loop stops at index `k` when every row before `k` has a voltage at least
`v` and row `k`, if there is one, has a smaller voltage. -/
theorem findNextIndex_eq (v : Int) (k : Nat) (hk : k ≤ NTC_LOOKUP_SIZE)
    (hprev : ∀ j, j < k → ∃ row, lookup[j]? = some row ∧ row.voltageTimes1000 ≥ v)
    (hnext : k < NTC_LOOKUP_SIZE →
      ∃ row, lookup[k]? = some row ∧ row.voltageTimes1000 < v) :
    ∀ fuel i, i ≤ k → k - i < fuel → findNextIndex v fuel i = some k := by
  intro fuel
  induction fuel with
  | zero => intro i _ hf; omega
  | succ fuel ih =>
    intro i hi hf
    unfold findNextIndex
    by_cases hlt : i < NTC_LOOKUP_SIZE
    · rcases Nat.lt_or_eq_of_le hi with h | h
      · obtain ⟨row, hr, hv⟩ := hprev i h
        simp only [hlt, if_true, hr, hv]
        exact ih (i + 1) (by omega) (by omega)
      · subst h
        obtain ⟨row, hr, hv⟩ := hnext hlt
        have hnot : ¬ row.voltageTimes1000 ≥ v := by omega
        simp only [hlt, if_true, hr, hnot, if_false]
    · simp only [hlt, if_false]
      congr 1
      omega

/-- The arithmetic of one interpolation step when the next row is 1000 hundredths of a
degree above the previous one: the two truncating divisions of the code give the
previous temperature plus the floor of the scaled voltage offset. -/
theorem interpolation_step (pt nt pv nv v : Int) (ht : nt = pt + 1000)
    (hge : v ≤ pv) (hgt : nv < v) :
    (pt * (1000 - ((pv - v) * 1000).tdiv (pv - nv))
        + nt * ((pv - v) * 1000).tdiv (pv - nv)).tdiv 1000
      = pt + ((pv - v) * 1000) / (pv - nv) := by
  have h1 : 0 ≤ (pv - v) * 1000 := by omega
  have h2 : 0 ≤ pv - nv := by omega
  rw [Int.tdiv_eq_ediv h1 h2, ht]
  have : pt * (1000 - (pv - v) * 1000 / (pv - nv)) + (pt + 1000) * ((pv - v) * 1000 / (pv - nv))
      = 1000 * (pt + (pv - v) * 1000 / (pv - nv)) := by ring
  rw [this, Int.mul_tdiv_cancel_left _ (by decide)]

/-- Between two adjacent rows the code returns the previous row's temperature plus the
scaled voltage offset. -/
theorem lookupTemperature_segment (v : Int) (i : Nat) (prev next : VoltageAndTemperature)
    (hp : lookup[i]? = some prev) (hn : lookup[i + 1]? = some next)
    (hge : prev.voltageTimes1000 ≥ v) (hgt : v > next.voltageTimes1000) :
    lookupTemperature v = some (prev.temperatureTimes100
      + ((prev.voltageTimes1000 - v) * 1000)
        / (prev.voltageTimes1000 - next.voltageTimes1000)) := by
  have hi : i + 1 < 13 := by
    have := (List.getElem?_eq_some.mp hn).1
    simpa [lookup] using this
  have hi' : i < 12 := by omega
  have hidx : findNextIndex v (NTC_LOOKUP_SIZE + 1) 0 = some (i + 1) := by
    apply findNextIndex_eq v (i + 1) (by simp [NTC_LOOKUP_SIZE]; omega)
    · intro j hj
      have hj' : j < 13 := by omega
      interval_cases i <;> simp [lookup] at hp <;> subst hp <;> simp at hge <;>
        interval_cases j <;> simp [lookup] <;> omega
    · intro _
      exact ⟨next, hn, by omega⟩
    · omega
    · unfold NTC_LOOKUP_SIZE
      omega
  have hstep := interpolation_step prev.temperatureTimes100 next.temperatureTimes100
    prev.voltageTimes1000 next.voltageTimes1000 v
  unfold lookupTemperature
  rw [hidx]
  interval_cases i <;> simp [lookup] at hp hn <;> subst hp <;> subst hn <;>
    simp at hge hgt hstep <;>
    simp [lookup, NTC_LOOKUP_SIZE, intDiv] <;>
    exact hstep hge hgt

/-- Above the first row's voltage the loop stops at index 0 and the code returns the
first temperature. -/
theorem lookupTemperature_above (v : Int) (h : 2770 < v) :
    lookupTemperature v = some (-2000) := by
  have hidx : findNextIndex v (NTC_LOOKUP_SIZE + 1) 0 = some 0 := by
    apply findNextIndex_eq v 0 (Nat.zero_le _)
    · intro j hj
      omega
    · intro _
      exact ⟨_, rfl, by simpa using h⟩
    · omega
    · unfold NTC_LOOKUP_SIZE
      omega
  unfold lookupTemperature
  rw [hidx]
  simp [lookup]

/-- At or below the last row's voltage the loop runs off the table and the code returns
the last temperature. -/
theorem lookupTemperature_below (v : Int) (h : v ≤ 150) :
    lookupTemperature v = some 10000 := by
  have hidx : findNextIndex v (NTC_LOOKUP_SIZE + 1) 0 = some NTC_LOOKUP_SIZE := by
    apply findNextIndex_eq v NTC_LOOKUP_SIZE (Nat.le_refl _)
    · intro j hj
      have hj' : j < 13 := hj
      interval_cases j <;> simp [lookup] <;> omega
    · intro hlt
      exact absurd hlt (Nat.lt_irrefl _)
    · omega
    · unfold NTC_LOOKUP_SIZE
      omega
  unfold lookupTemperature
  rw [hidx]
  simp [lookup, NTC_LOOKUP_SIZE]

/-- Every voltage lies in exactly one segment of the table, where the interpolation has
its closed form. -/
theorem interpolated_cases (v : Int) :
    (2770 < v ∧ interpolated v = -2000) ∨
    (2590 < v ∧ v ≤ 2770 ∧ interpolated v = -2000 + (2770 - v) * 1000 / 180) ∨
    (2350 < v ∧ v ≤ 2590 ∧ interpolated v = -1000 + (2590 - v) * 1000 / 240) ∨
    (2040 < v ∧ v ≤ 2350 ∧ interpolated v = 0 + (2350 - v) * 1000 / 310) ∨
    (1670 < v ∧ v ≤ 2040 ∧ interpolated v = 1000 + (2040 - v) * 1000 / 370) ∨
    (1320 < v ∧ v ≤ 1670 ∧ interpolated v = 2000 + (1670 - v) * 1000 / 350) ∨
    (1000 < v ∧ v ≤ 1320 ∧ interpolated v = 3000 + (1320 - v) * 1000 / 320) ∨
    (750 < v ∧ v ≤ 1000 ∧ interpolated v = 4000 + (1000 - v) * 1000 / 250) ∨
    (550 < v ∧ v ≤ 750 ∧ interpolated v = 5000 + (750 - v) * 1000 / 200) ∨
    (400 < v ∧ v ≤ 550 ∧ interpolated v = 6000 + (550 - v) * 1000 / 150) ∨
    (280 < v ∧ v ≤ 400 ∧ interpolated v = 7000 + (400 - v) * 1000 / 120) ∨
    (200 < v ∧ v ≤ 280 ∧ interpolated v = 8000 + (280 - v) * 1000 / 80) ∨
    (150 < v ∧ v ≤ 200 ∧ interpolated v = 9000 + (200 - v) * 1000 / 50) ∨
    (v ≤ 150 ∧ interpolated v = 10000) := by
  by_cases h0 : 2770 < v
  · exact Or.inl ⟨h0, by rw [interpolated, if_pos h0]⟩
  refine Or.inr ?_
  by_cases h1 : 2590 < v
  · exact Or.inl ⟨h1, by omega, by rw [interpolated, if_neg h0, if_pos h1]⟩
  refine Or.inr ?_
  by_cases h2 : 2350 < v
  · exact Or.inl ⟨h2, by omega, by rw [interpolated, if_neg h0, if_neg h1, if_pos h2]⟩
  refine Or.inr ?_
  by_cases h3 : 2040 < v
  · exact Or.inl ⟨h3, by omega, by rw [interpolated, if_neg h0, if_neg h1, if_neg h2, if_pos h3]⟩
  refine Or.inr ?_
  by_cases h4 : 1670 < v
  · exact Or.inl ⟨h4, by omega, by rw [interpolated, if_neg h0, if_neg h1, if_neg h2, if_neg h3, if_pos h4]⟩
  refine Or.inr ?_
  by_cases h5 : 1320 < v
  · exact Or.inl ⟨h5, by omega, by rw [interpolated, if_neg h0, if_neg h1, if_neg h2, if_neg h3, if_neg h4, if_pos h5]⟩
  refine Or.inr ?_
  by_cases h6 : 1000 < v
  · exact Or.inl ⟨h6, by omega, by rw [interpolated, if_neg h0, if_neg h1, if_neg h2, if_neg h3, if_neg h4, if_neg h5, if_pos h6]⟩
  refine Or.inr ?_
  by_cases h7 : 750 < v
  · exact Or.inl ⟨h7, by omega, by rw [interpolated, if_neg h0, if_neg h1, if_neg h2, if_neg h3, if_neg h4, if_neg h5, if_neg h6, if_pos h7]⟩
  refine Or.inr ?_
  by_cases h8 : 550 < v
  · exact Or.inl ⟨h8, by omega, by rw [interpolated, if_neg h0, if_neg h1, if_neg h2, if_neg h3, if_neg h4, if_neg h5, if_neg h6, if_neg h7, if_pos h8]⟩
  refine Or.inr ?_
  by_cases h9 : 400 < v
  · exact Or.inl ⟨h9, by omega, by rw [interpolated, if_neg h0, if_neg h1, if_neg h2, if_neg h3, if_neg h4, if_neg h5, if_neg h6, if_neg h7, if_neg h8, if_pos h9]⟩
  refine Or.inr ?_
  by_cases h10 : 280 < v
  · exact Or.inl ⟨h10, by omega, by rw [interpolated, if_neg h0, if_neg h1, if_neg h2, if_neg h3, if_neg h4, if_neg h5, if_neg h6, if_neg h7, if_neg h8, if_neg h9, if_pos h10]⟩
  refine Or.inr ?_
  by_cases h11 : 200 < v
  · exact Or.inl ⟨h11, by omega, by rw [interpolated, if_neg h0, if_neg h1, if_neg h2, if_neg h3, if_neg h4, if_neg h5, if_neg h6, if_neg h7, if_neg h8, if_neg h9, if_neg h10, if_pos h11]⟩
  refine Or.inr ?_
  by_cases h12 : 150 < v
  · exact Or.inl ⟨h12, by omega, by rw [interpolated, if_neg h0, if_neg h1, if_neg h2, if_neg h3, if_neg h4, if_neg h5, if_neg h6, if_neg h7, if_neg h8, if_neg h9, if_neg h10, if_neg h11, if_pos h12]⟩
  · exact Or.inr ⟨by omega, by rw [interpolated, if_neg h0, if_neg h1, if_neg h2, if_neg h3, if_neg h4, if_neg h5, if_neg h6, if_neg h7, if_neg h8, if_neg h9, if_neg h10, if_neg h11, if_neg h12]⟩

/-- The code computes, for every input, the segment-by-segment interpolation. -/
theorem lookupTemperature_eq_interpolated (v : Int) :
    lookupTemperature v = some (interpolated v) := by
  rcases interpolated_cases v with
    ⟨h, e⟩ | ⟨hlo, hhi, e⟩ | ⟨hlo, hhi, e⟩ | ⟨hlo, hhi, e⟩ | ⟨hlo, hhi, e⟩ | ⟨hlo, hhi, e⟩ | ⟨hlo, hhi, e⟩ | ⟨hlo, hhi, e⟩ | ⟨hlo, hhi, e⟩ | ⟨hlo, hhi, e⟩ | ⟨hlo, hhi, e⟩ | ⟨hlo, hhi, e⟩ | ⟨hlo, hhi, e⟩ | ⟨h, e⟩
  · rw [e]
    exact lookupTemperature_above v h
  · rw [e]
    have hseg := lookupTemperature_segment v 0 _ _ rfl rfl (by simpa using hhi)
      (by simpa using hlo)
    simpa [lookup] using hseg
  · rw [e]
    have hseg := lookupTemperature_segment v 1 _ _ rfl rfl (by simpa using hhi)
      (by simpa using hlo)
    simpa [lookup] using hseg
  · rw [e]
    have hseg := lookupTemperature_segment v 2 _ _ rfl rfl (by simpa using hhi)
      (by simpa using hlo)
    simpa [lookup] using hseg
  · rw [e]
    have hseg := lookupTemperature_segment v 3 _ _ rfl rfl (by simpa using hhi)
      (by simpa using hlo)
    simpa [lookup] using hseg
  · rw [e]
    have hseg := lookupTemperature_segment v 4 _ _ rfl rfl (by simpa using hhi)
      (by simpa using hlo)
    simpa [lookup] using hseg
  · rw [e]
    have hseg := lookupTemperature_segment v 5 _ _ rfl rfl (by simpa using hhi)
      (by simpa using hlo)
    simpa [lookup] using hseg
  · rw [e]
    have hseg := lookupTemperature_segment v 6 _ _ rfl rfl (by simpa using hhi)
      (by simpa using hlo)
    simpa [lookup] using hseg
  · rw [e]
    have hseg := lookupTemperature_segment v 7 _ _ rfl rfl (by simpa using hhi)
      (by simpa using hlo)
    simpa [lookup] using hseg
  · rw [e]
    have hseg := lookupTemperature_segment v 8 _ _ rfl rfl (by simpa using hhi)
      (by simpa using hlo)
    simpa [lookup] using hseg
  · rw [e]
    have hseg := lookupTemperature_segment v 9 _ _ rfl rfl (by simpa using hhi)
      (by simpa using hlo)
    simpa [lookup] using hseg
  · rw [e]
    have hseg := lookupTemperature_segment v 10 _ _ rfl rfl (by simpa using hhi)
      (by simpa using hlo)
    simpa [lookup] using hseg
  · rw [e]
    have hseg := lookupTemperature_segment v 11 _ _ rfl rfl (by simpa using hhi)
      (by simpa using hlo)
    simpa [lookup] using hseg
  · rw [e]
    exact lookupTemperature_below v h

/-- The interpolation never rises when the voltage rises. -/
theorem interpolated_antitone (v1 v2 : Int) (h : v1 ≤ v2) :
    interpolated v2 ≤ interpolated v1 := by
  rcases interpolated_cases v1 with
    ⟨a, e1⟩ | ⟨a, b, e1⟩ | ⟨a, b, e1⟩ | ⟨a, b, e1⟩ | ⟨a, b, e1⟩ | ⟨a, b, e1⟩ | ⟨a, b, e1⟩ | ⟨a, b, e1⟩ | ⟨a, b, e1⟩ | ⟨a, b, e1⟩ | ⟨a, b, e1⟩ | ⟨a, b, e1⟩ | ⟨a, b, e1⟩ | ⟨a, e1⟩ <;>
  rcases interpolated_cases v2 with
    ⟨c, e2⟩ | ⟨c, d, e2⟩ | ⟨c, d, e2⟩ | ⟨c, d, e2⟩ | ⟨c, d, e2⟩ | ⟨c, d, e2⟩ | ⟨c, d, e2⟩ | ⟨c, d, e2⟩ | ⟨c, d, e2⟩ | ⟨c, d, e2⟩ | ⟨c, d, e2⟩ | ⟨c, d, e2⟩ | ⟨c, d, e2⟩ | ⟨c, e2⟩ <;>
  rw [e1, e2] <;> omega

/-- The interpolation stays within the table's temperature range. -/
theorem interpolated_bounds (v : Int) :
    -2000 ≤ interpolated v ∧ interpolated v ≤ 10000 := by
  rcases interpolated_cases v with
    ⟨a, e⟩ | ⟨a, b, e⟩ | ⟨a, b, e⟩ | ⟨a, b, e⟩ | ⟨a, b, e⟩ | ⟨a, b, e⟩ | ⟨a, b, e⟩ | ⟨a, b, e⟩ | ⟨a, b, e⟩ | ⟨a, b, e⟩ | ⟨a, b, e⟩ | ⟨a, b, e⟩ | ⟨a, b, e⟩ | ⟨a, e⟩ <;>
  rw [e] <;> omega

/-! ### C22 -/

/-- C22: on the integer millivolt input, `lookupTemperature` returns -2000 above 2770 and
10000 at or below 150; for `prev` and `next` adjacent rows with `prev.voltage >= v >
next.voltage` (such rows exist for every other input) the divisor is not zero and the
result is `prev.temperature + ((prev.voltage - v) * 1000) / (prev.voltage -
next.voltage)`, the operands being non-negative so that the code's truncating division
is the floor; at every table voltage the result is that row's temperature; and the
function returns a value for every input, that is, no table index leaves the table and
no divisor is zero. -/
theorem lookupTemperature_interpolates :
    (∀ v : Int, 2770 < v → lookupTemperature v = some (-2000)) ∧
    (∀ v : Int, v ≤ 150 → lookupTemperature v = some 10000) ∧
    (∀ (v : Int) (i : Nat) (prev next : VoltageAndTemperature),
      lookup[i]? = some prev → lookup[i + 1]? = some next →
      prev.voltageTimes1000 ≥ v → v > next.voltageTimes1000 →
      prev.voltageTimes1000 - next.voltageTimes1000 ≠ 0 ∧
      lookupTemperature v = some (prev.temperatureTimes100
        + ((prev.voltageTimes1000 - v) * 1000)
          / (prev.voltageTimes1000 - next.voltageTimes1000))) ∧
    (∀ v : Int, 150 < v → v ≤ 2770 →
      ∃ (i : Nat) (prev next : VoltageAndTemperature),
        lookup[i]? = some prev ∧ lookup[i + 1]? = some next ∧
        prev.voltageTimes1000 ≥ v ∧ v > next.voltageTimes1000) ∧
    (∀ row ∈ lookup, lookupTemperature row.voltageTimes1000 = some row.temperatureTimes100) ∧
    (∀ v : Int, ∃ t, lookupTemperature v = some t) := by
  refine ⟨lookupTemperature_above, lookupTemperature_below, ?_, ?_, by decide, ?_⟩
  · intro v i prev next hp hn hge hgt
    exact ⟨by omega, lookupTemperature_segment v i prev next hp hn hge hgt⟩
  · intro v hlow hhigh
    rcases interpolated_cases v with
      ⟨h, _⟩ | ⟨hlo, hhi, _⟩ | ⟨hlo, hhi, _⟩ | ⟨hlo, hhi, _⟩ | ⟨hlo, hhi, _⟩ | ⟨hlo, hhi, _⟩ | ⟨hlo, hhi, _⟩ | ⟨hlo, hhi, _⟩ | ⟨hlo, hhi, _⟩ | ⟨hlo, hhi, _⟩ | ⟨hlo, hhi, _⟩ | ⟨hlo, hhi, _⟩ | ⟨hlo, hhi, _⟩ | ⟨h, _⟩
    · omega
    · exact ⟨0, _, _, rfl, rfl, by simpa using hhi, by simpa using hlo⟩
    · exact ⟨1, _, _, rfl, rfl, by simpa using hhi, by simpa using hlo⟩
    · exact ⟨2, _, _, rfl, rfl, by simpa using hhi, by simpa using hlo⟩
    · exact ⟨3, _, _, rfl, rfl, by simpa using hhi, by simpa using hlo⟩
    · exact ⟨4, _, _, rfl, rfl, by simpa using hhi, by simpa using hlo⟩
    · exact ⟨5, _, _, rfl, rfl, by simpa using hhi, by simpa using hlo⟩
    · exact ⟨6, _, _, rfl, rfl, by simpa using hhi, by simpa using hlo⟩
    · exact ⟨7, _, _, rfl, rfl, by simpa using hhi, by simpa using hlo⟩
    · exact ⟨8, _, _, rfl, rfl, by simpa using hhi, by simpa using hlo⟩
    · exact ⟨9, _, _, rfl, rfl, by simpa using hhi, by simpa using hlo⟩
    · exact ⟨10, _, _, rfl, rfl, by simpa using hhi, by simpa using hlo⟩
    · exact ⟨11, _, _, rfl, rfl, by simpa using hhi, by simpa using hlo⟩
    · omega
  · intro v
    exact ⟨_, lookupTemperature_eq_interpolated v⟩

/-- Witness of C22: 2600 mV lies between the rows 2770 and 2590; 2900 mV is above the
table and 100 mV below it. -/
theorem lookupTemperature_interpolates_witness :
    ((2770 : Int) < 2900 ∧ lookupTemperature 2900 = some (-2000)) ∧
    ((100 : Int) ≤ 150 ∧ lookupTemperature 100 = some 10000) ∧
    (lookup[0]? = some { voltageTimes1000 := 2770, temperatureTimes100 := -2000 } ∧
      lookup[0 + 1]? = some { voltageTimes1000 := 2590, temperatureTimes100 := -1000 } ∧
      (2770 : Int) ≥ 2600 ∧ (2600 : Int) > 2590 ∧
      lookupTemperature 2600 = some (-2000 + ((2770 - 2600) * 1000) / (2770 - 2590))) :=
  ⟨⟨by decide, lookupTemperature_interpolates.1 2900 (by decide)⟩,
   ⟨by decide, lookupTemperature_interpolates.2.1 100 (by decide)⟩,
   ⟨rfl, rfl, by decide, by decide,
    (lookupTemperature_interpolates.2.2.1 2600 0
      { voltageTimes1000 := 2770, temperatureTimes100 := -2000 }
      { voltageTimes1000 := 2590, temperatureTimes100 := -1000 }
      rfl rfl (by decide) (by decide)).2⟩⟩

/-! ### C23 -/

/-- C23: for integer millivolt inputs `v1 <= v2`, `lookupTemperature` returns values for
both and the value at `v2` is not above the value at `v1`, also across segment
boundaries; every result lies between -2000 and 10000. -/
theorem lookupTemperature_monotone_bounded :
    (∀ v1 v2 : Int, v1 ≤ v2 →
      ∃ t1 t2, lookupTemperature v1 = some t1 ∧ lookupTemperature v2 = some t2 ∧ t2 ≤ t1) ∧
    (∀ v : Int, ∃ t, lookupTemperature v = some t ∧ -2000 ≤ t ∧ t ≤ 10000) := by
  refine ⟨?_, ?_⟩
  · intro v1 v2 h
    exact ⟨_, _, lookupTemperature_eq_interpolated v1, lookupTemperature_eq_interpolated v2,
      interpolated_antitone v1 v2 h⟩
  · intro v
    exact ⟨_, lookupTemperature_eq_interpolated v, interpolated_bounds v⟩

/-- Witness of C23 across the segment boundary at 2350 mV. -/
theorem lookupTemperature_monotone_bounded_witness :
    (2350 : Int) ≤ 2351 ∧
    ∃ t1 t2, lookupTemperature 2350 = some t1 ∧ lookupTemperature 2351 = some t2 ∧ t2 ≤ t1 :=
  ⟨by decide, lookupTemperature_monotone_bounded.1 2350 2351 (by decide)⟩

/-! ### Auxiliary lemmas: the temperature dispatch loop -/

/-- No callback of the embedding adds a registry entry. -/
theorem callHandler_count_le (d : Delegate) (celsiusTimes100 : Int) (s : TemperatureState) :
    (Temperature.callHandler d celsiusTimes100 s).clients.Count ≤ s.clients.Count := by
  unfold Temperature.callHandler
  split
  · simp only [Temperature.initLambda, Temperature.log, DelegateArray.Count,
      DelegateArray.UnregisterWithToken]
    exact List.length_eraseP_le _
  · exact Nat.le_refl _

/-- The dispatch loop is done once its index has reached the entry count: more fuel
changes nothing. -/
theorem dispatchLoop_fuel (celsiusTimes100 : Int) (extra : Nat) :
    ∀ (fuel i : Nat) (s : TemperatureState), s.clients.Count ≤ i + fuel →
      Temperature.dispatchLoop celsiusTimes100 (fuel + extra) i s
        = Temperature.dispatchLoop celsiusTimes100 fuel i s := by
  intro fuel
  induction fuel with
  | zero =>
    intro i s h
    have hi : ¬ i < s.clients.Count := by omega
    rw [Nat.zero_add]
    cases extra with
    | zero => rfl
    | succ e =>
      have hs : Temperature.dispatchLoop celsiusTimes100 (e + 1) i s = s := by
        unfold Temperature.dispatchLoop
        simp only [hi, if_false]
      rw [hs]
      rfl
  | succ fuel ih =>
    intro i s h
    have e : fuel + 1 + extra = (fuel + extra) + 1 := by omega
    rw [e]
    unfold Temperature.dispatchLoop
    by_cases hi : i < s.clients.Count
    · simp only [hi, if_true]
      cases hd : s.clients.items[i]? with
      | none => rfl
      | some d =>
        simp only
        apply ih
        have := callHandler_count_le d celsiusTimes100 s
        omega
    · simp only [hi, if_false]

/-! ### C24 -/

/-- C24 (evaluation of the code): when starting the measurement fails, `init` calls the
callback with `false` at once and registers nothing; when it succeeds and `init` is the
only registration, the callback is called with `true` on the first measurement and never
again. But when a client is hooked after `init`, the lambda removes its own entry during
the dispatch of the first measurement, the client moves to the index just visited, and
the loop ends without calling it: the client misses the first measurement and receives
only the later ones. A client hooked before `init` receives every measurement. When the
registry already holds its two entries, `init` registers nothing and the callback is never
called. The fuel of the loop is enough: more of it gives the same result. -/
theorem init_lambda_removal_skips_next_client :
    (∀ (celsiusTimes100 : Int) (extra : Nat) (s : TemperatureState),
      Temperature.dispatchLoop celsiusTimes100 (s.clients.Count + extra) 0 s =
        Temperature.temperatureReadyHandler celsiusTimes100 s) ∧
    (∀ (callback code : Nat) (s : TemperatureState),
      Temperature.init callback (code + 1) s =
        { clients := s.clients
          trace := s.trace ++ [TemperatureCall.nrfx_temp_init,
            TemperatureCall.nrfx_temp_measure,
            TemperatureCall.initCallback callback false] }) ∧
    (∀ (callback : Nat) (t1 t2 : Int),
      Temperature.temperatureReadyHandler t1
          (Temperature.init callback NRF_SUCCESS Temperature.initialState) =
        { clients := { maxCount := Temperature.MAX_CLIENTS, items := [] }
          trace := [TemperatureCall.nrfx_temp_init, TemperatureCall.nrfx_temp_measure,
            TemperatureCall.initCallback callback true] } ∧
      Temperature.temperatureReadyHandler t2
          (Temperature.temperatureReadyHandler t1
            (Temperature.init callback NRF_SUCCESS Temperature.initialState)) =
        Temperature.temperatureReadyHandler t1
          (Temperature.init callback NRF_SUCCESS Temperature.initialState)) ∧
    (∀ (callback id param : Nat) (t1 t2 : Int),
      Temperature.temperatureReadyHandler t1
          (Temperature.hook (Handler.client id) param
            (Temperature.init callback NRF_SUCCESS Temperature.initialState)) =
        { clients := { maxCount := Temperature.MAX_CLIENTS,
                       items := [{ token := param, handler := Handler.client id }] }
          trace := [TemperatureCall.nrfx_temp_init, TemperatureCall.nrfx_temp_measure,
            TemperatureCall.initCallback callback true] } ∧
      (Temperature.temperatureReadyHandler t2
          (Temperature.temperatureReadyHandler t1
            (Temperature.hook (Handler.client id) param
              (Temperature.init callback NRF_SUCCESS Temperature.initialState)))).trace =
        [TemperatureCall.nrfx_temp_init, TemperatureCall.nrfx_temp_measure,
          TemperatureCall.initCallback callback true,
          TemperatureCall.clientHandler (Handler.client id) param t2]) ∧
    ((Temperature.temperatureReadyHandler 2500 hookThenInit).trace =
        [TemperatureCall.nrfx_temp_init, TemperatureCall.nrfx_temp_measure,
          TemperatureCall.clientHandler (Handler.client 1) 10 2500,
          TemperatureCall.initCallback 100 true] ∧
      (Temperature.temperatureReadyHandler 2600
          (Temperature.temperatureReadyHandler 2500 hookThenInit)).trace =
        [TemperatureCall.nrfx_temp_init, TemperatureCall.nrfx_temp_measure,
          TemperatureCall.clientHandler (Handler.client 1) 10 2500,
          TemperatureCall.initCallback 100 true,
          TemperatureCall.clientHandler (Handler.client 1) 10 2600]) ∧
    (TemperatureCall.clientHandler (Handler.client 1) 10 2500 ∉
        (Temperature.temperatureReadyHandler 2500 initThenHook).trace ∧
      TemperatureCall.initCallback 100 true ∈
        (Temperature.temperatureReadyHandler 2500 initThenHook).trace) ∧
    (initOnFullRegistry.clients.subscribed Handler.temperatureInitLambda = false ∧
      (Temperature.temperatureReadyHandler 2500 initOnFullRegistry).trace =
        [TemperatureCall.nrfx_temp_init, TemperatureCall.nrfx_temp_measure,
          TemperatureCall.clientHandler (Handler.client 1) 10 2500,
          TemperatureCall.clientHandler (Handler.client 2) 20 2500]) := by
  refine ⟨?_, ?_, ?_, ?_, by decide, by decide, by decide⟩
  · intro celsiusTimes100 extra s
    exact dispatchLoop_fuel celsiusTimes100 extra s.clients.Count 0 s (by omega)
  · intro callback code s
    simp [Temperature.init, Temperature.log, NRF_SUCCESS]
  · intro callback t1 t2
    simp [Temperature.temperatureReadyHandler, Temperature.dispatchLoop, Temperature.init,
      Temperature.initialState, Temperature.log, Temperature.callHandler,
      Temperature.initLambda, Temperature.MAX_CLIENTS, DelegateArray.Register,
      DelegateArray.Count, DelegateArray.UnregisterWithToken, NRF_SUCCESS]
  · intro callback id param t1 t2
    simp [Temperature.temperatureReadyHandler, Temperature.dispatchLoop, Temperature.init,
      Temperature.hook, Temperature.initialState, Temperature.log, Temperature.callHandler,
      Temperature.initLambda, Temperature.MAX_CLIENTS, DelegateArray.Register,
      DelegateArray.Count, DelegateArray.UnregisterWithToken, NRF_SUCCESS]

/-! ### Auxiliary lemma: the sibling of `Stack.hook` -/

/-- `Temperature::hook` on a full registry leaves the entries alone and writes the error
line, unlike the stack's `hook`. -/
theorem temperature_hook_reports_full_registry :
    (Temperature.hook (Handler.client 3) 30 initOnFullRegistry).clients
      = initOnFullRegistry.clients ∧
    (Temperature.hook (Handler.client 3) 30 initOnFullRegistry).trace
      = initOnFullRegistry.trace ++ [TemperatureCall.NRF_LOG_ERROR] := by
  decide

end DiceFirmware
